import Mathlib

/-!
# Verification of the MAKEPPT DOM-to-Slide compiler

Shallow embedding of the HTML→PPT converter's core modules
(StyleConverter, AnimationConverter, HtmlParser, PptGenerator,
HtmlToPptConverter) and proofs about the spec's claims.

Numbers are embedded as exact rationals (`ℚ`).  JavaScript `NaN`
propagation is embedded with `Option ℚ` (`none` = NaN) at the few places
where the source can produce NaN.  JS falsiness of strings/numbers is
embedded explicitly (`s = ""`, `v = 0`).
-/

namespace MakePpt

/-- JS `a || b` on numbers: `b` when `a` is `0` or `NaN` (`none`). -/
def jsOrQ (a : Option ℚ) (b : ℚ) : ℚ :=
  match a with
  | none => b
  | some v => if v = 0 then b else v

/-- JS `a || b` on strings: `b` when `a` is the empty string. -/
def jsOrS (a b : String) : String :=
  if a = "" then b else a

/-- JS `a || b` where `a` is a nullable string. -/
def jsOrOS (a : Option String) (b : String) : String :=
  match a with
  | none => b
  | some s => if s = "" then b else s

/-- Does `hay` start with `needle` (on character lists)? -/
def startsWithL : List Char → List Char → Bool
  | _, [] => true
  | [], _ :: _ => false
  | h :: hs, n :: ns => h = n && startsWithL hs ns

/-- JS `String.prototype.includes`: substring containment. -/
def includesL (hay needle : List Char) : Bool :=
  match hay with
  | [] => startsWithL [] needle
  | _ :: t => startsWithL hay needle || includesL t needle

/-- JS `hay.includes(needle)` on strings. -/
def sIncludes (hay needle : String) : Bool :=
  includesL hay.toList needle.toList

/-- JS `hay.startsWith(needle)` on strings. -/
def sStartsWith (hay needle : String) : Bool :=
  startsWithL hay.toList needle.toList

/-- Numeric value of a decimal digit list (most significant first). -/
def digitsVal (ds : List Char) : ℕ :=
  ds.foldl (fun a c => a * 10 + (c.toNat - 48)) 0

/-- JS `parseFloat` on a character list: skip leading whitespace, optional
sign, decimal digits with an optional fractional part; `none` is NaN.
(The exponent form never occurs in the CSS values this program parses.) -/
def jsParseFloatL (cs : List Char) : Option ℚ :=
  let cs := cs.dropWhile (·.isWhitespace)
  let (sign, cs) : ℚ × List Char :=
    match cs with
    | '-' :: t => (-1, t)
    | '+' :: t => (1, t)
    | _ => (1, cs)
  let intPart := cs.takeWhile (·.isDigit)
  let rest := cs.dropWhile (·.isDigit)
  let fracPart :=
    match rest with
    | '.' :: t => t.takeWhile (·.isDigit)
    | _ => []
  if intPart = [] ∧ fracPart = [] then none
  else some (sign * ((digitsVal intPart : ℚ) +
    (digitsVal fracPart : ℚ) / (10 : ℚ) ^ fracPart.length))

/-- JS `parseFloat` on a string. -/
def jsParseFloat (s : String) : Option ℚ := jsParseFloatL s.toList

/-- JS `parseInt` (radix 10): skip whitespace, optional sign, decimal
digits; `none` is NaN. -/
def jsParseIntL (cs : List Char) : Option ℤ :=
  let cs := cs.dropWhile (·.isWhitespace)
  let (sign, cs) : ℤ × List Char :=
    match cs with
    | '-' :: t => (-1, t)
    | '+' :: t => (1, t)
    | _ => (1, cs)
  let intPart := cs.takeWhile (·.isDigit)
  if intPart = [] then none else some (sign * (digitsVal intPart : ℤ))

/-- JS `parseInt` on a string. -/
def jsParseInt (s : String) : Option ℤ := jsParseIntL s.toList

/-- Lowercase a string (JS `toLowerCase`; ASCII, which covers all inputs
this program compares). -/
def jsToLower (s : String) : String := String.mk (s.toList.map Char.toLower)

/-- Uppercase a string (JS `toUpperCase`). -/
def jsToUpper (s : String) : String := String.mk (s.toList.map Char.toUpper)

/-- Hex digit character, lowercase, as produced by JS `toString(16)`. -/
def hexChar (n : ℕ) : Char :=
  if n < 10 then Char.ofNat (48 + n) else Char.ofNat (87 + n)

/-- Digit loop of `jsHexL`; the fuel only bounds the digit count and the
wrapper always passes enough (`n` itself). -/
def jsHexGo : ℕ → ℕ → List Char
  | 0, n => [hexChar n]
  | fuel + 1, n =>
    if n < 16 then [hexChar n]
    else jsHexGo fuel (n / 16) ++ [hexChar (n % 16)]

/-- JS `n.toString(16)` for a nonnegative integer: lowercase hex digits,
no leading zeros (`"0"` for zero). -/
def jsHexL (n : ℕ) : List Char := jsHexGo n n

/-- JS `padStart(2, '0')` on a character list. -/
def padStart2 (l : List Char) : List Char :=
  if l.length < 2 then List.replicate (2 - l.length) '0' ++ l else l

/-- Trim whitespace from both ends of a character list. -/
def trimL (l : List Char) : List Char :=
  ((l.dropWhile (·.isWhitespace)).reverse.dropWhile (·.isWhitespace)).reverse

/-- JS `String.prototype.trim`. -/
def jsTrim (s : String) : String := String.mk (trimL s.toList)

/-- Split a character list at every separator character (the separators
are dropped; empty runs are kept, as `split` does). -/
def splitChars (p : Char → Bool) : List Char → List (List Char)
  | [] => [[]]
  | c :: t =>
    if p c then [] :: splitChars p t
    else
      match splitChars p t with
      | [] => [[c]]
      | g :: gs => (c :: g) :: gs

/-- JS `s.split(sep)` for a one-character separator. -/
def jsSplit (s : String) (p : Char → Bool) : List String :=
  (splitChars p s.toList).map String.mk

/-- Two-digit uppercase hex rendering of one rgb component, as built by
`parseInt(x).toString(16).padStart(2, '0')` followed by `toUpperCase()`. -/
def hexByte (n : ℕ) : List Char := (padStart2 (jsHexL n)).map Char.toUpper

/-- Try to match `rgba?\((\d+),\s*(\d+),\s*(\d+)` at the head of the list,
returning the three captured numbers. -/
def matchRgbAt (cs : List Char) : Option (ℕ × ℕ × ℕ) :=
  match cs with
  | 'r' :: 'g' :: 'b' :: rest =>
    let afterParen : Option (List Char) :=
      match rest with
      | 'a' :: '(' :: t => some t
      | '(' :: t => some t
      | _ => none
    match afterParen with
    | none => none
    | some t =>
      let d1 := t.takeWhile (·.isDigit)
      let t := t.dropWhile (·.isDigit)
      if d1 = [] then none else
      match t with
      | ',' :: t =>
        let t := t.dropWhile (·.isWhitespace)
        let d2 := t.takeWhile (·.isDigit)
        let t := t.dropWhile (·.isDigit)
        if d2 = [] then none else
        match t with
        | ',' :: t =>
          let t := t.dropWhile (·.isWhitespace)
          let d3 := t.takeWhile (·.isDigit)
          if d3 = [] then none
          else some (digitsVal d1, digitsVal d2, digitsVal d3)
        | _ => none
      | _ => none
  | _ => none

/-- Scan for the first match of `rgba?\((\d+),\s*(\d+),\s*(\d+)`
anywhere in the list (JS `String.prototype.match` scans left to right). -/
def findRgb : List Char → Option (ℕ × ℕ × ℕ)
  | [] => none
  | c :: t =>
    match matchRgbAt (c :: t) with
    | some r => some r
    | none => findRgb t

/-- The double-quote character. -/
def quoteD : Char := Char.ofNat 34

/-- The single-quote character. -/
def quoteS : Char := Char.ofNat 39

/-- JS `Math.round`: round half toward positive infinity. -/
def jsRound (q : ℚ) : ℤ := ⌊q + 1 / 2⌋

/-!
## Data records

`StyleData` is the computed-style record captured per node by
`HtmlParser.extractComputedStyles` and consumed by every `StyleConverter`
function.  The color-valued fields hold the result of
`HtmlParser.normalizeColor`, which can be `null` (`none`).  The source's
`extractComputedStyles` does not capture `backgroundImage`, so that field
is `""` (JS `undefined`) on every record the parser builds; it is kept in
the record because `StyleConverter.convertShapeStyles` reads it.
-/

structure StyleData where
  fontFamily : String := ""
  fontSize : String := ""
  fontWeight : String := ""
  fontStyle : String := ""
  textDecoration : String := ""
  textAlign : String := ""
  lineHeight : String := ""
  letterSpacing : String := ""
  color : Option String := none
  backgroundColor : Option String := none
  borderWidth : String := ""
  borderStyle : String := ""
  borderColor : Option String := none
  borderRadius : String := ""
  boxShadow : String := ""
  textShadow : String := ""
  opacity : String := ""
  transform : String := ""
  animation : String := ""
  transition : String := ""
  backgroundImage : String := ""
  deriving Repr, DecidableEq

/-- A rectangle in source pixel space or target inch space. -/
structure RectQ where
  x : ℚ := 0
  y : ℚ := 0
  width : ℚ := 0
  height : ℚ := 0
  deriving Repr, DecidableEq

/-- A container size in pixels. -/
structure SizeQ where
  width : ℚ
  height : ℚ
  deriving Repr, DecidableEq

/-- A target position `{x, y, w, h}` in inches. -/
structure PosQ where
  x : ℚ := 0
  y : ℚ := 0
  w : ℚ := 0
  h : ℚ := 0
  deriving Repr, DecidableEq

namespace StyleConverter

/-- `StyleConverter.fontMap`: curated web-font → cross-platform-font map. -/
def fontMap : List (String × String) :=
  [("Arial", "Arial"),
   ("Helvetica", "Arial"),
   ("Helvetica Neue", "Arial"),
   ("-apple-system", "Arial"),
   ("BlinkMacSystemFont", "Arial"),
   ("Segoe UI", "Arial"),
   ("Roboto", "Arial"),
   ("sans-serif", "Arial"),
   ("Times New Roman", "Times New Roman"),
   ("Times", "Times New Roman"),
   ("Georgia", "Georgia"),
   ("serif", "Times New Roman"),
   ("Verdana", "Verdana"),
   ("Courier New", "Courier New"),
   ("Courier", "Courier New"),
   ("monospace", "Courier New"),
   ("Consolas", "Courier New"),
   ("Monaco", "Courier New"),
   ("Microsoft YaHei", "Microsoft YaHei"),
   ("微软雅黑", "Microsoft YaHei"),
   ("SimHei", "SimHei"),
   ("黑体", "SimHei"),
   ("SimSun", "SimSun"),
   ("宋体", "SimSun"),
   ("PingFang SC", "PingFang SC"),
   ("Hiragino Sans GB", "Hiragino Sans GB"),
   ("STHeiti", "SimHei"),
   ("Noto Sans SC", "Microsoft YaHei"),
   ("Source Han Sans SC", "Microsoft YaHei")]

/-- `StyleConverter.pxToInches` on a number (dpi = 96). -/
def pxToInches (v : ℚ) : ℚ := v / 96

/-- `StyleConverter.pxToPoints` on a number (1px = 0.75pt). -/
def pxToPoints (v : ℚ) : ℚ := v * (3 / 4)

/-- `StyleConverter.parseFontSize`.  `none` is JS `NaN`: when the input
carries a recognized unit but no leading number (`parseFloat` → NaN), the
NaN flows through the unit arithmetic and `Math.max(8, Math.min(NaN, 96))`
back out.  In the unknown-unit branch `value || 18` recovers NaN to 18. -/
def parseFontSize (fontSize : String) : Option ℚ :=
  if fontSize = "" then some 18
  else
    let value := jsParseFloat fontSize
    let points : Option ℚ :=
      if sIncludes fontSize "px" then value.map pxToPoints
      else if sIncludes fontSize "pt" then value
      else if sIncludes fontSize "em" || sIncludes fontSize "rem" then
        value.map (fun v => v * 16 * (3 / 4))
      else if sIncludes fontSize "%" then
        value.map (fun v => v / 100 * 16 * (3 / 4))
      else some (jsOrQ value 18)
    points.map (fun p => max 8 (min p 96))

/-- `StyleConverter.parseFontFamily`: first entry of the comma-separated
stack, trimmed, quotes stripped, mapped through `fontMap`. -/
def parseFontFamily (fontFamily : String) : String :=
  if fontFamily = "" then "Arial"
  else
    let firstFont :=
      String.mk ((trimL ((splitChars (· = ',') fontFamily.toList).headD
        [])).filter (fun c => c ≠ quoteS ∧ c ≠ quoteD))
    (fontMap.lookup firstFont).getD firstFont

/-- `StyleConverter.convertColor`'s named-color table. -/
def colorNames : List (String × String) :=
  [("white", "FFFFFF"),
   ("black", "000000"),
   ("red", "FF0000"),
   ("green", "00FF00"),
   ("blue", "0000FF"),
   ("yellow", "FFFF00"),
   ("cyan", "00FFFF"),
   ("magenta", "FF00FF"),
   ("gray", "808080"),
   ("grey", "808080")]

/-- The 3-digit hex expansion step of `convertColor` (`color[0] +
color[0] + …`); any other length passes through unchanged. -/
def hexExpand (c : List Char) : List Char :=
  match c with
  | [a, b, d] => [a, a, b, b, d, d]
  | _ => c

/-- `StyleConverter.convertColor`: `#`-hex (3-digit expanded, everything
else passed through), `rgb()/rgba()` via the scanning regex, then the
named-color table; otherwise `null`. -/
def convertColor (color : String) : Option String :=
  if color = "" then none
  else if sStartsWith color "#" then
    some (String.mk ((hexExpand (color.toList.drop 1)).map Char.toUpper))
  else
    match findRgb color.toList with
    | some (r, g, b) => some (String.mk (hexByte r ++ hexByte g ++ hexByte b))
    | none => colorNames.lookup (jsToLower color)

/-- `convertColor` applied to a nullable color (JS `null` is falsy). -/
def convertColorO (color : Option String) : Option String :=
  match color with
  | none => none
  | some s => convertColor s

/-- `StyleConverter.isBold`: keyword `bold` or numeric weight ≥ 700. -/
def isBold (fontWeight : String) : Bool :=
  if fontWeight = "" then false
  else
    fontWeight = "bold" ||
      (match jsParseInt fontWeight with
       | some w => decide (w ≥ 700)
       | none => false)

/-- `StyleConverter.isItalic`. -/
def isItalic (fontStyle : String) : Bool :=
  fontStyle = "italic" || fontStyle = "oblique"

/-- Output of `parseTextDecoration`.  The source returns `{}` for a
missing input; reading the absent flags downstream yields falsy
`undefined`, embedded as `false`. -/
structure Decoration where
  underline : Bool := false
  strike : Bool := false
  deriving Repr, DecidableEq

/-- `StyleConverter.parseTextDecoration`. -/
def parseTextDecoration (textDecoration : String) : Decoration :=
  if textDecoration = "" then {}
  else
    { underline := sIncludes textDecoration "underline"
      strike := sIncludes textDecoration "line-through" }

/-- `StyleConverter.parseTextAlign`. -/
def parseTextAlign (textAlign : String) : String :=
  (([("left", "left"), ("center", "center"), ("right", "right"),
     ("justify", "justify"), ("start", "left"),
     ("end", "right")] : List (String × String)).lookup textAlign).getD "left"

/-- A PPT border descriptor as built by `convertBorder`. -/
structure BorderOpts where
  type : String
  color : Option String
  pt : ℚ
  deriving Repr, DecidableEq

/-- `StyleConverter.convertBorder`: only when a positive numeric width is
present. -/
def convertBorder (styles : StyleData) : Option BorderOpts :=
  if styles.borderStyle = "" || styles.borderStyle = "none" then none
  else
    let width := jsOrQ (jsParseFloat styles.borderWidth) 0
    if width ≤ 0 then none
    else
      some { type := if styles.borderStyle = "dashed" then "dash" else "solid"
             color := convertColorO styles.borderColor
             pt := width }

/-- `StyleConverter.parseBorderRadius`: the raw pixel value, deliberately
not unit-converted.  `none` is JS `NaN` (non-numeric input). -/
def parseBorderRadius (borderRadius : String) : Option ℚ :=
  if borderRadius = "" then some 0
  else jsParseFloat borderRadius

/-- JS `a > b` where `a` may be NaN (`none`): NaN comparisons are false. -/
def nanGt (a : Option ℚ) (b : ℚ) : Bool :=
  match a with
  | none => false
  | some v => decide (v > b)

/-- JS `a >= b` where `a` may be NaN. -/
def nanGe (a : Option ℚ) (b : ℚ) : Bool :=
  match a with
  | none => false
  | some v => decide (v ≥ b)

/-- A PPT shadow descriptor as built by `convertShadow`.  The source
additionally derives `offset = Math.sqrt(h² + v²)` and
`angle = atan2(v, h)·180/π + 90` from the two captured offsets; those are
irrational floating-point values with no exact rational form, so the two
captured pixel offsets they are computed from are carried here instead. -/
structure ShadowOpts where
  type : String
  blur : ℚ
  hOffset : ℚ
  vOffset : ℚ
  color : Option String
  opacity : ℚ
  deriving Repr, DecidableEq

/-- Try to match `(-?\d+)px\s+(-?\d+)px\s+(\d+)?px?\s*(\d+)?px?\s*(.*)?`
at the head of the list.  The literal `p` of each `px?` is required by
the pattern (only the `x` is optional), and greedy digit/whitespace runs
never benefit from backtracking here because a shorter run leaves a
digit or space where `p` is required, so the match is deterministic. -/
def matchShadowAt (cs : List Char) : Option (ℚ × ℚ × Option ℕ × String) :=
  let signedPx : List Char → Option (ℚ × List Char) := fun t =>
    let (neg, t) : Bool × List Char :=
      match t with
      | '-' :: t => (true, t)
      | _ => (false, t)
    let ds := t.takeWhile (·.isDigit)
    let t := t.dropWhile (·.isDigit)
    if ds = [] then none
    else
      match t with
      | 'p' :: 'x' :: t2 =>
        some (((if neg then -1 else 1) : ℚ) * (digitsVal ds : ℚ), t2)
      | _ => none
  let ws1 : List Char → Option (List Char) := fun t =>
    if (t.takeWhile (·.isWhitespace)) = [] then none
    else some (t.dropWhile (·.isWhitespace))
  let optDigitsP : List Char → Option (Option ℕ × List Char) := fun t =>
    let ds := t.takeWhile (·.isDigit)
    let t := t.dropWhile (·.isDigit)
    match t with
    | 'p' :: t2 =>
      let t3 :=
        match t2 with
        | 'x' :: t3 => t3
        | _ => t2
      some (if ds = [] then none else some (digitsVal ds),
            t3.dropWhile (·.isWhitespace))
    | _ => none
  match signedPx cs with
  | none => none
  | some (h, t) =>
    match ws1 t with
    | none => none
    | some t =>
      match signedPx t with
      | none => none
      | some (v, t) =>
        match ws1 t with
        | none => none
        | some t =>
          match optDigitsP t with
          | none => none
          | some (blur, t) =>
            match optDigitsP t with
            | none => none
            | some (_spread, t) => some (h, v, blur, String.mk t)

/-- Scan for the first shadow-pattern match anywhere in the string. -/
def findShadow : List Char → Option (ℚ × ℚ × Option ℕ × String)
  | [] => none
  | c :: t =>
    match matchShadowAt (c :: t) with
    | some r => some r
    | none => findShadow t

/-- `StyleConverter.convertShadow`: parse
`h-offset v-offset blur spread color` out of a `box-shadow` value. -/
def convertShadow (boxShadow : String) : Option ShadowOpts :=
  if boxShadow = "" || boxShadow = "none" then none
  else
    match findShadow boxShadow.toList with
    | none => none
    | some (h, v, blur, color) =>
      some { type := "outer"
             blur := (blur.map (fun b => (b : ℚ))).getD 0
             hOffset := h
             vOffset := v
             color := if color = "" then some "000000"
                      else convertColor (jsTrim color)
             opacity := 35 / 100 }

/-- `StyleConverter.calculatePosition`: uniform scale to fit the target
slide plus centering offsets, all in inches.  `slideW`/`slideH` are the
converter's `slideWidth`/`slideHeight` fields (synced from the
generator's options). -/
def calculatePosition (slideW slideH : ℚ) (position : RectQ)
    (containerSize : SizeQ) : PosQ :=
  let posXInches := pxToInches position.x
  let posYInches := pxToInches position.y
  let posWInches := pxToInches position.width
  let posHInches := pxToInches position.height
  let containerWInches := pxToInches containerSize.width
  let containerHInches := pxToInches containerSize.height
  let scaleX := slideW / containerWInches
  let scaleY := slideH / containerHInches
  let scale := min scaleX scaleY
  let scaledWidth := containerWInches * scale
  let scaledHeight := containerHInches * scale
  let offsetX := (slideW - scaledWidth) / 2
  let offsetY := (slideH - scaledHeight) / 2
  { x := posXInches * scale + offsetX
    y := posYInches * scale + offsetY
    w := posWInches * scale
    h := posHInches * scale }

end StyleConverter

/-- Case-insensitive hex digit (`[0-9A-Fa-f]`). -/
def isHexCI (c : Char) : Bool :=
  c.isDigit || (97 ≤ c.toNat ∧ c.toNat ≤ 102) || (65 ≤ c.toNat ∧ c.toNat ≤ 70)

/-- Try to match `rgba?\([^)]+\)` at the head of the list, returning the
matched characters and the remainder. -/
def matchRgbParen (cs : List Char) : Option (List Char × List Char) :=
  match cs with
  | 'r' :: 'g' :: 'b' :: rest =>
    let (pre, rest2) : List Char × List Char :=
      match rest with
      | 'a' :: '(' :: t => (['r', 'g', 'b', 'a', '('], t)
      | '(' :: t => (['r', 'g', 'b', '('], t)
      | _ => ([], rest)
    if pre = [] then none
    else
      let inner := rest2.takeWhile (· ≠ ')')
      let rest3 := rest2.dropWhile (· ≠ ')')
      if inner = [] then none
      else
        match rest3 with
        | ')' :: t => some (pre ++ inner ++ [')'], t)
        | _ => none
  | _ => none

/-- Try to match the color alternation
`#hex{min,max} | rgba?\([^)]+\) | [letters]+` at the head of the list
(alternatives tried left to right, as a regex engine does). -/
def matchColorAlt (minHex maxHex : ℕ) (cs : List Char) :
    Option (List Char × List Char) :=
  match cs with
  | '#' :: t =>
    let hs := t.takeWhile isHexCI
    if hs.length < minHex then none
    else
      let tk := hs.take maxHex
      some ('#' :: tk, t.drop tk.length)
  | _ =>
    match matchRgbParen cs with
    | some r => some r
    | none =>
      let ls := cs.takeWhile (·.isAlpha)
      if ls = [] then none else some (ls, cs.drop ls.length)

/-- One global-scan step for `convertGradient`'s stop regex
`(#[a-f0-9]{3,6}|rgba?\([^)]+\)|[a-z]+)\s*(\d+%)?` (with `/gi`): the full
match includes the trailing `\s*` run and, when present, the `\d+%`
suffix.  The fuel bounds the number of scan steps (each consumes at
least one character, so the string length is always enough). -/
def scanStopsCG : ℕ → List Char → List String
  | 0, _ => []
  | _, [] => []
  | fuel + 1, c :: t =>
    match matchColorAlt 3 6 (c :: t) with
    | some (m, rest) =>
      let ws := rest.takeWhile (·.isWhitespace)
      let rest2 := rest.dropWhile (·.isWhitespace)
      let ds := rest2.takeWhile (·.isDigit)
      let (suffix, rest3) : List Char × List Char :=
        if ds ≠ [] ∧ (rest2.drop ds.length).headD ' ' = '%' then
          (ws ++ ds ++ ['%'], rest2.drop (ds.length + 1))
        else (ws, rest2)
      String.mk (m ++ suffix) :: scanStopsCG fuel rest3
    | none => scanStopsCG fuel t

/-- First match of the color alternation anywhere in a stop string
(`stop.match(/(#[a-f0-9]{3,6}|rgba?\([^)]+\)|[a-z]+)/i)`). -/
def findColorTok : List Char → Option (List Char)
  | [] => none
  | c :: t =>
    match matchColorAlt 3 6 (c :: t) with
    | some (m, _) => some m
    | none => findColorTok t

/-- First match of `(\d+)%` anywhere in a string. -/
def findPercent : List Char → Option ℕ
  | [] => none
  | c :: t =>
    let ds := (c :: t).takeWhile (·.isDigit)
    if ds ≠ [] ∧ ((c :: t).drop ds.length).headD ' ' = '%' then
      some (digitsVal ds)
    else findPercent t

/-- First match of `(\d+)deg` anywhere in a string. -/
def findDeg : List Char → Option ℕ
  | [] => none
  | c :: t =>
    let ds := (c :: t).takeWhile (·.isDigit)
    if ds ≠ [] ∧ startsWithL ((c :: t).drop ds.length) ['d', 'e', 'g'] then
      some (digitsVal ds)
    else findDeg t

/-- Raw gradient capture made by `HtmlParser.parseGradient`. -/
structure GradientData where
  type : String
  value : String
  deriving Repr, DecidableEq

/-- One color stop of `convertGradient`'s output. -/
structure GradStop where
  color : Option String
  position : ℚ
  deriving Repr, DecidableEq

/-- `convertGradient`'s output. -/
structure PptGradient where
  type : String
  angle : ℚ
  colors : List GradStop
  deriving Repr, DecidableEq

namespace StyleConverter

/-- `StyleConverter.convertGradient`: extract color stops and an angle
from the raw gradient body.  When exactly one stop is found the source
divides by `colorStops.length - 1 = 0` giving NaN; the embedding's
rational division yields `0` there, and the value is discarded by the
`colors.length < 2` guard before it can be observed. -/
def convertGradient (gradient : Option GradientData) : Option PptGradient :=
  match gradient with
  | none => none
  | some g =>
    let value := g.value
    let colorStops := scanStopsCG (value.toList.length + 1) value.toList
    let colors : List GradStop :=
      (colorStops.enum.filterMap (fun (idx, stop) =>
        match findColorTok stop.toList with
        | none => none
        | some m =>
          some { color := convertColor (String.mk m)
                 position :=
                   match findPercent stop.toList with
                   | some p => (p : ℚ)
                   | none => ((idx : ℚ) * 100) / ((colorStops.length : ℚ) - 1) }))
    if colors.length < 2 then none
    else
      some { type := g.type
             angle :=
               match findDeg value.toList with
               | some d => (d : ℚ)
               | none => 90
             colors := colors }

end StyleConverter

/-- Suffix after the first occurrence of `"linear-gradient("`. -/
def afterLinearGradient : List Char → Option (List Char)
  | [] => none
  | c :: t =>
    if startsWithL (c :: t) ("linear-gradient(".toList) then
      some ((c :: t).drop 16)
    else afterLinearGradient t

/-- Group 1 of `/linear-gradient\(([^)]+)\)/`: the characters between the
first `"linear-gradient("` and the first `)` after it (nonempty, and the
`)` must exist).  If the group would be empty the engine retries from the
next position; only a later occurrence of the prefix could then match. -/
def linearMatchFirstParen : List Char → Option (List Char)
  | [] => none
  | c :: t =>
    if startsWithL (c :: t) ("linear-gradient(".toList) then
      let after := (c :: t).drop 16
      let grp := after.takeWhile (· ≠ ')')
      let rest := after.dropWhile (· ≠ ')')
      if grp ≠ [] ∧ rest ≠ [] then some grp
      else linearMatchFirstParen t
    else linearMatchFirstParen t

/-- Group 1 of `/linear-gradient\((.+)\)$/`: greedy match from the first
`"linear-gradient("` to the closing parenthesis at the very end of the
string (the fix recorded in the progress log for nested `rgb(...)`). -/
def linearMatchToEnd (bg : List Char) : Option (List Char) :=
  match afterLinearGradient bg with
  | none => none
  | some after =>
    if after.length ≥ 2 ∧ after.getLast? = some ')' then some after.dropLast
    else none

/-- One token of `parseGradientFromStyle`'s color regex
`(#[0-9A-Fa-f]{3,8}|rgba?\([^)]+\)|[a-zA-Z]+(?:\s+\d+)?)`. -/
def matchPGFSAt (cs : List Char) : Option (List Char × List Char) :=
  match cs with
  | '#' :: t =>
    let hs := t.takeWhile isHexCI
    if hs.length < 3 then none
    else
      let tk := hs.take 8
      some ('#' :: tk, t.drop tk.length)
  | _ =>
    match matchRgbParen cs with
    | some r => some r
    | none =>
      let ls := cs.takeWhile (·.isAlpha)
      if ls = [] then none
      else
        let rest := cs.drop ls.length
        let ws := rest.takeWhile (·.isWhitespace)
        let rest2 := rest.drop ws.length
        let ds := rest2.takeWhile (·.isDigit)
        if ws ≠ [] ∧ ds ≠ [] then
          some (ls ++ ws ++ ds, rest2.drop ds.length)
        else some (ls, rest)

/-- Global scan with `matchPGFSAt` (fuel bounds the steps). -/
def scanPGFS : ℕ → List Char → List String
  | 0, _ => []
  | _, [] => []
  | fuel + 1, c :: t =>
    match matchPGFSAt (c :: t) with
    | some (m, rest) => String.mk m :: scanPGFS fuel rest
    | none => scanPGFS fuel t

/-- One color stop of `parseGradientFromStyle`'s output (`convertColor`
already succeeded, and positions are integers from `Math.round`). -/
structure GradStop2 where
  color : String
  position : ℤ
  deriving Repr, DecidableEq

/-- `parseGradientFromStyle`'s output: a PptxGenJS gradient fill. -/
structure GradientFillSpec where
  type : String
  rotate : ℚ
  stops : List GradStop2
  deriving Repr, DecidableEq

namespace StyleConverter

/-- Direction keywords skipped by the gradient stop scanners. -/
def gradKeywords : List String :=
  ["to", "right", "left", "top", "bottom", "deg"]

/-- `StyleConverter.parseGradientFromStyle`: direction keywords resolved
before an explicit `N`&`deg` value; color tokens scanned and filtered by a
substring test against the direction keywords; positions evenly
redistributed with `Math.round`.  The gradient body comes from
`/linear-gradient\(([^)]+)\)/`, which stops at the *first* closing
parenthesis.  (The direction resolution, the color-token filter loop
and the even position redistribution are named `pgfsAngle`,
`pgfsColors` and `pgfsStops`.) -/
def pgfsAngle (partsS : String) (parts : List Char) : ℚ :=
  if sIncludes partsS "to right" then 90
  else if sIncludes partsS "to left" then 270
  else if sIncludes partsS "to bottom" then 180
  else if sIncludes partsS "to top" then 0
  else if sIncludes partsS "to bottom right" ||
      sIncludes partsS "to right bottom" then 135
  else if sIncludes partsS "to top right" ||
      sIncludes partsS "to right top" then 45
  else
    match findDeg parts with
    | some d => (d : ℚ)
    | none => 90

/-- The color-token filter loop of `parseGradientFromStyle`. -/
def pgfsColors (toks : List String) : List String :=
  toks.foldl (fun acc m =>
    let colorStr := jsTrim m
    if gradKeywords.any (fun k => sIncludes colorStr k) then acc
    else
      match convertColor colorStr with
      | some c => acc ++ [c]
      | none => acc) []

/-- The even position redistribution of `parseGradientFromStyle`. -/
def pgfsStops (colors : List String) : List GradStop2 :=
  colors.enum.map (fun (i, c) =>
    { color := c
      position := jsRound (((i : ℚ) / ((colors.length : ℚ) - 1)) * 100) })

/-- `StyleConverter.parseGradientFromStyle` itself. -/
def parseGradientFromStyle (backgroundImage : String) :
    Option GradientFillSpec :=
  if backgroundImage = "" || ¬sIncludes backgroundImage "gradient" then none
  else
    match linearMatchFirstParen backgroundImage.toList with
    | none => none
    | some parts =>
      let partsS := String.mk parts
      let angle : ℚ := pgfsAngle partsS parts
      let toks := scanPGFS (parts.length + 1) parts
      let colors : List String := pgfsColors toks
      if colors.length ≥ 2 then
        some { type := "linear"
               rotate := angle
               stops := pgfsStops colors }
      else none

end StyleConverter

/-- Normalized text styling built by `convertTextStyles`.  `fontSize` is
`Option ℚ` because `parseFontSize` can produce NaN. -/
structure TextStyles where
  fontFace : String
  fontSize : Option ℚ
  color : String
  bold : Bool
  italic : Bool
  underline : Bool
  strike : Bool
  align : String
  deriving Repr, DecidableEq

/-- The JS fill object is a property bag: a solid fill carries `color`, a
gradient fill carries `type`/`rotate`/`stops`, and the opacity step can
attach `transparency` to either (or to a fresh empty object).  The
transparency value itself can be NaN (inner `none`) when the CSS opacity
string does not parse. -/
structure FillOpts where
  color : Option String := none
  typ : Option String := none
  rotate : Option ℚ := none
  stops : Option (List GradStop2) := none
  transparency : Option (Option ℚ) := none
  deriving Repr, DecidableEq

/-- `convertShapeStyles`'s output bag. -/
structure ShapeStyles where
  fill : Option FillOpts := none
  line : Option StyleConverter.BorderOpts := none
  shadow : Option StyleConverter.ShadowOpts := none
  rectRadius : Option ℚ := none
  deriving Repr, DecidableEq

namespace StyleConverter

/-- `StyleConverter.convertTextStyles`. -/
def convertTextStyles (styles : StyleData) : TextStyles :=
  let decoration := parseTextDecoration styles.textDecoration
  { fontFace := parseFontFamily styles.fontFamily
    fontSize := parseFontSize styles.fontSize
    color := jsOrOS (convertColorO styles.color) "000000"
    bold := isBold styles.fontWeight
    italic := isItalic styles.fontStyle
    underline := decoration.underline
    strike := decoration.strike
    align := parseTextAlign styles.textAlign }

/-- `StyleConverter.convertShapeStyles`: gradient fill first, else solid
fill; border only with positive width; shadow; border radius converted
once to inches and clamped to `[0.02, 0.5]`; opacity attached to the fill
as a transparency percentage. -/
def convertShapeStyles (styles : StyleData) : ShapeStyles :=
  let fill0 : Option FillOpts :=
    if styles.backgroundImage ≠ "" ∧
        sIncludes styles.backgroundImage "gradient" then
      match parseGradientFromStyle styles.backgroundImage with
      | some g =>
        some { typ := some g.type, rotate := some g.rotate,
               stops := some g.stops }
      | none => none
    else none
  let fill1 : Option FillOpts :=
    match fill0 with
    | some f => some f
    | none =>
      match convertColorO styles.backgroundColor with
      | some c => some { color := some c }
      | none => none
  let fill2 : Option FillOpts :=
    if styles.opacity ≠ "" ∧ styles.opacity ≠ "1" then
      let f := fill1.getD {}
      some { f with
             transparency :=
               some ((jsParseFloat styles.opacity).map
                 (fun v => (1 - v) * 100)) }
    else fill1
  { fill := fill2
    line := convertBorder styles
    shadow := convertShadow styles.boxShadow
    rectRadius :=
      match parseBorderRadius styles.borderRadius with
      | some v =>
        if v > 0 then some (max (2 / 100) (min (pxToInches v) (1 / 2)))
        else none
      | none => none }

end StyleConverter

/-!
## `renderGradientToImage` (HtmlToPptConverter): gradient rasterization

The converter renders a gradient background to an offscreen 2× canvas.
The parsing prefix — body extraction, direction resolution, color-stop
scanning and position filling — is embedded below; the canvas drawing
and PNG encoding that consume its result belong to the
rasterization-surface collaborator.
-/

/-- First match of `(-?\d+(?:\.\d+)?)deg` anywhere in a string, the
capture read back with `parseFloat`. -/
def findDegSigned : List Char → Option ℚ
  | [] => none
  | c :: t =>
    let (neg, rest) : Bool × List Char :=
      match c :: t with
      | '-' :: r => (true, r)
      | r => (false, r)
    let ds := rest.takeWhile (·.isDigit)
    if ds = [] then findDegSigned t
    else
      let rest2 := rest.drop ds.length
      let frac : List Char :=
        match rest2 with
        | '.' :: r =>
          let fd := r.takeWhile (·.isDigit)
          if fd = [] then [] else '.' :: fd
        | _ => []
      let rest3 := rest2.drop frac.length
      if startsWithL rest3 ['d', 'e', 'g'] then
        some ((if neg then (-1 : ℚ) else 1) *
          ((digitsVal ds : ℚ) +
            (digitsVal (frac.drop 1) : ℚ) / (10 : ℚ) ^ (frac.drop 1).length))
      else findDegSigned t

/-- One token of `renderGradientToImage`'s stop regex
`(#[0-9A-Fa-f]{3,8}|rgba?\([^)]+\)|[a-zA-Z]+)(?:\s+(\d+(?:\.\d+)?%?))?`:
the color capture plus the optional position capture. -/
def matchRGTIAt (cs : List Char) : Option (List Char × Option (List Char) × List Char) :=
  match matchColorAlt 3 8 cs with
  | none => none
  | some (m, rest) =>
    let ws := rest.takeWhile (·.isWhitespace)
    let rest2 := rest.drop ws.length
    let ds := rest2.takeWhile (·.isDigit)
    if ws = [] ∨ ds = [] then some (m, none, rest)
    else
      let rest3 := rest2.drop ds.length
      let frac : List Char :=
        match rest3 with
        | '.' :: t =>
          let fd := t.takeWhile (·.isDigit)
          if fd = [] then [] else '.' :: fd
        | _ => []
      let rest4 := rest3.drop frac.length
      let (pct, rest5) : List Char × List Char :=
        match rest4 with
        | '%' :: t => (['%'], t)
        | _ => ([], rest4)
      some (m, some (ds ++ frac ++ pct), rest5)

/-- Global scan with `matchRGTIAt` (fuel bounds the steps). -/
def scanRGTI : ℕ → List Char → List (String × Option String)
  | 0, _ => []
  | _, [] => []
  | fuel + 1, c :: t =>
    match matchRGTIAt (c :: t) with
    | some (m, pos, rest) =>
      (String.mk m, pos.map String.mk) :: scanRGTI fuel rest
    | none => scanRGTI fuel t

namespace HtmlToPptConverter

/-- The direction angle resolved by `renderGradientToImage` (diagonal
keywords are checked before the straight ones, then an explicit signed
degree value; default top-to-bottom). -/
def renderGradientAngle (gradientStr : String) : ℚ :=
  if sIncludes gradientStr "to bottom right" then 135
  else if sIncludes gradientStr "to bottom left" then 225
  else if sIncludes gradientStr "to top right" then 45
  else if sIncludes gradientStr "to top left" then 315
  else if sIncludes gradientStr "to right" then 90
  else if sIncludes gradientStr "to left" then 270
  else if sIncludes gradientStr "to bottom" then 180
  else if sIncludes gradientStr "to top" then 0
  else
    match findDegSigned gradientStr.toList with
    | some d => d
    | none => 180

/-- The color stops extracted by `renderGradientToImage`: direction
keywords are skipped by *exact* lowercase comparison, an explicit
position is divided by 100, and missing positions are filled evenly.
Returns `none` when fewer than two stops are found (the source then
returns `null` without drawing; the keyword-filtering stop collection
loop and the even position filling are named `rgtiStops` and
`rgtiFill`). -/
def rgtiStops (raw : List (String × Option String)) :
    List (String × Option ℚ) :=
  raw.foldl (fun acc (color, pos) =>
    if (StyleConverter.gradKeywords).contains (jsToLower color) then acc
    else
      acc ++ [(color, pos.map (fun p => (jsParseFloat p).getD 0 / 100))]) []

/-- The even position filling of `renderGradientToImage`. -/
def rgtiFill (colorStops : List (String × Option ℚ)) :
    List (String × ℚ) :=
  colorStops.enum.map (fun (i, stop) =>
    (stop.1,
      match stop.2 with
      | some p => p
      | none => (i : ℚ) / ((colorStops.length : ℚ) - 1)))

/-- `renderGradientToImage`'s stop extraction itself. -/
def renderGradientStops (gradientStr : String) :
    Option (List (String × ℚ)) :=
  let raw := scanRGTI (gradientStr.toList.length + 1) gradientStr.toList
  let colorStops : List (String × Option ℚ) := rgtiStops raw
  if colorStops.length ≥ 2 then some (rgtiFill colorStops)
  else none

/-- `renderGradientToImage`'s gradient-body extraction composed with the
stop extraction: `none` when the background image has no
`linear-gradient(...)` body reaching the end of the string, or when
fewer than two stops are found. -/
def renderGradientParse (bgImage : String) : Option (List (String × ℚ)) :=
  match linearMatchToEnd bgImage.toList with
  | none => none
  | some body => renderGradientStops (String.mk body)

end HtmlToPptConverter

/-!
## AnimationConverter: CSS animation/transition → PPT effect descriptors
-/

/-- JS `s.split(/\s+/)`: separators are maximal whitespace runs; a
leading or trailing run produces an empty token; `""` splits to `[""]`.
The fuel bounds the steps (each consumes at least one character, so the
wrapper's string length is always enough). -/
def splitWsGo : ℕ → List Char → List Char → List String
  | _, [], cur => [String.mk cur.reverse]
  | 0, _ :: _, cur => [String.mk cur.reverse]
  | fuel + 1, c :: t, cur =>
    if c.isWhitespace then
      String.mk cur.reverse ::
        splitWsGo fuel (t.dropWhile (·.isWhitespace)) []
    else splitWsGo fuel t (c :: cur)

/-- JS `s.split(/\s+/)`. -/
def jsSplitWs (s : String) : List String :=
  splitWsGo s.toList.length s.toList []

/-- JS `s.endsWith("s")`. -/
def endsInS (s : String) : Bool := s.toList.getLast? = some 's'

/-- Parsed per-declaration animation data (`AnimationData`). -/
structure AnimationData where
  name : Option String := none
  duration : ℚ := 1000
  delay : ℚ := 0
  easing : String := "easeInOut"
  iterations : ℤ := 1
  direction : String := "normal"
  deriving Repr, DecidableEq

/-- JS falsiness of the `name` field (`null` or `""`). -/
def nameFalsy (n : Option String) : Bool :=
  match n with
  | none => true
  | some s => s = ""

/-- An entry of `animationMap` (archetype, optional direction/subtype,
optional category; entrance when absent). -/
structure PptAnimDef where
  type : String
  direction : Option String := none
  subtype : Option String := none
  category : Option String := none
  deriving Repr, DecidableEq

/-- A built PPT animation configuration (`buildPptAnimConfig` output and
the records pushed by `analyzeAndConvert`). -/
structure PptAnimConfig where
  type : String
  delay : ℚ
  duration : ℚ
  direction : Option String := none
  subtype : Option String := none
  category : String
  deriving Repr, DecidableEq

/-- Parsed per-declaration transition data (`TransitionData`). -/
structure TransitionData where
  property : String := "all"
  duration : ℚ := 0
  delay : ℚ := 0
  easing : String := "ease"
  deriving Repr, DecidableEq

namespace AnimationConverter

/-- `AnimationConverter.easingMap`. -/
def easingMap : List (String × String) :=
  [("linear", "linear"),
   ("ease", "easeInOut"),
   ("ease-in", "easeIn"),
   ("ease-out", "easeOut"),
   ("ease-in-out", "easeInOut")]

/-- `AnimationConverter.animationMap`.  The source object literal lists
`zoomOut` twice (once among entrance effects, once among exit effects);
JS keeps the key at its first position with the last value, so the single
entry here carries the exit definition. -/
def animationMap : List (String × PptAnimDef) :=
  [("fadeIn", { type := "Fade" }),
   ("fadeInUp", { type := "Float", direction := some "Up" }),
   ("fadeInDown", { type := "Float", direction := some "Down" }),
   ("fadeInLeft", { type := "Float", direction := some "Left" }),
   ("fadeInRight", { type := "Float", direction := some "Right" }),
   ("slideInUp", { type := "Fly", direction := some "Up" }),
   ("slideInDown", { type := "Fly", direction := some "Down" }),
   ("slideInLeft", { type := "Fly", direction := some "Left" }),
   ("slideInRight", { type := "Fly", direction := some "Right" }),
   ("zoomIn", { type := "Zoom", subtype := some "In" }),
   ("zoomOut", { type := "Zoom", subtype := some "Out",
                 category := some "exit" }),
   ("bounceIn", { type := "Bounce" }),
   ("rotateIn", { type := "Spin" }),
   ("flipInX", { type := "Flip", direction := some "Vertical" }),
   ("flipInY", { type := "Flip", direction := some "Horizontal" }),
   ("pulse", { type := "Pulse", category := some "emphasis" }),
   ("bounce", { type := "Bounce", category := some "emphasis" }),
   ("shake", { type := "Shake", category := some "emphasis" }),
   ("swing", { type := "Swing", category := some "emphasis" }),
   ("tada", { type := "Teeter", category := some "emphasis" }),
   ("wobble", { type := "Wobble", category := some "emphasis" }),
   ("flash", { type := "Flash", category := some "emphasis" }),
   ("fadeOut", { type := "Fade", category := some "exit" }),
   ("fadeOutUp", { type := "Float", direction := some "Up",
                   category := some "exit" }),
   ("fadeOutDown", { type := "Float", direction := some "Down",
                     category := some "exit" }),
   ("slideOutUp", { type := "Fly", direction := some "Up",
                    category := some "exit" }),
   ("slideOutDown", { type := "Fly", direction := some "Down",
                      category := some "exit" })]

/-- One token-classification step of `parseSingleAnimation`'s loop.  The
boolean is the `foundDuration` flag. -/
def animStep (st : AnimationData × Bool) (part : String) :
    AnimationData × Bool :=
  let (a, foundDuration) := st
  if endsInS part ∧ (jsParseFloat part).isSome then
    let value := (jsParseFloat part).getD 0
    let ms := if sIncludes part "ms" then value else value * 1000
    if foundDuration then ({ a with delay := ms }, foundDuration)
    else ({ a with duration := ms }, true)
  else if (easingMap.lookup part).isSome then
    ({ a with easing := (easingMap.lookup part).getD "" }, foundDuration)
  else if part = "infinite" then ({ a with iterations := -1 }, foundDuration)
  else if (jsParseInt part).isSome then
    ({ a with iterations := (jsParseInt part).getD 0 }, foundDuration)
  else if (["normal", "reverse", "alternate",
      "alternate-reverse"] : List String).contains part then
    ({ a with direction := part }, foundDuration)
  else if nameFalsy a.name ∧
      ¬(["forwards", "backwards", "both", "running",
         "paused"] : List String).contains part then
    ({ a with name := some part }, foundDuration)
  else st

/-- `AnimationConverter.parseSingleAnimation`: whitespace tokenization
with positional/heuristic classification. -/
def parseSingleAnimation (animation : String) : Option AnimationData :=
  let parts := jsSplitWs animation
  if parts = [] then none
  else some (parts.foldl animStep ({}, false)).1

/-- `AnimationConverter.parseAnimation`: comma-separated declarations. -/
def parseAnimation (animation : String) : List AnimationData :=
  if animation = "" || animation = "none" then []
  else
    ((jsSplit animation (· = ',')).map jsTrim).filterMap parseSingleAnimation

/-- `AnimationConverter.buildPptAnimConfig`. -/
def buildPptAnimConfig (pptAnim : PptAnimDef) (animData : AnimationData) :
    PptAnimConfig :=
  { type := pptAnim.type
    delay := (if animData.delay = 0 then 0 else animData.delay) / 1000
    duration :=
      if animData.duration / 1000 = 0 then 1 else animData.duration / 1000
    direction := pptAnim.direction
    subtype := pptAnim.subtype
    category :=
      match pptAnim.category with
      | some "exit" => "exit"
      | some "emphasis" => "emphasis"
      | _ => "entrance" }

/-- `AnimationConverter.convertToPptAnimation`: exact lookup in
`animationMap`, then substring fuzzy match over its entries in
insertion order, then the generic `Fade` default. -/
def convertToPptAnimation (animData : Option AnimationData) :
    Option PptAnimConfig :=
  match animData with
  | none => none
  | some a =>
    if nameFalsy a.name then none
    else
      let nm := a.name.getD ""
      match animationMap.lookup nm with
      | some pptAnim => some (buildPptAnimConfig pptAnim a)
      | none =>
        match animationMap.find?
            (fun e => sIncludes (jsToLower nm) (jsToLower e.1)) with
        | some e => some (buildPptAnimConfig e.2 a)
        | none => some (buildPptAnimConfig { type := "Fade" } a)

/-- One token step of `parseSingleTransition`'s loop (the second time
value goes to `delay` based on `duration === 0`, not a separate flag). -/
def transStep (t : TransitionData) (part : String) : TransitionData :=
  if endsInS part ∧ (jsParseFloat part).isSome then
    let value := (jsParseFloat part).getD 0
    let ms := if sIncludes part "ms" then value else value * 1000
    if t.duration = 0 then { t with duration := ms }
    else { t with delay := ms }
  else if (easingMap.lookup part).isSome then
    { t with easing := (easingMap.lookup part).getD "" }
  else if ¬(["none", "all"] : List String).contains part ∧
      ¬sIncludes part "(" then
    { t with property := part }
  else t

/-- `AnimationConverter.parseSingleTransition`: `none` unless a positive
duration was found. -/
def parseSingleTransition (transition : String) : Option TransitionData :=
  let parts := jsSplitWs transition
  if parts = [] then none
  else
    let t := parts.foldl transStep {}
    if t.duration > 0 then some t else none

/-- `AnimationConverter.parseTransition`: `transition: none` and the
browser default `all 0s ease 0s` mean no transition. -/
def parseTransition (transition : String) : List TransitionData :=
  if transition = "" || transition = "none" ||
      transition = "all 0s ease 0s" then []
  else
    ((jsSplit transition (· = ',')).map jsTrim).filterMap
      parseSingleTransition

/-- First match of `pat(-?\d+` anywhere (the `translateX`/`translateY`
argument capture, read with `parseInt`). -/
def findTransNum (pat : List Char) : List Char → Option ℤ
  | [] => none
  | c :: t =>
    if startsWithL (c :: t) pat then
      let after := (c :: t).drop pat.length
      let (neg, r) : Bool × List Char :=
        match after with
        | '-' :: r => (true, r)
        | r => (false, r)
      let ds := r.takeWhile (·.isDigit)
      if ds ≠ [] then
        some ((if neg then (-1 : ℤ) else 1) * (digitsVal ds : ℤ))
      else findTransNum pat t
    else findTransNum pat t

/-- `AnimationConverter.inferAnimationFromTransform`: direction and
archetype inferred from the transform function.  The source's checks are
sequential `if` statements: a `translateY`/`translateX` whose argument
fails to capture falls through to the later checks. -/
def inferAnimationFromTransform (transform : String) : Option PptAnimDef :=
  if transform = "" || transform = "none" then none
  else
    let tryY : Option PptAnimDef :=
      if sIncludes transform "translateY" then
        (findTransNum ("translateY(".toList) transform.toList).map (fun (v : ℤ) =>
          { type := "Fly",
            direction := some (if v < 0 then "Up" else "Down") })
      else none
    match tryY with
    | some r => some r
    | none =>
      let tryX : Option PptAnimDef :=
        if sIncludes transform "translateX" then
          (findTransNum ("translateX(".toList) transform.toList).map (fun (v : ℤ) =>
            { type := "Fly",
              direction := some (if v < 0 then "Left" else "Right") })
        else none
      match tryX with
      | some r => some r
      | none =>
        if sIncludes transform "scale" then
          some { type := "Zoom", subtype := some "In" }
        else if sIncludes transform "rotate" then some { type := "Spin" }
        else none

/-- `AnimationConverter.analyzeAndConvert`: animations from the
`animation` shorthand, then animations inferred from `transition` on
`opacity`/`transform`. -/
def analyzeAndConvert (styles : StyleData) : List PptAnimConfig :=
  let fromAnimation : List PptAnimConfig :=
    if styles.animation ≠ "" then
      (parseAnimation styles.animation).filterMap
        (fun a => convertToPptAnimation (some a))
    else []
  let fromTransition : List PptAnimConfig :=
    if styles.transition ≠ "" then
      (parseTransition styles.transition).filterMap (fun trans =>
        if trans.property = "opacity" then
          some { type := "Fade", category := "entrance",
                 duration := trans.duration / 1000,
                 delay := trans.delay / 1000 }
        else if trans.property = "transform" then
          (inferAnimationFromTransform styles.transform).map (fun ia =>
            { type := ia.type, direction := ia.direction,
              subtype := ia.subtype, category := "entrance",
              duration := trans.duration / 1000,
              delay := trans.delay / 1000 })
        else none)
    else []
  fromAnimation ++ fromTransition

end AnimationConverter

/-!
## DOM model

The rendering collaborator exposes, per node: tag name, attribute map,
directly-owned text, a bounding rectangle (all zeros for an unrendered
document), inline style and computed style.  A node's `className` is its
`class` attribute; `textContent` is the concatenation of the node's own
text and its descendants' (the model keeps a node's direct text ahead of
its element children).
-/

/-- Raw CSS style record as answered by `getComputedStyle` (or carried
inline); absent properties are `""`. -/
structure CssStyle where
  left : String := ""
  top : String := ""
  width : String := ""
  height : String := ""
  fontFamily : String := ""
  fontSize : String := ""
  fontWeight : String := ""
  fontStyle : String := ""
  textDecoration : String := ""
  textAlign : String := ""
  lineHeight : String := ""
  letterSpacing : String := ""
  color : String := ""
  backgroundColor : String := ""
  borderWidth : String := ""
  borderStyle : String := ""
  borderColor : String := ""
  borderRadius : String := ""
  boxShadow : String := ""
  textShadow : String := ""
  opacity : String := ""
  transform : String := ""
  animation : String := ""
  transition : String := ""
  backgroundImage : String := ""
  fill : String := ""
  deriving Repr, DecidableEq

/-- A DOM element node: tag (lowercase), attributes, directly-owned
text, rendered bounding rectangle, inline style, computed style,
child elements. -/
inductive DomNode : Type where
  | mk : String → List (String × String) → String → RectQ →
      CssStyle → CssStyle → List DomNode → DomNode

def DomNode.tag : DomNode → String
  | .mk t _ _ _ _ _ _ => t

def DomNode.attrs : DomNode → List (String × String)
  | .mk _ a _ _ _ _ _ => a

def DomNode.ownText : DomNode → String
  | .mk _ _ o _ _ _ _ => o

def DomNode.rect : DomNode → RectQ
  | .mk _ _ _ r _ _ _ => r

def DomNode.inline : DomNode → CssStyle
  | .mk _ _ _ _ i _ _ => i

def DomNode.computed : DomNode → CssStyle
  | .mk _ _ _ _ _ c _ => c

def DomNode.children : DomNode → List DomNode
  | .mk _ _ _ _ _ _ cs => cs

/-- `getAttribute`. -/
def getAttr (n : DomNode) (name : String) : Option String :=
  n.attrs.lookup name

/-- The `className` property (the `class` attribute, `""` if absent). -/
def DomNode.className (n : DomNode) : String :=
  (getAttr n "class").getD ""

mutual

/-- `textContent`: all text in the subtree, document order. -/
def allText : DomNode → String
  | .mk _ _ ownText _ _ _ children => ownText ++ allTextList children

def allTextList : List DomNode → String
  | [] => ""
  | c :: cs => allText c ++ allTextList cs

end

mutual

/-- All proper descendants of a node, preorder. -/
def descendants : DomNode → List DomNode
  | .mk _ _ _ _ _ _ children => descendantsList children

def descendantsList : List DomNode → List DomNode
  | [] => []
  | c :: cs => c :: descendants c ++ descendantsList cs

end

/-- A node and its proper descendants, preorder. -/
def selfAndDescendants (n : DomNode) : List DomNode :=
  n :: descendants n

/-- The simple-selector forms this program uses: a tag selector, a class
selector, an attribute-presence selector, and a class-substring selector
(`[class*="..."]`). -/
inductive Sel : Type where
  | tag : String → Sel
  | cls : String → Sel
  | attrHas : String → Sel
  | clsContains : String → Sel
  deriving Repr, DecidableEq

/-- Does a node match one simple selector?  A class selector matches a
whitespace-separated token of the `class` attribute; a class-substring
selector matches anywhere in it. -/
def matchesSel (n : DomNode) : Sel → Bool
  | .tag t => n.tag = t
  | .cls c => (jsSplitWs n.className).contains c
  | .attrHas a => (getAttr n a).isSome
  | .clsContains s => sIncludes n.className s

/-- Does a node match a comma list of simple selectors? -/
def matchesSelList (n : DomNode) (sels : List Sel) : Bool :=
  sels.any (matchesSel n)

/-- `element.querySelectorAll`: matching proper descendants, preorder. -/
def DomNode.qsa (n : DomNode) (sels : List Sel) : List DomNode :=
  (descendants n).filter (matchesSelList · sels)

/-- `element.querySelector`: first matching proper descendant. -/
def DomNode.qs (n : DomNode) (sels : List Sel) : Option DomNode :=
  (n.qsa sels).head?

/-- A document; `body` is its body element.  (`document.querySelectorAll`
searches every element; slide markup lives under the body, which is
itself included in the search.) -/
structure DomDocument where
  body : DomNode

/-- `document.querySelectorAll`. -/
def DomDocument.qsa (d : DomDocument) (sels : List Sel) : List DomNode :=
  (selfAndDescendants d.body).filter (matchesSelList · sels)

mutual

/-- First matching node in a forest together with its ancestor chain
(nearest first), preorder.  `anc` is the chain above the forest. -/
def findWithPathList (sels : List Sel) :
    List DomNode → List DomNode → Option (DomNode × List DomNode)
  | [], _ => none
  | c :: cs, anc =>
    if matchesSelList c sels then some (c, anc)
    else
      match findWithPathChildren sels c anc with
      | some r => some r
      | none => findWithPathList sels cs anc

def findWithPathChildren (sels : List Sel) :
    DomNode → List DomNode → Option (DomNode × List DomNode)
  | .mk t a o r i co children, anc =>
    findWithPathList sels children (.mk t a o r i co children :: anc)

end

/-- `element.querySelector` returning also the ancestor chain of the
match up to (and including) the element searched from. -/
def qsWithPath (n : DomNode) (sels : List Sel) :
    Option (DomNode × List DomNode) :=
  findWithPathList sels n.children [n]

mutual

/-- Number of nodes in a subtree (used as recursion fuel where a
recursive call descends through a `querySelector` result). -/
def nodeCount : DomNode → ℕ
  | .mk _ _ _ _ _ _ children => 1 + nodeCountList children

def nodeCountList : List DomNode → ℕ
  | [] => 0
  | c :: cs => nodeCount c + nodeCountList cs

end

mutual

/-- A deterministic serialization standing for the browser's
`outerHTML` of the node's markup. -/
def outerHTML : DomNode → String
  | .mk t attrs ownText _ _ _ children =>
    "<" ++ t ++
      (attrs.foldl (fun acc (kv : String × String) =>
        acc ++ " " ++ kv.1 ++ "=" ++ String.mk [quoteD] ++ kv.2 ++
          String.mk [quoteD]) "") ++
      ">" ++ ownText ++ innerHTMLList children ++ "</" ++ t ++ ">"

def innerHTMLList : List DomNode → String
  | [] => ""
  | c :: cs => outerHTML c ++ innerHTMLList cs

end

/-!
## HtmlParser: structural extraction
-/

/-- JS `a || b` on nullable strings whose result may still be null. -/
def orOptS (a b : Option String) : Option String :=
  match a with
  | none => b
  | some s => if s = "" then b else some s

/-- JS `a || b` on integers where `a` may be NaN. -/
def jsOrZ (a : Option ℤ) (b : ℤ) : ℤ :=
  match a with
  | none => b
  | some v => if v = 0 then b else v

/-- Lowercase two-digit hex rendering used by `normalizeColor`. -/
def hexByteLower (n : ℕ) : List Char := padStart2 (jsHexL n)

/-- One table cell captured by `parseTable`. -/
structure CellData where
  text : String
  isHeader : Bool
  colspan : ℤ
  rowspan : ℤ
  styles : StyleData

/-- `parseTable` output: ordered rows of cells. -/
structure TableData where
  rows : List (List CellData)

/-- One list item captured by `parseList` (children are the items of a
nested list). -/
inductive ListItem : Type where
  | mk : String → StyleData → List ListItem → ListItem

def ListItem.text : ListItem → String
  | .mk t _ _ => t

def ListItem.styles : ListItem → StyleData
  | .mk _ s _ => s

def ListItem.children : ListItem → List ListItem
  | .mk _ _ c => c

/-- `parseList` output. -/
structure ListData where
  isOrdered : Bool
  items : List ListItem

/-- `extractBackground` output. -/
structure BackgroundData where
  color : Option String
  image : Option String
  gradient : Option GradientData

/-- The scalar payload of one parsed element; `children` lives in
`ElementData`.  `iconName` exists because the downstream converter
(`HtmlToPptConverter.renderFontIconToImage`) reads `element.iconName`,
but this parser snapshot never assigns it, so it is `none` on every
element the parser builds (the progress log records that the original
icon text was supposed to be saved there before the text is blanked). -/
structure ElementCore where
  type : String
  tagName : String
  text : String
  position : RectQ
  styles : StyleData
  attributes : List (String × String)
  depth : ℕ
  src : Option String := none
  alt : Option String := none
  href : Option String := none
  tableData : Option TableData := none
  listData : Option ListData := none
  svgContent : Option String := none
  iconColor : Option String := none
  isFontIcon : Option Bool := none
  iconName : Option String := none

/-- A parsed element: scalar payload plus children. -/
inductive ElementData : Type where
  | mk : ElementCore → List ElementData → ElementData

def ElementData.core : ElementData → ElementCore
  | .mk c _ => c

def ElementData.children : ElementData → List ElementData
  | .mk _ cs => cs

def ElementData.type (e : ElementData) : String := e.core.type

def ElementData.text (e : ElementData) : String := e.core.text

def ElementData.tagName (e : ElementData) : String := e.core.tagName

def ElementData.position (e : ElementData) : RectQ := e.core.position

def ElementData.styles (e : ElementData) : StyleData := e.core.styles

/-- One parsed slide (`parseSlideElement` output). -/
structure SlideData where
  index : ℕ
  title : String
  elements : List ElementData
  background : BackgroundData
  styles : StyleData

namespace HtmlParser

/-- `HtmlParser.normalizeColor`: keep `#`-hex unchanged, convert
`rgb()/rgba()` to lowercase `#`-hex, drop transparent, pass everything
else through. -/
def normalizeColor (color : String) : Option String :=
  if color = "" || color = "transparent" || color = "rgba(0, 0, 0, 0)" then
    none
  else if sStartsWith color "#" then some color
  else
    match findRgb color.toList with
    | some (r, g, b) =>
      some (String.mk ('#' :: (hexByteLower r ++ hexByteLower g ++
        hexByteLower b)))
    | none => some color

/-- Suffix after the first occurrence of a pattern. -/
def afterPat (pat : List Char) : List Char → Option (List Char)
  | [] => none
  | c :: t =>
    if startsWithL (c :: t) pat then some ((c :: t).drop pat.length)
    else afterPat pat t

/-- Group 1 of `/pat\((.*)\)/` with a greedy `(.*)`: everything between
the first occurrence of `pat(` and the last `)` of the string (the group
may be empty; no match when no `)` follows). -/
def greedyParenGroup (pat : List Char) (cs : List Char) :
    Option (List Char) :=
  match afterPat pat cs with
  | none => none
  | some after =>
    match after.reverse.findIdx? (· = ')') with
    | none => none
    | some k => some (after.take (after.length - 1 - k))

/-- `HtmlParser.parseGradient`: capture the raw gradient body with the
greedy `/linear-gradient\((.*)\)/` (then the radial form). -/
def parseGradient (value : String) : Option GradientData :=
  if value = "" || ¬sIncludes value "gradient" then none
  else
    match greedyParenGroup ("linear-gradient(".toList) value.toList with
    | some g => some { type := "linear", value := String.mk g }
    | none =>
      match greedyParenGroup ("radial-gradient(".toList) value.toList with
      | some g => some { type := "radial", value := String.mk g }
      | none => none

/-- `HtmlParser.getTextContent`: the node's directly-owned text (its own
text nodes, not the descendants'), trimmed. -/
def getTextContent (n : DomNode) : String := jsTrim n.ownText

/-- `HtmlParser.extractComputedStyles`: copy the computed style into a
`StyleData`, normalizing the three color-valued properties.  The source
omits `backgroundImage`, so the record's default `""` stands for the
resulting `undefined`. -/
def extractComputedStyles (n : DomNode) : StyleData :=
  let style := n.computed
  { fontFamily := style.fontFamily
    fontSize := style.fontSize
    fontWeight := style.fontWeight
    fontStyle := style.fontStyle
    textDecoration := style.textDecoration
    textAlign := style.textAlign
    lineHeight := style.lineHeight
    letterSpacing := style.letterSpacing
    color := normalizeColor style.color
    backgroundColor := normalizeColor style.backgroundColor
    borderWidth := style.borderWidth
    borderStyle := style.borderStyle
    borderColor := normalizeColor style.borderColor
    borderRadius := style.borderRadius
    boxShadow := style.boxShadow
    textShadow := style.textShadow
    opacity := style.opacity
    transform := style.transform
    animation := style.animation
    transition := style.transition }

/-- `HtmlParser.extractAttributes`. -/
def extractAttributes (n : DomNode) : List (String × String) := n.attrs

/-- `HtmlParser.extractBackground`: computed background color/image with
inline fallback, gradient captured separately. -/
def extractBackground (n : DomNode) : BackgroundData :=
  let style := n.computed
  let bgColor := jsOrS style.backgroundColor n.inline.backgroundColor
  let bgImage := jsOrS style.backgroundImage n.inline.backgroundImage
  { color := normalizeColor bgColor
    image :=
      if bgImage ≠ "" ∧ ¬sIncludes bgImage "gradient" then some bgImage
      else none
    gradient := parseGradient bgImage }

/-- `HtmlParser.extractTitle`: first `h1`…`h6` by document order of the
levels, else a `.title`/`[class*="title"]` element, else a generated
placeholder from `dataset.slideIndex`. -/
def extractTitle (element : DomNode) : String :=
  match (["h1", "h2", "h3", "h4", "h5", "h6"].filterMap
      (fun h => element.qs [Sel.tag h])).head? with
  | some heading => jsTrim (allText heading)
  | none =>
    match element.qs [Sel.cls "title", Sel.clsContains "title"] with
    | some t => jsTrim (allText t)
    | none =>
      jsTrim ("Slide " ++ ((getAttr element "data-slide-index").getD ""))

/-- `HtmlParser.getSvgColor`: fill attribute, then a filled descendant
shape, then computed `fill`, then computed `color`, then the parents'
computed `color` (the ancestor chain is passed explicitly; ancestors
above the extracted subtree are outside the extractor's input). -/
def getSvgColor (svgElement : DomNode) (ancestors : List DomNode) :
    Option String :=
  let fillAttr := (getAttr svgElement "fill").getD ""
  if fillAttr ≠ "" ∧ fillAttr ≠ "none" ∧ fillAttr ≠ "currentColor" then
    normalizeColor fillAttr
  else
    match (svgElement.qsa [Sel.tag "path", Sel.tag "circle", Sel.tag "rect",
        Sel.tag "polygon"]).find? (fun p =>
          let pf := (getAttr p "fill").getD ""
          pf ≠ "" ∧ pf ≠ "none" ∧ pf ≠ "currentColor") with
    | some p => normalizeColor ((getAttr p "fill").getD "")
    | none =>
      let cssFill := svgElement.computed.fill
      if cssFill ≠ "" ∧ cssFill ≠ "none" ∧
          ¬sIncludes cssFill "rgb(0, 0, 0)" then
        normalizeColor cssFill
      else
        let cssColor := svgElement.computed.color
        if cssColor ≠ "" ∧ cssColor ≠ "rgb(0, 0, 0)" then
          normalizeColor cssColor
        else
          match ancestors.find? (fun par =>
              par.computed.color ≠ "" ∧
                par.computed.color ≠ "rgb(0, 0, 0)") with
          | some par => normalizeColor par.computed.color
          | none => none

/-- `HtmlParser.parseTable`: all descendant `tr` rows, their `td`/`th`
cells with span counts and styles. -/
def parseTable (table : DomNode) : TableData :=
  { rows :=
      (table.qsa [Sel.tag "tr"]).map (fun tr =>
        (tr.qsa [Sel.tag "td", Sel.tag "th"]).map (fun cell =>
          { text := jsTrim (allText cell)
            isHeader := jsToLower cell.tag = "th"
            colspan :=
              jsOrZ (match getAttr cell "colspan" with
                     | some v => jsParseInt v
                     | none => none) 1
            rowspan :=
              jsOrZ (match getAttr cell "rowspan" with
                     | some v => jsParseInt v
                     | none => none) 1
            styles := extractComputedStyles cell })) }

/-- `HtmlParser.parseList` with explicit recursion fuel: direct `li`
children, each with its directly-owned text and, when a nested `ul`/`ol`
exists anywhere below it, that list's items as children.  The nested
list is reached through `querySelector`, so the recursion is bounded by
the node count instead of the term structure; the wrapper always passes
enough fuel. -/
def parseListF : ℕ → DomNode → ListData
  | 0, list => { isOrdered := jsToLower list.tag = "ol", items := [] }
  | fuel + 1, list =>
    { isOrdered := jsToLower list.tag = "ol"
      items :=
        (list.children.filter (fun c => jsToLower c.tag = "li")).map
          (fun li =>
            ListItem.mk (getTextContent li) (extractComputedStyles li)
              (match li.qs [Sel.tag "ul", Sel.tag "ol"] with
               | some nested => (parseListF fuel nested).items
               | none => [])) }

/-- `HtmlParser.parseList`. -/
def parseList (list : DomNode) : ListData := parseListF (nodeCount list) list

/-- The icon-family class tokens `isIconElement` looks for (substring
match against the class string). -/
def iconClassPatterns : List String :=
  ["icon", "fa", "fas", "far", "fab", "fal", "fad",
   "material-icons", "material-icons-outlined", "material-icons-round",
   "material-icons-sharp", "material-symbols",
   "glyphicon", "bi", "bi-",
   "feather", "lucide", "heroicon",
   "mdi", "mdi-",
   "ion", "ionicon",
   "ri-", "remixicon"]

/-- `HtmlParser.isIconElement`: a known icon-family class substring, or
an `<i>` whose text is a single `[a-z_]+` token (case-insensitive) of at
most 30 characters, or an `<svg>`.  (For SVG elements the browser's
`className` is not a string and the source falls back to `""`; the
class check is vacuous there and the `svg` tag test decides.) -/
def isIconElement (element : DomNode) : Bool :=
  let tagName := jsToLower element.tag
  let classStr := element.className
  if iconClassPatterns.any (fun p => sIncludes classStr p) then true
  else if tagName = "i" ∧
      (let text := jsTrim (allText element)
       text.length ≤ 30 ∧ text ≠ "" ∧
         text.toList.all (fun c => c.isAlpha ∨ c = '_')) then
    true
  else tagName = "svg"

/-- `HtmlParser.getElementType`: icon detection first, then the tag
table, else `generic`. -/
def getElementType (element : DomNode) : String :=
  if isIconElement element then "icon"
  else
    (([("h1", "heading"), ("h2", "heading"), ("h3", "heading"),
       ("h4", "heading"), ("h5", "heading"), ("h6", "heading"),
       ("p", "paragraph"), ("span", "text"), ("div", "container"),
       ("img", "image"), ("table", "table"), ("ul", "list"),
       ("ol", "list"), ("li", "listItem"), ("a", "link"),
       ("button", "button"), ("svg", "shape"),
       ("canvas", "canvas")] : List (String × String)).lookup
      (jsToLower element.tag)).getD "generic"

mutual

/-- `HtmlParser.parseElement`: geometry capture with estimation
fallbacks, type classification, tag-specific payloads, icon handling
(including blanking the text), and recursion into children.  `ancestors`
is the parent chain (nearest first) used by `getSvgColor`'s climb. -/
def parseElement : List DomNode → DomNode → ℕ → ElementData
  | ancestors, .mk tg attrs ownTextStr drect inl comp childNodes, depth =>
    let n : DomNode := .mk tg attrs ownTextStr drect inl comp childNodes
    let tagName := jsToLower tg
    let rect1 : RectQ :=
      if drect.width > 0 ∨ drect.height > 0 then drect else {}
    let rect2 : RectQ :=
      if rect1.width = 0 ∧ rect1.height = 0 then
        { x := jsOrQ (jsParseFloat inl.left) (jsOrQ (jsParseFloat comp.left) 0)
          y := jsOrQ (jsParseFloat inl.top) (jsOrQ (jsParseFloat comp.top) 0)
          width := jsOrQ (jsParseFloat inl.width)
            (jsOrQ (jsParseFloat comp.width) 0)
          height := jsOrQ (jsParseFloat inl.height)
            (jsOrQ (jsParseFloat comp.height) 0) }
      else rect1
    let text := getTextContent n
    let rect3 : RectQ :=
      if text ≠ "" ∧ rect2.width = 0 then
        let fontSize := jsOrQ (jsParseFloat comp.fontSize) 16
        let avgCharWidth := fontSize * (6 / 10)
        { rect2 with
          width := min ((text.length : ℚ) * avgCharWidth) 1600
          height := if rect2.height = 0 then fontSize * (3 / 2)
                    else rect2.height }
      else rect2
    let styles := extractComputedStyles n
    let base : ElementCore :=
      { type := getElementType n
        tagName := tagName
        text := text
        position := rect3
        styles := styles
        attributes := extractAttributes n
        depth := depth }
    let core1 : ElementCore :=
      if tagName = "img" then
        { base with src := getAttr n "src"
                    alt := some ((getAttr n "alt").getD "") }
      else if tagName = "a" then
        { base with href := some ((getAttr n "href").getD "") }
      else if tagName = "table" then
        { base with tableData := some (parseTable n) }
      else if tagName = "ul" ∨ tagName = "ol" then
        { base with listData := some (parseList n) }
      else if tagName = "svg" then
        { base with svgContent := some (outerHTML n)
                    type := "svg"
                    iconColor := getSvgColor n ancestors }
      else base
    let core2 : ElementCore :=
      if core1.type = "icon" then
        match qsWithPath n [Sel.tag "svg"] with
        | some (svgChild, path) =>
          { core1 with
            svgContent := some (outerHTML svgChild)
            iconColor :=
              orOptS (getSvgColor svgChild (path ++ ancestors)) styles.color
            text := ""
            isFontIcon := some false }
        | none =>
          { core1 with iconColor := styles.color
                       text := ""
                       isFontIcon := some true }
      else core1
    let childElems : List ElementData :=
      if !childNodes.isEmpty ∧
          ¬(tagName = "table" ∨ tagName = "ul" ∨ tagName = "ol") then
        parseElementList (n :: ancestors) childNodes (depth + 1)
      else []
    ElementData.mk core2 childElems

/-- `HtmlParser.extractElements`'s loop body over a child list. -/
def parseElementList : List DomNode → List DomNode → ℕ → List ElementData
  | _, [], _ => []
  | anc, c :: cs, d => parseElement anc c d :: parseElementList anc cs d

end

/-- `HtmlParser.extractElements`: parse every child of `parent` at the
given depth (the source pushes each non-null result; `parseElement`
always returns a record). -/
def extractElements (ancestors : List DomNode) (parent : DomNode)
    (depth : ℕ) : List ElementData :=
  parseElementList (parent :: ancestors) parent.children depth

/-- `HtmlParser.parseSlideElement`. -/
def parseSlideElement (element : DomNode) (index : ℕ) : SlideData :=
  { index := index
    title := extractTitle element
    elements := extractElements [] element 0
    background := extractBackground element
    styles := extractComputedStyles element }

/-- `HtmlParser.slideSelectors`: the fixed priority list. -/
def slideSelectors : List (List Sel) :=
  [[Sel.tag "section"], [Sel.cls "slide"], [Sel.cls "page"],
   [Sel.attrHas "data-slide"], [Sel.cls "swiper-slide"],
   [Sel.cls "carousel-item"]]

/-- `HtmlParser.extractSlides`: first selector with at least one match
wins; otherwise the whole body is one slide; slides are parsed in match
order with their index. -/
def extractSlides (doc : DomDocument) : List SlideData :=
  let slideElements : List DomNode :=
    match (slideSelectors.map (doc.qsa ·)).find? (fun l => !l.isEmpty) with
    | some els => els
    | none => [doc.body]
  slideElements.enum.map (fun (i, el) => parseSlideElement el i)

end HtmlParser

/-!
## PptGenerator (part_002 snapshot): the emission walker

Draw calls are issued against the presentation-encoder collaborator
(PptxGenJS); the embedding records them as values.
-/

/-- JS `a || b` on plain numbers (`0` falsy). -/
def qOr (a b : ℚ) : ℚ := if a = 0 then b else a

/-- Generator options after preset resolution (`16:9` default). -/
structure PgOptions where
  slideWidth : ℚ := 13.333
  slideHeight : ℚ := 7.5
  defaultFontFace : String := "Arial"
  defaultFontSize : ℚ := 18
  deriving Repr, DecidableEq

/-- `SLIDE_PRESETS` lookup: `4:3` → 10×7.5, else 13.333×7.5. -/
def pgOptionsFor (aspectRatio : String) : PgOptions :=
  if aspectRatio = "4:3" then { slideWidth := 10, slideHeight := 7.5 }
  else {}

/-- Options of a plain-string `addText` call (`addTextElement`). -/
structure TextOptions where
  x : ℚ
  y : ℚ
  w : ℚ
  h : ℚ
  fontFace : String
  fontSize : ℚ
  color : String
  bold : Bool
  italic : Bool
  underline : Bool
  strike : Bool
  align : String
  valign : String
  wrap : Bool := true
  breakLine : Bool := true
  isTextBox : Bool := true
  fill : Option FillOpts := none
  deriving Repr, DecidableEq

/-- Bullet option of a list text run. -/
inductive BulletOpt : Type where
  | number : BulletOpt
  | code : String → BulletOpt
  deriving Repr, DecidableEq

/-- Per-run options of a list item. -/
structure RunOpts where
  style : TextStyles
  bullet : BulletOpt
  indentLevel : ℕ
  deriving Repr, DecidableEq

/-- One list text run. -/
structure TextItem where
  text : String
  options : RunOpts
  deriving Repr, DecidableEq

/-- Options of the list-level `addText` call (`addListElement`);
`h = none` is the `'auto'` value. -/
structure ListTextOptions where
  x : ℚ
  y : ℚ
  w : ℚ
  h : Option ℚ
  fontFace : String
  fontSize : ℚ
  valign : String
  deriving Repr, DecidableEq

/-- Options of an `addImage` call. -/
structure ImageOptions where
  x : ℚ
  y : ℚ
  w : ℚ
  h : ℚ
  sizing : Option (String × ℚ × ℚ) := none
  data : Option String := none
  path : Option String := none
  deriving Repr, DecidableEq

/-- Options of an `addShape` call (position plus the style bag). -/
structure ShapeOptions where
  x : ℚ
  y : ℚ
  w : ℚ
  h : ℚ
  fill : Option FillOpts := none
  line : Option StyleConverter.BorderOpts := none
  shadow : Option StyleConverter.ShadowOpts := none
  rectRadius : Option ℚ := none
  deriving Repr, DecidableEq

/-- A table border spec. -/
structure TableBorder where
  pt : ℚ
  color : String
  deriving Repr, DecidableEq

/-- Options of an `addTable` call. -/
structure TableOptions where
  x : ℚ
  y : ℚ
  w : ℚ
  colW : List ℚ
  border : TableBorder
  fontFace : String
  fontSize : ℚ
  deriving Repr, DecidableEq

/-- Per-cell payload of an `addTable` call (`...cellStyles` with the
header-bold override already merged into `style.bold`). -/
structure TableCellCall where
  text : String
  style : TextStyles
  fill : Option FillOpts
  border : TableBorder
  colspan : ℤ
  rowspan : ℤ
  deriving Repr, DecidableEq

/-- One draw call issued to the presentation encoder. -/
inductive DrawCall : Type where
  | addText : String → TextOptions → DrawCall
  | addTextRuns : List TextItem → ListTextOptions → DrawCall
  | addImage : ImageOptions → DrawCall
  | addShape : String → ShapeOptions → DrawCall
  | addTable : List (List TableCellCall) → TableOptions → DrawCall
  deriving Repr, DecidableEq

/-- A slide background set on the encoder. -/
inductive SlideBackground : Type where
  | colorBg : Option String → SlideBackground
  | pathBg : String → SlideBackground
  deriving Repr, DecidableEq

/-- One emitted slide: its background and draw calls in issue order. -/
structure EmittedSlide where
  background : Option SlideBackground := none
  calls : List DrawCall := []
  deriving Repr, DecidableEq

/-- Remove the first occurrence of a character (JS
`replace('h', '')` on a one-character pattern). -/
def removeFirstChar (c : Char) : List Char → List Char
  | [] => []
  | x :: xs => if x = c then xs else x :: removeFirstChar c xs

/-- Replace the first occurrence of a substring. -/
def replaceFirstL (pat repl : List Char) : List Char → List Char
  | [] => []
  | c :: t =>
    if startsWithL (c :: t) pat then repl ++ (c :: t).drop pat.length
    else c :: replaceFirstL pat repl t

/-- JS `s.replace(pat, repl)` (first occurrence). -/
def replaceFirst (s pat repl : String) : String :=
  String.mk (replaceFirstL pat.toList repl.toList s.toList)

/-- The base64 alphabet. -/
def base64Chars : List Char :=
  "ABCDEFGHIJKLMNOPQRSTUVWXYZabcdefghijklmnopqrstuvwxyz0123456789+/".toList

/-- One base64 digit. -/
def b64c (n : ℕ) : Char := base64Chars.getD n 'A'

/-- Base64 of a byte list (standard padding), as produced by `btoa` over
a binary string. -/
def b64 : List ℕ → List Char
  | [] => []
  | [a] => [b64c (a / 4), b64c (a % 4 * 16), '=', '=']
  | [a, b] => [b64c (a / 4), b64c (a % 4 * 16 + b / 16), b64c (b % 16 * 4), '=']
  | a :: b :: d :: rest =>
    b64c (a / 4) :: b64c (a % 4 * 16 + b / 16) ::
      b64c (b % 16 * 4 + d / 64) :: b64c (d % 64) :: b64 rest

/-- `btoa` over the UTF-8 bytes of a string (the source builds the
binary string with `TextEncoder` before calling `btoa`). -/
def base64Encode (s : String) : String :=
  String.mk (b64 (s.toUTF8.toList.map (·.toNat)))

namespace PptGenerator

/-- `PptGenerator.calculatePosition` (part_002): delegate to the
converter's scale-and-center transform, then clamp to the slide.  A
negative origin is clamped to `0`; an origin at or past the far edge is
relocated to `0.5` without touching the size; an origin inside the slide
whose size overflows the far edge has the size shrunk to
`max(floor, slide − origin − 0.1)`; finally both sizes are floored
(width `0.5`, height `0.3`). -/
def calculatePosition (opts : PgOptions) (containerSize : SizeQ)
    (position : Option RectQ) : PosQ :=
  match position with
  | none => { x := 1 / 2, y := 1 / 2, w := 2, h := 1 / 2 }
  | some pos =>
    let result := StyleConverter.calculatePosition opts.slideWidth
      opts.slideHeight pos containerSize
    let slideW := opts.slideWidth
    let slideH := opts.slideHeight
    let x1 := max 0 result.x
    let y1 := max 0 result.y
    let xw : ℚ × ℚ :=
      if x1 + result.w > slideW then
        if x1 ≥ slideW then (1 / 2, result.w)
        else (x1, max (1 / 2) (slideW - x1 - 1 / 10))
      else (x1, result.w)
    let yh : ℚ × ℚ :=
      if y1 + result.h > slideH then
        if y1 ≥ slideH then (1 / 2, result.h)
        else (y1, max (3 / 10) (slideH - y1 - 1 / 10))
      else (y1, result.h)
    { x := xw.1, y := yh.1, w := max (1 / 2) xw.2, h := max (3 / 10) yh.2 }

/-- `PptGenerator.isIconText` (part_002): at most three characters, any
of them in the private-use / icon Unicode ranges. -/
def isIconText (text : String) : Bool :=
  if text = "" ∨ text.length > 3 then false
  else
    text.toList.any (fun ch =>
      let code := ch.toNat
      (0xE000 ≤ code ∧ code ≤ 0xF8FF) ∨
        (0xF000 ≤ code ∧ code ≤ 0xFFFF) ∨
        (0x2600 ≤ code ∧ code ≤ 0x27BF))

mutual

/-- `PptGenerator.collectAllText` (part_002): gather the subtree's text,
skipping icon elements entirely and filtering icon glyph characters. -/
def collectAllText : ElementData → String
  | .mk core children =>
    if core.type = "icon" then ""
    else
      let text0 := core.text
      let text1 := if text0 ≠ "" ∧ isIconText text0 then "" else text0
      jsTrim (collectChildrenText text1 children)

def collectChildrenText : String → List ElementData → String
  | acc, [] => acc
  | acc, c :: cs =>
    let childText := collectAllText c
    let acc2 :=
      if childText ≠ "" then
        acc ++ (if acc ≠ "" then " " else "") ++ childText
      else acc
    collectChildrenText acc2 cs

end

/-- The heading font-size table plus level parsing of `addTextElement`:
`parseInt(tagName.replace('h','') || '1')` looked up in
`{1:44, 2:36, 3:28, 4:24, 5:20, 6:18}` with default 24. -/
def headingFontSize (tagName : String) : ℚ :=
  let levelStr := jsOrS (String.mk (removeFirstChar 'h' tagName.toList)) "1"
  match jsParseInt levelStr with
  | some 1 => 44
  | some 2 => 36
  | some 3 => 28
  | some 4 => 24
  | some 5 => 20
  | some 6 => 18
  | _ => 24

/-- `PptGenerator.addTextElement` (part_002): emitted text is the
element's own text or the collected subtree text; headings force their
level's font size and bold; width/height are re-estimated when the
captured box is degenerate; near-white backgrounds are not filled. -/
def addTextElement (opts : PgOptions) (containerSize : SizeQ)
    (element : ElementData) : List DrawCall :=
  let text := jsOrS element.text (collectAllText element)
  if text = "" then []
  else
    let position := calculatePosition opts containerSize
      (some element.position)
    let textStyles := StyleConverter.convertTextStyles element.styles
    let shapeStyles := StyleConverter.convertShapeStyles element.styles
    let fontSize0 := jsOrQ textStyles.fontSize opts.defaultFontSize
    let fontSize :=
      if element.type = "heading" then headingFontSize element.tagName
      else fontSize0
    let effectiveLength : ℕ :=
      (text.toList.map (fun ch => if ch.toNat > 127 then 2 else 1)).sum
    let avgCharWidthInches := fontSize / 72 * (55 / 100)
    let textWidth1 :=
      if position.w ≤ 1 / 2 then
        let estimatedWidth := (effectiveLength : ℚ) * avgCharWidthInches
        let maxWidth := opts.slideWidth * (8 / 10)
        max (min estimatedWidth maxWidth) 2
      else position.w
    let textWidth :=
      if effectiveLength > 30 ∧ textWidth1 < 4 then
        min (opts.slideWidth * (8 / 10)) 8
      else textWidth1
    let lineHeight := (fontSize / 72) * (3 / 2)
    let textHeight :=
      if position.h ≤ 3 / 10 then
        let charsPerLine : ℤ := ⌊textWidth / avgCharWidthInches⌋
        let estimatedLines : ℤ :=
          ⌈(effectiveLength : ℚ) / (max (charsPerLine : ℚ) 15)⌉
        let h0 := lineHeight * max (estimatedLines : ℚ) 1
        min (max h0 lineHeight) (opts.slideHeight * (6 / 10))
      else position.h
    let fill : Option FillOpts :=
      match shapeStyles.fill with
      | some f =>
        match f.color with
        | some c =>
          let bgColor := jsToUpper c
          if bgColor ≠ "FFFFFF" ∧ bgColor ≠ "TRANSPARENT" ∧
              ¬sStartsWith bgColor "FFF" then
            some f
          else none
        | none => none
      | none => none
    [DrawCall.addText text
      { x := position.x
        y := position.y
        w := textWidth
        h := textHeight
        fontFace := jsOrS textStyles.fontFace opts.defaultFontFace
        fontSize := fontSize
        color := jsOrS textStyles.color "000000"
        bold := if element.type = "heading" then true else textStyles.bold
        italic := textStyles.italic
        underline := textStyles.underline
        strike := textStyles.strike
        align := jsOrS textStyles.align "left"
        valign := "top"
        fill := fill }]

/-- `PptGenerator.svgToBase64` (part_002): patch missing `xmlns`, fill
color and size onto the markup, then base64-encode it as a data URI. -/
def svgToBase64 (svgContent : String) (color : Option String) : String :=
  let svg1 :=
    if ¬sIncludes svgContent "xmlns" then
      replaceFirst svgContent "<svg"
        ("<svg xmlns=" ++ String.mk [quoteD] ++
          "http://www.w3.org/2000/svg" ++ String.mk [quoteD])
    else svgContent
  let colorTruthy : Bool :=
    match color with
    | some c => decide (c ≠ "" ∧ c ≠ "transparent")
    | none => false
  let svg2 :=
    if colorTruthy ∧ ¬sIncludes svg1 "fill=" then
      replaceFirst svg1 "<svg"
        ("<svg fill=" ++ String.mk [quoteD] ++ color.getD "" ++
          String.mk [quoteD])
    else svg1
  let svg3 :=
    if ¬sIncludes svg2 "width=" ∧ ¬sIncludes svg2 "viewBox" then
      replaceFirst svg2 "<svg"
        ("<svg width=" ++ String.mk [quoteD] ++ "24" ++ String.mk [quoteD] ++
          " height=" ++ String.mk [quoteD] ++ "24" ++ String.mk [quoteD])
    else svg2
  "data:image/svg+xml;base64," ++ base64Encode svg3

/-- `PptGenerator.addSvgElement` (part_002): emit the SVG markup as an
embedded image with a floor on degenerate sizes. -/
def addSvgElement (opts : PgOptions) (containerSize : SizeQ)
    (element : ElementData) : List DrawCall :=
  match element.core.svgContent with
  | none => []
  | some svgContent =>
    let position := calculatePosition opts containerSize
      (some element.position)
    let svgW0 := if position.w > 1 / 5 then position.w else 1 / 2
    let svgH0 := if position.h > 1 / 5 then position.h else 1 / 2
    let svgW := if svgW0 < 3 / 10 then 2 / 5 else svgW0
    let svgH := if svgH0 < 3 / 10 then 2 / 5 else svgH0
    [DrawCall.addImage
      { x := position.x, y := position.y, w := svgW, h := svgH
        data := some (svgToBase64 svgContent element.core.iconColor) }]

/-- `PptGenerator.addIconElement` (part_002): an icon with inline SVG is
emitted through `addSvgElement`; a font glyph is silently skipped (the
source deliberately emits no placeholder shape). -/
def addIconElement (opts : PgOptions) (containerSize : SizeQ)
    (element : ElementData) : List DrawCall :=
  match element.core.svgContent with
  | some _ => addSvgElement opts containerSize element
  | none => []

/-- `PptGenerator.addImageElement` (part_002): skip missing and `blob:`
sources; floor degenerate sizes; base64 data is inlined, every other
source is passed as a path. -/
def addImageElement (opts : PgOptions) (containerSize : SizeQ)
    (element : ElementData) : List DrawCall :=
  let srcS := (element.core.src).getD ""
  if srcS = "" then []
  else if sStartsWith srcS "blob:" then []
  else
    let position := calculatePosition opts containerSize
      (some element.position)
    let imgW := if position.w > 1 / 2 then position.w else 3
    let imgH := if position.h > 1 / 2 then position.h else 2
    let baseOpts : ImageOptions :=
      { x := position.x, y := position.y, w := imgW, h := imgH
        sizing := some ("contain", imgW, imgH) }
    if sStartsWith srcS "data:" then
      [DrawCall.addImage { baseOpts with data := some srcS }]
    else
      [DrawCall.addImage { baseOpts with path := some srcS }]

/-- `PptGenerator.addTableElement` (part_002). -/
def addTableElement (opts : PgOptions) (containerSize : SizeQ)
    (element : ElementData) : List DrawCall :=
  match element.core.tableData with
  | none => []
  | some td =>
    let position := calculatePosition opts containerSize
      (some element.position)
    let rows : List (List TableCellCall) :=
      td.rows.map (fun row =>
        row.map (fun cell =>
          let cellStyles := StyleConverter.convertTextStyles cell.styles
          { text := cell.text
            style := { cellStyles with bold := cell.isHeader || cellStyles.bold }
            fill := if cell.isHeader then some { color := some "E7E6E6" }
                    else none
            border := { pt := 1, color := "CFCFCF" }
            colspan := cell.colspan
            rowspan := cell.rowspan }))
    [DrawCall.addTable rows
      { x := position.x
        y := position.y
        w := qOr position.w (opts.slideWidth * (8 / 10))
        colW := []
        border := { pt := 1, color := "CFCFCF" }
        fontFace := opts.defaultFontFace
        fontSize := 12 }]

/-- The recursive item walk of `addListElement` (the bullet kind always
comes from the *outer* list's `isOrdered`, as the source closure reads
`element.listData.isOrdered`). -/
def processListItems (isOrdered : Bool) : List ListItem → ℕ → List TextItem
  | [], _ => []
  | .mk itemText itemStyles itemChildren :: rest, level =>
    ({ text := itemText
       options :=
         { style := StyleConverter.convertTextStyles itemStyles
           bullet := if isOrdered then BulletOpt.number
                     else BulletOpt.code "2022"
           indentLevel := level } } : TextItem) ::
      (processListItems isOrdered itemChildren (level + 1) ++
        processListItems isOrdered rest level)

/-- `PptGenerator.addListElement` (part_002). -/
def addListElement (opts : PgOptions) (containerSize : SizeQ)
    (element : ElementData) : List DrawCall :=
  match element.core.listData with
  | none => []
  | some ld =>
    let position := calculatePosition opts containerSize
      (some element.position)
    let textItems := processListItems ld.isOrdered ld.items 0
    [DrawCall.addTextRuns textItems
      { x := position.x
        y := position.y
        w := qOr position.w (opts.slideWidth * (8 / 10))
        h := if position.h = 0 then none else some position.h
        fontFace := opts.defaultFontFace
        fontSize := opts.defaultFontSize
        valign := "top" }]

/-- `PptGenerator.addContainerElement` (part_002): a shape only when a
fill or border exists; a raw pixel radius above `0.5` overrides the
rounding radius with `min(radius, 0.5)`; the shape type is always
`rect`. -/
def addContainerElement (opts : PgOptions) (containerSize : SizeQ)
    (element : ElementData) : List DrawCall :=
  let shapeStyles := StyleConverter.convertShapeStyles element.styles
  if shapeStyles.fill.isSome ∨ shapeStyles.line.isSome then
    let position := calculatePosition opts containerSize
      (some element.position)
    let shapeOptions0 : ShapeOptions :=
      { x := position.x, y := position.y
        w := qOr position.w 2, h := qOr position.h 1
        fill := shapeStyles.fill, line := shapeStyles.line
        shadow := shapeStyles.shadow, rectRadius := shapeStyles.rectRadius }
    let radius := StyleConverter.parseBorderRadius element.styles.borderRadius
    let shapeOptions :=
      if StyleConverter.nanGt radius (1 / 2) then
        { shapeOptions0 with rectRadius := some (min (radius.getD 0) (1 / 2)) }
      else shapeOptions0
    [DrawCall.addShape "rect" shapeOptions]
  else []

/-- `PptGenerator.addShapeElement` (part_002 and the identical copy in
PptGenerator.js): `ellipse` exactly when the raw pixel radius is
positive, the source width and height are *equal*, and the radius is at
least half the width; otherwise `rect`. -/
def addShapeElement (opts : PgOptions) (containerSize : SizeQ)
    (element : ElementData) : List DrawCall :=
  let position := calculatePosition opts containerSize
    (some element.position)
  let shapeStyles := StyleConverter.convertShapeStyles element.styles
  let radius := StyleConverter.parseBorderRadius element.styles.borderRadius
  let shapeType :=
    if StyleConverter.nanGt radius 0 ∧
        element.position.width = element.position.height ∧
        StyleConverter.nanGe radius (element.position.width / 2) then
      "ellipse"
    else "rect"
  [DrawCall.addShape shapeType
    { x := position.x, y := position.y
      w := qOr position.w 1, h := qOr position.h 1
      fill := shapeStyles.fill, line := shapeStyles.line
      shadow := shapeStyles.shadow, rectRadius := shapeStyles.rectRadius }]

mutual

/-- `PptGenerator.addElement` (part_002): dispatch by element type, then
recurse into the children. -/
def addElement (opts : PgOptions) (containerSize : SizeQ) :
    ElementData → List DrawCall
  | .mk core children =>
    let e := ElementData.mk core children
    let own : List DrawCall :=
      if core.type = "heading" ∨ core.type = "paragraph" ∨
          core.type = "text" then
        addTextElement opts containerSize e
      else if core.type = "image" then addImageElement opts containerSize e
      else if core.type = "table" then addTableElement opts containerSize e
      else if core.type = "list" then addListElement opts containerSize e
      else if core.type = "container" then
        addContainerElement opts containerSize e
      else if core.type = "shape" then addShapeElement opts containerSize e
      else if core.type = "icon" then addIconElement opts containerSize e
      else if core.type = "svg" then addSvgElement opts containerSize e
      else if core.text ≠ "" ∧ ¬isIconText core.text then
        addTextElement opts containerSize e
      else []
    own ++ addElementList opts containerSize children

def addElementList (opts : PgOptions) (containerSize : SizeQ) :
    List ElementData → List DrawCall
  | [] => []
  | c :: cs =>
    addElement opts containerSize c ++ addElementList opts containerSize cs

end

/-- `PptGenerator.extractImageUrl`: capture of
`/url\(['"]?([^'"]+)['"]?\)/` at one position (greedy non-quote run,
backed off to the last `)` inside it when no quote-`)` follows). -/
def matchUrlAt (cs : List Char) : Option (List Char) :=
  if startsWithL cs ("url(".toList) then
    let rest0 := cs.drop 4
    let rest :=
      match rest0 with
      | c :: t => if c = quoteS ∨ c = quoteD then t else rest0
      | [] => rest0
    let r := rest.takeWhile (fun c => c ≠ quoteS ∧ c ≠ quoteD)
    if r = [] then none
    else
      let tail := rest.drop r.length
      let fullOk :=
        match tail with
        | ')' :: _ => true
        | c :: ')' :: _ => c = quoteS ∨ c = quoteD
        | _ => false
      if fullOk then some r
      else
        match (r.reverse.findIdx? (· = ')')) with
        | some k =>
          let keep := r.length - 1 - k
          if keep > 0 then some (r.take keep) else none
        | none => none
  else none

/-- Scan for the first `url(...)` capture anywhere. -/
def findUrl : List Char → Option (List Char)
  | [] => none
  | c :: t =>
    match matchUrlAt (c :: t) with
    | some r => some r
    | none => findUrl t

/-- `PptGenerator.extractImageUrl`. -/
def extractImageUrl (cssValue : String) : Option String :=
  if cssValue = "" then none
  else (findUrl cssValue.toList).map String.mk

/-- `PptGenerator.setSlideBackground` (part_002): gradients collapse to
their first stop color (the encoder has no native gradient background);
solid colors convert; image URLs pass as paths, `blob:` skipped. -/
def setSlideBackground (background : Option BackgroundData) :
    Option SlideBackground :=
  match background with
  | none => none
  | some bg =>
    if bg.gradient.isSome then
      match StyleConverter.convertGradient bg.gradient with
      | some gradient =>
        if gradient.colors.length ≥ 2 then
          match gradient.colors.head? with
          | some stop => some (SlideBackground.colorBg stop.color)
          | none => none
        else none
      | none => none
    else if bg.color.isSome then
      match StyleConverter.convertColorO bg.color with
      | some c => some (SlideBackground.colorBg (some c))
      | none => none
    else
      match bg.image with
      | some img =>
        match extractImageUrl img with
        | some u =>
          if ¬sStartsWith u "blob:" then some (SlideBackground.pathBg u)
          else none
        | none => none
      | none => none

/-- `PptGenerator.addSlide` (part_002): set the background, then emit
every element in order. -/
def addSlide (opts : PgOptions) (containerSize : SizeQ)
    (slideData : SlideData) : EmittedSlide :=
  { background := setSlideBackground (some slideData.background)
    calls := addElementList opts containerSize slideData.elements }

end PptGenerator

namespace HtmlToPptConverter

/-!
## HtmlToPptConverter (part_004): font-glyph icon rasterization

`renderIconWithCanvas` draws the glyph text on an offscreen 2× canvas
provided by the rasterization-surface collaborator; the collaborator is
modelled as an oracle mapping the draw parameters to the canvas's
resulting RGBA pixel buffer and encoded PNG.  The font-readiness waits
around the draw are scheduling, not data flow.
-/

/-- `HtmlToPptConverter.MATERIAL_ICON_PATHS`: the curated table of
well-known Material Icons glyph names and their SVG path data. -/
def MATERIAL_ICON_PATHS : List (String × String) :=
  [
   ("home",
    "M10 20v-6h4v6h5v-8h3L12 3 2 12h3v8z"),
   ("settings",
    "M19.14 12.94c.04-.31.06-.63.06-.94 0-.31-.02-.63-.06-.94l2.03-1.58c.18-.14.23-.41.12-.61l-1.92-3.32c-.12-.22-.37-.29-.59-.22l-2.39.96c-.5-.38-1.03-.7-1.62-.94l-.36-2.54c-.04-.24-.24-.41-.48-.41h-3.84c-.24 0-.43.17-.47.41l-.36 2.54c-.59.24-1.13.57-1.62.94l-2.39-.96c-.22-.08-.47 0-.59.22L2.74 8.87c-.12.21-.08.47.12.61l2.03 1.58c-.04.31-.06.63-.06.94s.02.63.06.94l-2.03 1.58c-.18.14-.23.41-.12.61l1.92 3.32c.12.22.37.29.59.22l2.39-.96c.5.38 1.03.7 1.62.94l.36 2.54c.05.24.24.41.48.41h3.84c.24 0 .44-.17.47-.41l.36-2.54c.59-.24 1.13-.56 1.62-.94l2.39.96c.22.08.47 0 .59-.22l1.92-3.32c.12-.22.07-.47-.12-.61l-2.01-1.58zM12 15.6c-1.98 0-3.6-1.62-3.6-3.6s1.62-3.6 3.6-3.6 3.6 1.62 3.6 3.6-1.62 3.6-3.6 3.6z"),
   ("directions_car",
    "M18.92 6.01C18.72 5.42 18.16 5 17.5 5h-11c-.66 0-1.21.42-1.42 1.01L3 12v8c0 .55.45 1 1 1h1c.55 0 1-.45 1-1v-1h12v1c0 .55.45 1 1 1h1c.55 0 1-.45 1-1v-8l-2.08-5.99zM6.5 16c-.83 0-1.5-.67-1.5-1.5S5.67 13 6.5 13s1.5.67 1.5 1.5S7.33 16 6.5 16zm11 0c-.83 0-1.5-.67-1.5-1.5s.67-1.5 1.5-1.5 1.5.67 1.5 1.5-.67 1.5-1.5 1.5zM5 11l1.5-4.5h11L19 11H5z"),
   ("car",
    "M18.92 6.01C18.72 5.42 18.16 5 17.5 5h-11c-.66 0-1.21.42-1.42 1.01L3 12v8c0 .55.45 1 1 1h1c.55 0 1-.45 1-1v-1h12v1c0 .55.45 1 1 1h1c.55 0 1-.45 1-1v-8l-2.08-5.99zM6.5 16c-.83 0-1.5-.67-1.5-1.5S5.67 13 6.5 13s1.5.67 1.5 1.5S7.33 16 6.5 16zm11 0c-.83 0-1.5-.67-1.5-1.5s.67-1.5 1.5-1.5 1.5.67 1.5 1.5-.67 1.5-1.5 1.5zM5 11l1.5-4.5h11L19 11H5z"),
   ("search",
    "M15.5 14h-.79l-.28-.27C15.41 12.59 16 11.11 16 9.5 16 5.91 13.09 3 9.5 3S3 5.91 3 9.5 5.91 16 9.5 16c1.61 0 3.09-.59 4.23-1.57l.27.28v.79l5 4.99L20.49 19l-4.99-5zm-6 0C7.01 14 5 11.99 5 9.5S7.01 5 9.5 5 14 7.01 14 9.5 11.99 14 9.5 14z"),
   ("menu",
    "M3 18h18v-2H3v2zm0-5h18v-2H3v2zm0-7v2h18V6H3z"),
   ("close",
    "M19 6.41L17.59 5 12 10.59 6.41 5 5 6.41 10.59 12 5 17.59 6.41 19 12 13.41 17.59 19 19 17.59 13.41 12z"),
   ("check",
    "M9 16.17L4.83 12l-1.42 1.41L9 19 21 7l-1.41-1.41z"),
   ("add",
    "M19 13h-6v6h-2v-6H5v-2h6V5h2v6h6v2z"),
   ("delete",
    "M6 19c0 1.1.9 2 2 2h8c1.1 0 2-.9 2-2V7H6v12zM19 4h-3.5l-1-1h-5l-1 1H5v2h14V4z"),
   ("edit",
    "M3 17.25V21h3.75L17.81 9.94l-3.75-3.75L3 17.25zM20.71 7.04c.39-.39.39-1.02 0-1.41l-2.34-2.34c-.39-.39-1.02-.39-1.41 0l-1.83 1.83 3.75 3.75 1.83-1.83z"),
   ("person",
    "M12 12c2.21 0 4-1.79 4-4s-1.79-4-4-4-4 1.79-4 4 1.79 4 4 4zm0 2c-2.67 0-8 1.34-8 4v2h16v-2c0-2.66-5.33-4-8-4z"),
   ("email",
    "M20 4H4c-1.1 0-1.99.9-1.99 2L2 18c0 1.1.9 2 2 2h16c1.1 0 2-.9 2-2V6c0-1.1-.9-2-2-2zm0 4l-8 5-8-5V6l8 5 8-5v2z"),
   ("phone",
    "M6.62 10.79c1.44 2.83 3.76 5.14 6.59 6.59l2.2-2.2c.27-.27.67-.36 1.02-.24 1.12.37 2.33.57 3.57.57.55 0 1 .45 1 1V20c0 .55-.45 1-1 1-9.39 0-17-7.61-17-17 0-.55.45-1 1-1h3.5c.55 0 1 .45 1 1 0 1.25.2 2.45.57 3.57.11.35.03.74-.25 1.02l-2.2 2.2z"),
   ("favorite",
    "M12 21.35l-1.45-1.32C5.4 15.36 2 12.28 2 8.5 2 5.42 4.42 3 7.5 3c1.74 0 3.41.81 4.5 2.09C13.09 3.81 14.76 3 16.5 3 19.58 3 22 5.42 22 8.5c0 3.78-3.4 6.86-8.55 11.54L12 21.35z"),
   ("star",
    "M12 17.27L18.18 21l-1.64-7.03L22 9.24l-7.19-.61L12 2 9.19 8.63 2 9.24l5.46 4.73L5.82 21z"),
   ("info",
    "M12 2C6.48 2 2 6.48 2 12s4.48 10 10 10 10-4.48 10-10S17.52 2 12 2zm1 15h-2v-6h2v6zm0-8h-2V7h2v2z"),
   ("warning",
    "M1 21h22L12 2 1 21zm12-3h-2v-2h2v2zm0-4h-2v-4h2v4z"),
   ("error",
    "M12 2C6.48 2 2 6.48 2 12s4.48 10 10 10 10-4.48 10-10S17.52 2 12 2zm1 15h-2v-2h2v2zm0-4h-2V7h2v6z"),
   ("help",
    "M12 2C6.48 2 2 6.48 2 12s4.48 10 10 10 10-4.48 10-10S17.52 2 12 2zm1 17h-2v-2h2v2zm2.07-7.75l-.9.92C13.45 12.9 13 13.5 13 15h-2v-.5c0-1.1.45-2.1 1.17-2.83l1.24-1.26c.37-.36.59-.86.59-1.41 0-1.1-.9-2-2-2s-2 .9-2 2H8c0-2.21 1.79-4 4-4s4 1.79 4 4c0 .88-.36 1.68-.93 2.25z"),
   ("account_circle",
    "M12 2C6.48 2 2 6.48 2 12s4.48 10 10 10 10-4.48 10-10S17.52 2 12 2zm0 3c1.66 0 3 1.34 3 3s-1.34 3-3 3-3-1.34-3-3 1.34-3 3-3zm0 14.2c-2.5 0-4.71-1.28-6-3.22.03-1.99 4-3.08 6-3.08 1.99 0 5.97 1.09 6 3.08-1.29 1.94-3.5 3.22-6 3.22z"),
   ("arrow_back",
    "M20 11H7.83l5.59-5.59L12 4l-8 8 8 8 1.41-1.41L7.83 13H20v-2z"),
   ("arrow_forward",
    "M12 4l-1.41 1.41L16.17 11H4v2h12.17l-5.58 5.59L12 20l8-8z"),
   ("check_circle",
    "M12 2C6.48 2 2 6.48 2 12s4.48 10 10 10 10-4.48 10-10S17.52 2 12 2zm-2 15l-5-5 1.41-1.41L10 14.17l7.59-7.59L19 8l-9 9z"),
   ("cancel",
    "M12 2C6.47 2 2 6.47 2 12s4.47 10 10 10 10-4.47 10-10S17.53 2 12 2zm5 13.59L15.59 17 12 13.41 8.41 17 7 15.59 10.59 12 7 8.41 8.41 7 12 10.59 15.59 7 17 8.41 13.41 12 17 15.59z"),
   ("visibility",
    "M12 4.5C7 4.5 2.73 7.61 1 12c1.73 4.39 6 7.5 11 7.5s9.27-3.11 11-7.5c-1.73-4.39-6-7.5-11-7.5zM12 17c-2.76 0-5-2.24-5-5s2.24-5 5-5 5 2.24 5 5-2.24 5-5 5zm0-8c-1.66 0-3 1.34-3 3s1.34 3 3 3 3-1.34 3-3-1.34-3-3-3z"),
   ("visibility_off",
    "M12 7c2.76 0 5 2.24 5 5 0 .65-.13 1.26-.36 1.83l2.92 2.92c1.51-1.26 2.7-2.89 3.43-4.75-1.73-4.39-6-7.5-11-7.5-1.4 0-2.74.25-3.98.7l2.16 2.16C10.74 7.13 11.35 7 12 7zM2 4.27l2.28 2.28.46.46C3.08 8.3 1.78 10.02 1 12c1.73 4.39 6 7.5 11 7.5 1.55 0 3.03-.3 4.38-.84l.42.42L19.73 22 21 20.73 3.27 3 2 4.27zM7.53 9.8l1.55 1.55c-.05.21-.08.43-.08.65 0 1.66 1.34 3 3 3 .22 0 .44-.03.65-.08l1.55 1.55c-.67.33-1.41.53-2.2.53-2.76 0-5-2.24-5-5 0-.79.2-1.53.53-2.2zm4.31-.78l3.15 3.15.02-.16c0-1.66-1.34-3-3-3l-.17.01z"),
   ("lock",
    "M18 8h-1V6c0-2.76-2.24-5-5-5S7 3.24 7 6v2H6c-1.1 0-2 .9-2 2v10c0 1.1.9 2 2 2h12c1.1 0 2-.9 2-2V10c0-1.1-.9-2-2-2zm-6 9c-1.1 0-2-.9-2-2s.9-2 2-2 2 .9 2 2-.9 2-2 2zm3.1-9H8.9V6c0-1.71 1.39-3.1 3.1-3.1 1.71 0 3.1 1.39 3.1 3.1v2z"),
   ("download",
    "M19 9h-4V3H9v6H5l7 7 7-7zM5 18v2h14v-2H5z"),
   ("upload",
    "M9 16h6v-6h4l-7-7-7 7h4zm-4 2h14v2H5z"),
   ("share",
    "M18 16.08c-.76 0-1.44.3-1.96.77L8.91 12.7c.05-.23.09-.46.09-.7s-.04-.47-.09-.7l7.05-4.11c.54.5 1.25.81 2.04.81 1.66 0 3-1.34 3-3s-1.34-3-3-3-3 1.34-3 3c0 .24.04.47.09.7L8.04 9.81C7.5 9.31 6.79 9 6 9c-1.66 0-3 1.34-3 3s1.34 3 3 3c.79 0 1.5-.31 2.04-.81l7.12 4.16c-.05.21-.08.43-.08.65 0 1.61 1.31 2.92 2.92 2.92 1.61 0 2.92-1.31 2.92-2.92s-1.31-2.92-2.92-2.92z"),
   ("shopping_cart",
    "M7 18c-1.1 0-1.99.9-1.99 2S5.9 22 7 22s2-.9 2-2-.9-2-2-2zM1 2v2h2l3.6 7.59-1.35 2.45c-.16.28-.25.61-.25.96 0 1.1.9 2 2 2h12v-2H7.42c-.14 0-.25-.11-.25-.25l.03-.12.9-1.63h7.45c.75 0 1.41-.41 1.75-1.03l3.58-6.49c.08-.14.12-.31.12-.48 0-.55-.45-1-1-1H5.21l-.94-2H1zm16 16c-1.1 0-1.99.9-1.99 2s.89 2 1.99 2 2-.9 2-2-.9-2-2-2z"),
   ("refresh",
    "M17.65 6.35C16.2 4.9 14.21 4 12 4c-4.42 0-7.99 3.58-7.99 8s3.57 8 7.99 8c3.73 0 6.84-2.55 7.73-6h-2.08c-.82 2.33-3.04 4-5.65 4-3.31 0-6-2.69-6-6s2.69-6 6-6c1.66 0 3.14.69 4.22 1.78L13 11h7V4l-2.35 2.35z"),
   ("more_vert",
    "M12 8c1.1 0 2-.9 2-2s-.9-2-2-2-2 .9-2 2 .9 2 2 2zm0 2c-1.1 0-2 .9-2 2s.9 2 2 2 2-.9 2-2-.9-2-2-2zm0 6c-1.1 0-2 .9-2 2s.9 2 2 2 2-.9 2-2-.9-2-2-2z"),
   ("more_horiz",
    "M6 10c-1.1 0-2 .9-2 2s.9 2 2 2 2-.9 2-2-.9-2-2-2zm12 0c-1.1 0-2 .9-2 2s.9 2 2 2 2-.9 2-2-.9-2-2-2zm-6 0c-1.1 0-2 .9-2 2s.9 2 2 2 2-.9 2-2-.9-2-2-2z"),
   ("notifications",
    "M12 22c1.1 0 2-.9 2-2h-4c0 1.1.89 2 2 2zm6-6v-5c0-3.07-1.64-5.64-4.5-6.32V4c0-.83-.67-1.5-1.5-1.5s-1.5.67-1.5 1.5v.68C7.63 5.36 6 7.92 6 11v5l-2 2v1h16v-1l-2-2z"),
   ("calendar_today",
    "M20 3h-1V1h-2v2H7V1H5v2H4c-1.1 0-2 .9-2 2v16c0 1.1.9 2 2 2h16c1.1 0 2-.9 2-2V5c0-1.1-.9-2-2-2zm0 18H4V8h16v13z"),
   ("schedule",
    "M11.99 2C6.47 2 2 6.48 2 12s4.47 10 9.99 10C17.52 22 22 17.52 22 12S17.52 2 11.99 2zM12 20c-4.42 0-8-3.58-8-8s3.58-8 8-8 8 3.58 8 8-3.58 8-8 8zm.5-13H11v6l5.25 3.15.75-1.23-4.5-2.67z"),
   ("location_on",
    "M12 2C8.13 2 5 5.13 5 9c0 5.25 7 13 7 13s7-7.75 7-13c0-3.87-3.13-7-7-7zm0 9.5c-1.38 0-2.5-1.12-2.5-2.5s1.12-2.5 2.5-2.5 2.5 1.12 2.5 2.5-1.12 2.5-2.5 2.5z"),
   ("attach_file",
    "M16.5 6v11.5c0 2.21-1.79 4-4 4s-4-1.79-4-4V5c0-1.38 1.12-2.5 2.5-2.5s2.5 1.12 2.5 2.5v10.5c0 .55-.45 1-1 1s-1-.45-1-1V6H10v9.5c0 1.38 1.12 2.5 2.5 2.5s2.5-1.12 2.5-2.5V5c0-2.21-1.79-4-4-4S7 2.79 7 5v12.5c0 3.04 2.46 5.5 5.5 5.5s5.5-2.46 5.5-5.5V6h-1.5z"),
   ("cloud",
    "M19.35 10.04C18.67 6.59 15.64 4 12 4 9.11 4 6.6 5.64 5.35 8.04 2.34 8.36 0 10.91 0 14c0 3.31 2.69 6 6 6h13c2.76 0 5-2.24 5-5 0-2.64-2.05-4.78-4.65-4.96z"),
   ("folder",
    "M10 4H4c-1.1 0-1.99.9-1.99 2L2 18c0 1.1.9 2 2 2h16c1.1 0 2-.9 2-2V8c0-1.1-.9-2-2-2h-8l-2-2z"),
   ("insert_drive_file",
    "M6 2c-1.1 0-1.99.9-1.99 2L4 20c0 1.1.89 2 1.99 2H18c1.1 0 2-.9 2-2V8l-6-6H6zm7 7V3.5L18.5 9H13z"),
   ("print",
    "M19 8H5c-1.66 0-3 1.34-3 3v6h4v4h12v-4h4v-6c0-1.66-1.34-3-3-3zm-3 11H8v-5h8v5zm3-7c-.55 0-1-.45-1-1s.45-1 1-1 1 .45 1 1-.45 1-1 1zm-1-9H6v4h12V3z"),
   ("save",
    "M17 3H5c-1.11 0-2 .9-2 2v14c0 1.1.89 2 2 2h14c1.1 0 2-.9 2-2V7l-4-4zm-5 16c-1.66 0-3-1.34-3-3s1.34-3 3-3 3 1.34 3 3-1.34 3-3 3zm3-10H5V5h10v4z"),
   ("send",
    "M2.01 21L23 12 2.01 3 2 10l15 2-15 2z"),
   ("link",
    "M3.9 12c0-1.71 1.39-3.1 3.1-3.1h4V7H7c-2.76 0-5 2.24-5 5s2.24 5 5 5h4v-1.9H7c-1.71 0-3.1-1.39-3.1-3.1zM8 13h8v-2H8v2zm9-6h-4v1.9h4c1.71 0 3.1 1.39 3.1 3.1s-1.39 3.1-3.1 3.1h-4V17h4c2.76 0 5-2.24 5-5s-2.24-5-5-5z"),
   ("language",
    "M11.99 2C6.47 2 2 6.48 2 12s4.47 10 9.99 10C17.52 22 22 17.52 22 12S17.52 2 11.99 2zm6.93 6h-2.95c-.32-1.25-.78-2.45-1.38-3.56 1.84.63 3.37 1.91 4.33 3.56zM12 4.04c.83 1.2 1.48 2.53 1.91 3.96h-3.82c.43-1.43 1.08-2.76 1.91-3.96zM4.26 14C4.1 13.36 4 12.69 4 12s.1-1.36.26-2h3.38c-.08.66-.14 1.32-.14 2 0 .68.06 1.34.14 2H4.26zm.82 2h2.95c.32 1.25.78 2.45 1.38 3.56-1.84-.63-3.37-1.9-4.33-3.56zm2.95-8H5.08c.96-1.66 2.49-2.93 4.33-3.56C8.81 5.55 8.35 6.75 8.03 8zM12 19.96c-.83-1.2-1.48-2.53-1.91-3.96h3.82c-.43 1.43-1.08 2.76-1.91 3.96zM14.34 14H9.66c-.09-.66-.16-1.32-.16-2 0-.68.07-1.35.16-2h4.68c.09.65.16 1.32.16 2 0 .68-.07 1.34-.16 2zm.25 5.56c.6-1.11 1.06-2.31 1.38-3.56h2.95c-.96 1.65-2.49 2.93-4.33 3.56zM16.36 14c.08-.66.14-1.32.14-2 0-.68-.06-1.34-.14-2h3.38c.16.64.26 1.31.26 2s-.1 1.36-.26 2h-3.38z"),
   ("work",
    "M20 6h-4V4c0-1.11-.89-2-2-2h-4c-1.11 0-2 .89-2 2v2H4c-1.11 0-1.99.89-1.99 2L2 19c0 1.11.89 2 2 2h16c1.11 0 2-.89 2-2V8c0-1.11-.89-2-2-2zm-6 0h-4V4h4v2z"),
   ("school",
    "M5 13.18v4L12 21l7-3.82v-4L12 17l-7-3.82zM12 3L1 9l11 6 9-4.91V17h2V9L12 3z"),
   ("flight",
    "M21 16v-2l-8-5V3.5c0-.83-.67-1.5-1.5-1.5S10 2.67 10 3.5V9l-8 5v2l8-2.5V19l-2 1.5V22l3.5-1 3.5 1v-1.5L13 19v-5.5l8 2.5z"),
   ("local_hospital",
    "M19 3H5c-1.1 0-1.99.9-1.99 2L3 19c0 1.1.9 2 2 2h14c1.1 0 2-.9 2-2V5c0-1.1-.9-2-2-2zm-1 11h-4v4h-4v-4H6v-4h4V6h4v4h4v4z"),
   ("restaurant",
    "M11 9H9V2H7v7H5V2H3v7c0 2.12 1.66 3.84 3.75 3.97V22h2.5v-9.03C11.34 12.84 13 11.12 13 9V2h-2v7zm5-3v8h2.5v8H21V2c-2.76 0-5 2.24-5 4z"),
   ("local_cafe",
    "M20 3H4v10c0 2.21 1.79 4 4 4h6c2.21 0 4-1.79 4-4v-3h2c1.11 0 2-.89 2-2V5c0-1.11-.89-2-2-2zm0 5h-2V5h2v3zM2 21h18v-2H2v2z"),
   ("movie",
    "M18 4l2 4h-3l-2-4h-2l2 4h-3l-2-4H8l2 4H7L5 4H4c-1.1 0-1.99.9-1.99 2L2 18c0 1.1.9 2 2 2h16c1.1 0 2-.9 2-2V4h-4z"),
   ("music_note",
    "M12 3v10.55c-.59-.34-1.27-.55-2-.55-2.21 0-4 1.79-4 4s1.79 4 4 4 4-1.79 4-4V7h4V3h-6z"),
   ("sports_soccer",
    "M12 2C6.48 2 2 6.48 2 12s4.48 10 10 10 10-4.48 10-10S17.52 2 12 2zm1 4h3c.55 0 1 .45 1 1v3h-4V6zm-2 0v4H7V7c0-.55.45-1 1-1h3zm-5 9v-3h4v4H7c-.55 0-1-.45-1-1zm6 4h-3c-.55 0-1-.45-1-1v-3h4v4zm0-5h-4V9h4v5zm6 2c0 .55-.45 1-1 1h-3v-4h4v3zm0-4h-4V9h4v4z"),
   ("fitness_center",
    "M20.57 14.86L22 13.43 20.57 12 17 15.57 8.43 7 12 3.43 10.57 2 9.14 3.43 7.71 2 5.57 4.14 4.14 2.71 2.71 4.14l1.43 1.43L2 7.71l1.43 1.43L2 10.57 3.43 12 7 8.43 15.57 17 12 20.57 13.43 22l1.43-1.43L16.29 22l2.14-2.14 1.43 1.43 1.43-1.43-1.43-1.43L22 16.29z"),
   ("pets",
    "M4.5 9.5m-2.5 0a2.5 2.5 0 1 0 5 0a2.5 2.5 0 1 0 -5 0M9 5.5m-2.5 0a2.5 2.5 0 1 0 5 0a2.5 2.5 0 1 0 -5 0M15 5.5m-2.5 0a2.5 2.5 0 1 0 5 0a2.5 2.5 0 1 0 -5 0M19.5 9.5m-2.5 0a2.5 2.5 0 1 0 5 0a2.5 2.5 0 1 0 -5 0M17.34 14.86c-.87-1.02-1.6-1.89-2.48-2.91-.46-.54-1.05-1.08-1.75-1.32-.11-.04-.22-.07-.33-.09-.25-.04-.52-.04-.78-.04s-.53 0-.79.05c-.11.02-.22.05-.33.09-.7.24-1.28.78-1.75 1.32-.87 1.02-1.6 1.89-2.48 2.91-1.31 1.31-2.92 2.76-2.62 4.79.29 1.02 1.02 2.03 2.33 2.32.73.15 3.06-.44 5.54-.44h.18c2.48 0 4.81.58 5.54.44 1.31-.29 2.04-1.31 2.33-2.32.31-2.04-1.3-3.49-2.61-4.8z"),
   ("account_tree",
    "M22 11V3h-7v3H9V3H2v8h7V8h2v10h4v3h7v-8h-7v3h-2V8h2v3h7zM7 9H4V5h3v4zm10 6h3v4h-3v-4zm0-10v4h3V5h-3z"),
   ("agriculture",
    "M19.5 12c.93 0 1.78.28 2.5.76V8c0-1.1-.9-2-2-2h-6.29l-1.06-1.06 1.41-1.41-.71-.71-3.53 3.53.71.71 1.41-1.41L13 6.71V9c0 1.1-.9 2-2 2H8.96c.22.54.38 1.12.46 1.73.19-.13.4-.21.63-.27.5-.14 1.03-.21 1.59-.18C13.43 10.25 15 8.18 15 6h5v6c.55-.64 1.27-1.12 2.08-1.38.14-.04.28-.08.42-.1v-.52zm-11.22.36C8.13 12.57 8 12.77 8 13c0 .55.45 1 1 1s1-.45 1-1c0-.44-.28-.81-.67-.94-.19.08-.37.18-.55.3zM20 13.5c-2.48 0-4.5 2.02-4.5 4.5s2.02 4.5 4.5 4.5 4.5-2.02 4.5-4.5-2.02-4.5-4.5-4.5zm0 7c-1.38 0-2.5-1.12-2.5-2.5s1.12-2.5 2.5-2.5 2.5 1.12 2.5 2.5-1.12 2.5-2.5 2.5zM4.5 18c-2.48 0-4.5 2.02-4.5 4.5S2.02 27 4.5 27 9 24.98 9 22.5 6.98 18 4.5 18zm0 7c-1.38 0-2.5-1.12-2.5-2.5S3.12 20 4.5 20s2.5 1.12 2.5 2.5S5.88 25 4.5 25z"),
   ("arrow_downward",
    "M20 12l-1.41-1.41L13 16.17V4h-2v12.17l-5.58-5.59L4 12l8 8 8-8z"),
   ("arrow_upward",
    "M4 12l1.41 1.41L11 7.83V20h2V7.83l5.58 5.59L20 12l-8-8-8 8z"),
   ("dns",
    "M20 13H4c-.55 0-1 .45-1 1v6c0 .55.45 1 1 1h16c.55 0 1-.45 1-1v-6c0-.55-.45-1-1-1zM7 19c-1.1 0-2-.9-2-2s.9-2 2-2 2 .9 2 2-.9 2-2 2zM20 3H4c-.55 0-1 .45-1 1v6c0 .55.45 1 1 1h16c.55 0 1-.45 1-1V4c0-.55-.45-1-1-1zM7 9c-1.1 0-2-.9-2-2s.9-2 2-2 2 .9 2 2-.9 2-2 2z"),
   ("health_and_safety",
    "M10.5 13H8v-3h2.5V7.5h3V10H16v3h-2.5v2.5h-3V13zM12 2L4 5v6.09c0 5.05 3.41 9.76 8 10.91 4.59-1.15 8-5.86 8-10.91V5l-8-3z"),
   ("html",
    "M3.5 9H5v6H3.5v-2.5h-2V15H0V9h1.5v2h2V9zm11 3c0 .6-.2 1.1-.6 1.4-.4.4-.9.6-1.4.6H11v-2h1c.4 0 .5-.2.5-.5s-.1-.5-.5-.5h-1c-.4 0-.8.1-1.1.4-.3.3-.4.7-.4 1.1v1c0 .4.1.8.4 1.1.3.3.7.4 1.1.4h2V15H12c-.6 0-1.1-.2-1.4-.6-.4-.4-.6-.9-.6-1.4v-1c0-.6.2-1.1.6-1.4.4-.4.9-.6 1.4-.6h1c.6 0 1 .2 1.4.6.4.4.6.9.6 1.4v1zm2.5-3v6h1.5v-2.5h2V15H22V9h-1.5v2h-2V9h-1.5zm-8 6V10.5h1.5V9H6v1.5h1.5V15H9z"),
   ("inventory_2",
    "M20 2H4c-1 0-2 .9-2 2v3.01c0 .72.43 1.34 1 1.69V20c0 1.1 1.1 2 2 2h14c.9 0 2-.9 2-2V8.7c.57-.35 1-.97 1-1.69V4c0-1.1-1-2-2-2zm-5 12H9v-2h6v2zm5-7H4V4h16v3z"),
   ("payments",
    "M19 14V6c0-1.1-.9-2-2-2H3c-1.1 0-2 .9-2 2v8c0 1.1.9 2 2 2h14c1.1 0 2-.9 2-2zm-9-1c-1.66 0-3-1.34-3-3s1.34-3 3-3 3 1.34 3 3-1.34 3-3 3zm13-6v11c0 1.1-.9 2-2 2H4v-2h17V7h2z"),
   ("picture_as_pdf",
    "M20 2H8c-1.1 0-2 .9-2 2v12c0 1.1.9 2 2 2h12c1.1 0 2-.9 2-2V4c0-1.1-.9-2-2-2zm-8.5 7.5c0 .83-.67 1.5-1.5 1.5H9v2H7.5V7H10c.83 0 1.5.67 1.5 1.5v1zm5 2c0 .83-.67 1.5-1.5 1.5h-2.5V7H15c.83 0 1.5.67 1.5 1.5v3zm4-3H19v1h1.5V11H19v2h-1.5V7h3v1.5zM9 9.5h1v-1H9v1zM4 6H2v14c0 1.1.9 2 2 2h14v-2H4V6zm10 5.5h1v-3h-1v3z"),
   ("precision_manufacturing",
    "M19.93 8.35l-3.6 1.68L14 7.7V6.3l2.33-2.33 3.6 1.68c.38.18.82.01 1-.36.18-.38.01-.82-.36-1l-3.92-1.83c-.38-.18-.83-.1-1.13.2L13.78 4.4c-.18-.24-.46-.4-.78-.4-.55 0-1 .45-1 1v1H8.82C8.34 4.65 6.98 3.73 5.4 4.07c-1.16.25-2.15 1.17-2.36 2.35-.32 1.77.9 3.35 2.67 3.57 1.23.15 2.32-.42 2.97-1.32L12 8.67v1.4l-1.88 1.88c-.28.28-.36.72-.22 1.08l2.03 5.08c.36.89 1.52 1.1 2.18.39l2.78-2.98c.29-.31.34-.77.13-1.14l-1.63-2.88 1.86-.86c.31-.15.55-.42.66-.75l1.64-4.88c.19-.38.03-.82-.35-1-.38-.18-.82-.01-1 .37l-1.37 4.07zM5.5 6.5c-.55 0-1-.45-1-1s.45-1 1-1 1 .45 1 1-.45 1-1 1zm8.85 6.25l1.5 2.64-1.5 1.61-1.23-3.08 1.23-1.17z"),
   ("rocket_launch",
    "M9.19 6.35c-2.04 2.29-3.44 5.58-3.57 5.89L2 10.69l4.05-4.05c.47-.47 1.15-.68 1.81-.55l1.33.26zM11.17 17s3.74-1.55 5.89-3.7c5.4-5.4 4.5-9.62 4.21-10.57-.95-.3-5.17-1.19-10.57 4.21C8.55 9.09 7 12.83 7 12.83L11.17 17zm6.48-2.19c-2.29 2.04-5.58 3.44-5.89 3.57L13.31 22l4.05-4.05c.47-.47.68-1.15.55-1.81l-.26-1.33zM9 18c0 .83-.34 1.58-.88 2.12C6.94 21.3 2 22 2 22s.7-4.94 1.88-6.12C4.42 15.34 5.17 15 6 15c1.66 0 3 1.34 3 3zm4-9c0-1.1.9-2 2-2s2 .9 2 2-.9 2-2 2-2-.9-2-2z"),
   ("share_location",
    "M13.02 19.93v2.02c2.01-.2 3.84-1 5.32-2.21l-1.42-1.43c-1.11.86-2.44 1.44-3.9 1.62zM4.03 12c0-4.05 3.03-7.41 6.95-7.93V2.05C5.95 2.58 2.03 6.84 2.03 12c0 5.16 3.92 9.42 8.95 9.95v-2.02c-3.92-.52-6.95-3.88-6.95-7.93zm15.92-1h2.02c-.2-2.01-1-3.84-2.21-5.32l-1.43 1.43c.86 1.1 1.44 2.43 1.62 3.89zm-1.61-6.74c-1.48-1.21-3.32-2.01-5.32-2.21v2.02c1.46.18 2.79.76 3.9 1.62l1.42-1.43zm-.01 12.64l1.43 1.42c1.21-1.48 2.01-3.31 2.21-5.32h-2.02c-.18 1.46-.76 2.79-1.62 3.9zM16 11.1C16 8.61 14.1 7 12 7s-4 1.61-4 4.1c0 1.66 1.33 3.63 4 5.9 2.67-2.27 4-4.24 4-5.9zm-4 1.4c-.59 0-1.07-.48-1.07-1.07 0-.59.48-1.07 1.07-1.07s1.07.48 1.07 1.07c0 .59-.48 1.07-1.07 1.07z"),
   ("train",
    "M12 2c-4 0-8 .5-8 4v9.5C4 17.43 5.57 19 7.5 19L6 20.5v.5h2.23l2-2H14l2 2h2v-.5L16.5 19c1.93 0 3.5-1.57 3.5-3.5V6c0-3.5-3.58-4-8-4zM7.5 17c-.83 0-1.5-.67-1.5-1.5S6.67 14 7.5 14s1.5.67 1.5 1.5S8.33 17 7.5 17zm3.5-7H6V6h5v4zm2 0V6h5v4h-5zm3.5 7c-.83 0-1.5-.67-1.5-1.5s.67-1.5 1.5-1.5 1.5.67 1.5 1.5-.67 1.5-1.5 1.5z"),
   ("trending_up",
    "M16 6l2.29 2.29-4.88 4.88-4-4L2 16.59 3.41 18l6-6 4 4 6.3-6.29L22 12V6z"),
   ("water",
    "M12 2c-5.33 4.55-8 8.48-8 11.8 0 4.98 3.8 8.2 8 8.2s8-3.22 8-8.2c0-3.32-2.67-7.25-8-11.8zm0 18c-3.35 0-6-2.57-6-6.2 0-2.34 1.95-5.44 6-9.14 4.05 3.7 6 6.79 6 9.14 0 3.63-2.65 6.2-6 6.2z"),
   ("translate",
    "M12.87 15.07l-2.54-2.51.03-.03c1.74-1.94 2.98-4.17 3.71-6.53H17V4h-7V2H8v2H1v1.99h11.17C11.5 7.92 10.44 9.75 9 11.35 8.07 10.32 7.3 9.19 6.69 8h-2c.73 1.63 1.73 3.17 2.98 4.56l-5.09 5.02L4 19l5-5 3.11 3.11.76-2.04zM18.5 10h-2L12 22h2l1.12-3h4.75L21 22h2l-4.5-12zm-2.62 7l1.62-4.33L19.12 17h-3.24z"),
   ("map",
    "M20.5 3l-.16.03L15 5.1 9 3 3.36 4.9c-.21.07-.36.25-.36.48V20.5c0 .28.22.5.5.5l.16-.03L9 18.9l6 2.1 5.64-1.9c.21-.07.36-.25.36-.48V3.5c0-.28-.22-.5-.5-.5zM15 19l-6-2.11V5l6 2.11V19z"),
   ("inventory",
    "M20 2H4c-1 0-2 .9-2 2v3.01c0 .72.43 1.34 1 1.69V20c0 1.1 1.1 2 2 2h14c.9 0 2-.9 2-2V8.7c.57-.35 1-.97 1-1.69V4c0-1.1-1-2-2-2zm-5 12H9v-2h6v2zm5-7H4V4h16v3z"),
   ("hub",
    "M8.4 18.2c.38.5.6 1.12.6 1.8 0 1.66-1.34 3-3 3s-3-1.34-3-3 1.34-3 3-3c.44 0 .85.09 1.23.26l1.41-1.77c-.92-1.03-1.64-2.43-1.64-4.49 0-3.38 2.76-6 6-6s6 2.62 6 6c0 2.07-.72 3.46-1.64 4.49l1.41 1.77c.38-.17.79-.26 1.23-.26 1.66 0 3 1.34 3 3s-1.34 3-3 3-3-1.34-3-3c0-.68.22-1.3.6-1.8L14.57 16c-.74.57-1.62.96-2.57 1.05V21H13c.55 0 1 .45 1 1s-.45 1-1 1h-2c-.55 0-1-.45-1-1v-5.05c-.95-.09-1.83-.48-2.57-1.05l-1.03 1.3zM12 5c-2.21 0-4 1.79-4 4s1.79 4 4 4 4-1.79 4-4-1.79-4-4-4z"),
   ("handshake",
    "M12.22 19.85c-.18.18-.5.21-.71 0-.18-.18-.21-.5 0-.71l3.54-3.54-.71-.71-3.54 3.54c-.18.18-.5.21-.71 0-.18-.18-.21-.5 0-.71l3.54-3.54-.71-.71-3.54 3.54c-.18.18-.5.21-.71 0-.18-.18-.21-.5 0-.71l3.54-3.54-.71-.71-3.54 3.54c-.18.18-.5.21-.71 0-.18-.18-.21-.5 0-.71L12.67 8l1.06 1.06-5.66 5.66c-.59.59-.59 1.54 0 2.12.29.29.68.44 1.06.44s.77-.15 1.06-.44l.71-.71c.29.29.68.44 1.06.44s.77-.15 1.06-.44l.71-.71c.29.29.68.44 1.06.44s.77-.15 1.06-.44l.71-.71c.29.29.68.44 1.06.44s.77-.15 1.06-.44c.59-.59.59-1.54 0-2.12L14.79 9.4l2.12-2.12 4.95 4.95c.78.78.78 2.05 0 2.83l-4.24 4.24c-.78.78-2.05.78-2.83 0l-.35-.35L12.22 19.85zM2.81 9.4l4.24-4.24c.78-.78 2.05-.78 2.83 0l.71.71 1.41-1.41-.71-.71c-1.56-1.56-4.09-1.56-5.66 0L1.4 8c-.78.78-.78 2.05 0 2.83l4.95 4.95.71-.71-4.24-4.66z"),
   ("groups",
    "M12 12.75c1.63 0 3.07.39 4.24.9 1.08.48 1.76 1.56 1.76 2.73V18H6v-1.61c0-1.18.68-2.26 1.76-2.73 1.17-.52 2.61-.91 4.24-.91zM4 13c1.1 0 2-.9 2-2s-.9-2-2-2-2 .9-2 2 .9 2 2 2zm1.13 1.1c-.37-.06-.74-.1-1.13-.1-.99 0-1.93.21-2.78.58C.48 14.9 0 15.62 0 16.43V18h4.5v-1.61c0-.83.23-1.61.63-2.29zM20 13c1.1 0 2-.9 2-2s-.9-2-2-2-2 .9-2 2 .9 2 2 2zm4 3.43c0-.81-.48-1.53-1.22-1.85-.85-.37-1.79-.58-2.78-.58-.39 0-.76.04-1.13.1.4.68.63 1.46.63 2.29V18H24v-1.57zM12 6c1.66 0 3 1.34 3 3s-1.34 3-3 3-3-1.34-3-3 1.34-3 3-3z"),
   ("gavel",
    "M1 21h12v2H1v-2zM5.245 8.07l2.83-2.827 14.14 14.142-2.828 2.828L5.245 8.07zM12.317 1l5.657 5.656-2.83 2.83-5.654-5.66L12.317 1zM3.825 9.485l5.657 5.657-2.828 2.828-5.657-5.657 2.828-2.828z"),
   ("cloud_off",
    "M19.35 10.04C18.67 6.59 15.64 4 12 4c-1.48 0-2.85.43-4.01 1.17l1.46 1.46C10.21 6.23 11.08 6 12 6c3.04 0 5.5 2.46 5.5 5.5v.5H19c1.66 0 3 1.34 3 3 0 1.13-.64 2.11-1.56 2.62l1.45 1.45C23.16 18.16 24 16.68 24 15c0-2.64-2.05-4.78-4.65-4.96zM3 5.27l2.75 2.74C2.56 8.15 0 10.77 0 14c0 3.31 2.69 6 6 6h11.73l2 2L21 20.73 4.27 4 3 5.27zM7.73 10l8 8H6c-2.21 0-4-1.79-4-4s1.79-4 4-4h1.73z")]

/-- What the rasterization surface answers after the glyph text has been
drawn: the `getImageData` RGBA buffer and the `toDataURL` PNG string. -/
structure CanvasRender where
  pixels : List (ℕ × ℕ × ℕ × ℕ)
  pngData : String

/-- The rasterization-surface collaborator: canvas contents as a
function of icon text, canvas width/height, fill color, cleaned font
family, and font size. -/
def CanvasOracle : Type :=
  String → ℤ → ℤ → String → String → ℚ → CanvasRender

/-- JS `fontFamily.replace(/"/g, '').trim()`. -/
def cleanFont (fontFamily : String) : String :=
  jsTrim (String.mk (fontFamily.toList.filter (· ≠ quoteD)))

/-- The alpha-coverage count of `renderIconWithCanvas`: pixels whose
alpha channel exceeds 5. -/
def pixelCoverage (pixels : List (ℕ × ℕ × ℕ × ℕ)) : ℕ :=
  (pixels.filter (fun p => p.2.2.2 > 5)).length

/-- `HtmlToPptConverter.renderIconWithCanvas` (part_004): draw the glyph
at 2× scale, then reject the bitmap unless at least `minPixels = 10`
pixels are non-transparent (`alpha > 5`).  The `hasContent` flag of the
source is `pixelCoverage > 0`, so the rejection test
`!hasContent || pixelCount < minPixels` is `pixelCoverage < 10`. -/
def renderIconWithCanvas (oracle : CanvasOracle) (iconText : String)
    (width height : ℤ) (color fontFamily : String) (fontSize : ℚ) :
    Option String :=
  let cleanFontFamily := cleanFont fontFamily
  let scale : ℤ := 2
  let render := oracle iconText (width * scale) (height * scale) color
    cleanFontFamily fontSize
  let pixelCount := pixelCoverage render.pixels
  let hasContent := pixelCount > 0
  if ¬hasContent ∨ pixelCount < 10 then none
  else some render.pngData

/-- The SVG markup template `captureElementToImage` builds around a
curated path (the literal includes the template's own line breaks and
indentation). -/
def iconSvgMarkup (width height : ℤ) (iconPath color : String) : String :=
  "<svg xmlns=" ++ String.mk [quoteD] ++ "http://www.w3.org/2000/svg" ++
    String.mk [quoteD] ++ " width=" ++ String.mk [quoteD] ++
    toString width ++ String.mk [quoteD] ++ " height=" ++
    String.mk [quoteD] ++ toString height ++ String.mk [quoteD] ++
    " viewBox=" ++ String.mk [quoteD] ++ "0 0 24 24" ++
    String.mk [quoteD] ++ ">\n          <path d=" ++ String.mk [quoteD] ++
    iconPath ++ String.mk [quoteD] ++ " fill=" ++ String.mk [quoteD] ++
    color ++ String.mk [quoteD] ++ "/>\n        </svg>"

/-- `HtmlToPptConverter.captureElementToImage` (part_004): canvas
rasterization first (at least 48×48), then the curated vector-path
table as an SVG data URI, else `null` — no placeholder is ever
produced. -/
def captureElementToImage (oracle : CanvasOracle) (element : DomNode) :
    Option String :=
  let rect := element.rect
  let computedStyle := element.computed
  let width : ℤ := max ⌈rect.width⌉ 48
  let height : ℤ := max ⌈rect.height⌉ 48
  let text := jsTrim (allText element)
  let color := jsOrS computedStyle.color "#ffffff"
  let fontFamily := jsOrS computedStyle.fontFamily "Material Symbols Outlined"
  let fontSize := jsOrQ (jsParseFloat computedStyle.fontSize) 24
  match renderIconWithCanvas oracle text width height color fontFamily
      fontSize with
  | some canvasResult => some canvasResult
  | none =>
    match MATERIAL_ICON_PATHS.lookup text with
    | some iconPath =>
      some ("data:image/svg+xml;base64," ++
        base64Encode (iconSvgMarkup width height iconPath color))
    | none => none

/-- `HtmlToPptConverter.generatePpt` (part_004): one presentation slide
is added per parsed slide, in order; the container size defaults to
1920×1080 when the renderer reported none. -/
def generatePpt (opts : PgOptions) (lastContainerSize : Option SizeQ)
    (slides : List SlideData) : List EmittedSlide :=
  let containerSize := lastContainerSize.getD { width := 1920, height := 1080 }
  slides.map (PptGenerator.addSlide opts containerSize)

end HtmlToPptConverter

/-!
## Claims
-/

section Claims

open StyleConverter HtmlParser AnimationConverter PptGenerator

/-- **C7** (amended).  The font-size parser: `16px` → 12pt, `18pt` →
18pt, `1em` → 12pt (16px base × 0.75); missing input → the fixed 18pt
default; every *numeric* result is clamped to the fixed bounds
`[8, 96]`; and a bare number with an unknown unit passes through
(clamped).  The original claim's "clamps every result" fails: an input
with a recognized unit but no leading number yields NaN (see the
counterexample). -/
theorem parseFontSize_spec :
    parseFontSize "16px" = some 12 ∧
    parseFontSize "18pt" = some 18 ∧
    parseFontSize "1em" = some 12 ∧
    parseFontSize "" = some 18 ∧
    (∀ s v, parseFontSize s = some v → 8 ≤ v ∧ v ≤ 96) ∧
    (∀ s v, jsParseFloat s = some v → v ≠ 0 →
      sIncludes s "px" = false → sIncludes s "pt" = false →
      sIncludes s "em" = false → sIncludes s "rem" = false →
      sIncludes s "%" = false → s ≠ "" →
      parseFontSize s = some (max 8 (min v 96))) := by
  refine ⟨?_, ?_, ?_, by decide, ?_, ?_⟩
  · simp [parseFontSize, jsParseFloat, jsParseFloatL, digitsVal, pxToPoints,
      sIncludes, includesL, startsWithL, jsOrQ]
    norm_num
  · simp [parseFontSize, jsParseFloat, jsParseFloatL, digitsVal, pxToPoints,
      sIncludes, includesL, startsWithL, jsOrQ]
    norm_num
  · simp [parseFontSize, jsParseFloat, jsParseFloatL, digitsVal, pxToPoints,
      sIncludes, includesL, startsWithL, jsOrQ]
    norm_num
  · intro s v h
    by_cases hs : s = ""
    · rw [parseFontSize, if_pos hs] at h
      obtain rfl : (18 : ℚ) = v := Option.some.inj h
      norm_num
    · rw [parseFontSize, if_neg hs] at h
      simp only [Option.map_eq_some'] at h
      rcases h with ⟨p, _, hpv⟩
      subst hpv
      exact ⟨le_max_left _ _,
        max_le (by norm_num) (le_trans (min_le_right _ _) le_rfl)⟩
  · intro s v hv hv0 hpx hpt hem hrem hpct hs
    simp only [parseFontSize, if_neg hs, hv, hpx, hpt, hem, hrem, hpct,
      Bool.false_eq_true, if_false, Bool.or_self, jsOrQ, hv0, if_neg hv0,
      Option.map_some']

/-- **C7** witness: a bare number with the unknown unit `vw` passes
through and lands inside the bounds. -/
theorem parseFontSize_spec_witness :
    parseFontSize "42vw" = some (max 8 (min 42 96)) ∧
    8 ≤ (42 : ℚ) ∧ (42 : ℚ) ≤ 96 := by
  refine ⟨?_, by norm_num⟩
  exact parseFontSize_spec.2.2.2.2.2 "42vw" 42
    (by simp [jsParseFloat, jsParseFloatL, digitsVal]) (by norm_num)
    (by decide) (by decide) (by decide) (by decide) (by decide)
    (by decide)

/-- **C7** counterexample to the claim as stated: the input `"px"`
carries a recognized unit but no number, `parseFloat` gives NaN, and the
NaN flows through `Math.max(8, Math.min(NaN, 96))` back out — the result
is not clamped into the bounds (it is no number at all). -/
theorem parseFontSize_nan_counterexample : parseFontSize "px" = none := by
  decide

/-- Hexadecimal digit characters, either case. -/
def isHexDigitChar (c : Char) : Bool :=
  ['0', '1', '2', '3', '4', '5', '6', '7', '8', '9',
   'A', 'B', 'C', 'D', 'E', 'F',
   'a', 'b', 'c', 'd', 'e', 'f'].contains c

/-- Uppercase hexadecimal characters. -/
def isUpperHexChar (c : Char) : Bool :=
  ['0', '1', '2', '3', '4', '5', '6', '7', '8', '9',
   'A', 'B', 'C', 'D', 'E', 'F'].contains c

/-- A string made only of uppercase hexadecimal characters. -/
def isUpperHexStr (s : String) : Bool := s.toList.all isUpperHexChar

theorem toUpper_hexChar (c : Char) (h : isHexDigitChar c = true) :
    isUpperHexChar c.toUpper = true := by
  have hm : c ∈ ['0', '1', '2', '3', '4', '5', '6', '7', '8', '9',
      'A', 'B', 'C', 'D', 'E', 'F',
      'a', 'b', 'c', 'd', 'e', 'f'] := by
    simpa [isHexDigitChar] using h
  fin_cases hm <;> decide

theorem map_toUpper_hex (l : List Char) (h : l.all isHexDigitChar = true) :
    (l.map Char.toUpper).all isUpperHexChar = true := by
  induction l with
  | nil => rfl
  | cons a t ih =>
    simp only [List.all_cons, Bool.and_eq_true] at h
    simp only [List.map_cons, List.all_cons, Bool.and_eq_true]
    exact ⟨toUpper_hexChar a h.1, ih h.2⟩

set_option maxRecDepth 4000 in
theorem hexByte_valid : ∀ n : ℕ, n < 256 →
    (hexByte n).length = 2 ∧ (hexByte n).all isUpperHexChar = true := by
  decide

theorem hexExpand_three (a b c : Char) :
    hexExpand [a, b, c] = [a, a, b, b, c, c] := rfl

theorem hexExpand_of_ne_three (l : List Char) (h : l.length ≠ 3) :
    hexExpand l = l := by
  match l with
  | [] => rfl
  | [_] => rfl
  | [_, _] => rfl
  | [_, _, _] => simp at h
  | _ :: _ :: _ :: _ :: _ => rfl

theorem convertColor_hash (l : List Char) :
    convertColor (String.mk ('#' :: l)) =
      some (String.mk ((hexExpand l).map Char.toUpper)) := by
  rw [convertColor, if_neg (by simp [String.ext_iff]),
    if_pos (by simp [sStartsWith, startsWithL])]
  rfl

/-- **C3** (amended).  The color parser: `#abc` → `AABBCC` and
`rgba(255,128,0,0.5)` → `FF8000` as claimed; empty and `transparent`
inputs give `null`; every 3- and 6-digit hex color yields exactly 6
uppercase hex characters; every `rgb()/rgba()` match with components
≤ 255 yields exactly 6 uppercase hex characters.  Two parts of the
original claim fail (see the counterexample): an 8-digit hex color is
passed through with its alpha byte, giving 8 characters, and an invalid
input is *not* always rejected — any `#`-prefixed string whatsoever
returns a non-null result (the body is uppercased unchecked, so `#zzz`
gives `ZZZZZZ`).  Invalid inputs return `null` exactly when they do not
start with `#`: a nonempty non-`#` input matching neither the rgb
scanner nor the named-color table gives `null` (last clause). -/
theorem convertColor_spec :
    convertColor "#abc" = some "AABBCC" ∧
    convertColor "rgba(255,128,0,0.5)" = some "FF8000" ∧
    convertColor "" = none ∧
    convertColor "transparent" = none ∧
    (∀ s : String, s.toList.all isHexDigitChar = true →
      s.length = 3 ∨ s.length = 6 →
      ∃ out, convertColor ("#" ++ s) = some out ∧
        out.length = 6 ∧ isUpperHexStr out = true) ∧
    (∀ s : String, s.toList.all isHexDigitChar = true → s.length = 8 →
      ∃ out, convertColor ("#" ++ s) = some out ∧
        out.length = 8 ∧ isUpperHexStr out = true) ∧
    (∀ (s : String) (r g b : ℕ), findRgb s.toList = some (r, g, b) →
      r ≤ 255 → g ≤ 255 → b ≤ 255 →
      s ≠ "" → sStartsWith s "#" = false →
      ∃ out, convertColor s = some out ∧
        out.length = 6 ∧ isUpperHexStr out = true) ∧
    (∀ s : String, ∃ out, convertColor ("#" ++ s) = some out) ∧
    (∀ s : String, s ≠ "" → sStartsWith s "#" = false →
      findRgb s.toList = none →
      colorNames.lookup (jsToLower s) = none →
      convertColor s = none) := by
  refine ⟨by decide, by decide, by decide, by decide, ?_, ?_, ?_, ?_, ?_⟩
  · intro s hhex hlen
    obtain ⟨l⟩ := s
    have hcc : ("#" ++ String.mk l) = String.mk ('#' :: l) := rfl
    rcases hlen with h3 | h6
    · obtain ⟨a, b, c, rfl⟩ := List.length_eq_three.mp h3
      refine ⟨_, by rw [hcc, convertColor_hash], ?_, ?_⟩
      · rfl
      · simp only [String.toList, List.all_cons, Bool.and_eq_true] at hhex
        exact map_toUpper_hex _ (by
          simp only [hexExpand_three, List.all_cons, Bool.and_eq_true]
          exact ⟨hhex.1, hhex.1, hhex.2.1, hhex.2.1, hhex.2.2.1,
            hhex.2.2.1, rfl⟩)
    · have hne : l.length ≠ 3 := by
        have : l.length = 6 := h6
        omega
      refine ⟨_, by rw [hcc, convertColor_hash], ?_, ?_⟩
      · show (String.mk ((hexExpand l).map Char.toUpper)).length = 6
        simp [String.length, hexExpand_of_ne_three l hne]
        exact h6
      · exact map_toUpper_hex _ (by rw [hexExpand_of_ne_three l hne]; exact hhex)
  · intro s hhex hlen
    obtain ⟨l⟩ := s
    have hcc : ("#" ++ String.mk l) = String.mk ('#' :: l) := rfl
    have hne : l.length ≠ 3 := by
      have : l.length = 8 := hlen
      omega
    refine ⟨_, by rw [hcc, convertColor_hash], ?_, ?_⟩
    · show (String.mk ((hexExpand l).map Char.toUpper)).length = 8
      simp [String.length, hexExpand_of_ne_three l hne]
      exact hlen
    · exact map_toUpper_hex _ (by rw [hexExpand_of_ne_three l hne]; exact hhex)
  · intro s r g b hfind hr hg hb hs hhash
    refine ⟨String.mk (hexByte r ++ hexByte g ++ hexByte b), ?_, ?_, ?_⟩
    · rw [convertColor, if_neg hs, if_neg (by simp [hhash]), hfind]
    · show (String.mk (hexByte r ++ hexByte g ++ hexByte b)).length = 6
      have h1 := (hexByte_valid r (by omega)).1
      have h2 := (hexByte_valid g (by omega)).1
      have h3 := (hexByte_valid b (by omega)).1
      simp [String.length, h1, h2, h3]
    · show (hexByte r ++ hexByte g ++ hexByte b).all isUpperHexChar = true
      have h1 := (hexByte_valid r (by omega)).2
      have h2 := (hexByte_valid g (by omega)).2
      have h3 := (hexByte_valid b (by omega)).2
      simp [List.all_append, h1, h2, h3]
  · intro s
    obtain ⟨l⟩ := s
    exact ⟨_, by rw [show ("#" ++ String.mk l) = String.mk ('#' :: l)
      from rfl, convertColor_hash]⟩
  · intro s hs hhash hrgb hname
    rw [convertColor, if_neg hs, if_neg (by simp [hhash]), hrgb]
    exact hname

/-- **C3** witness: the 6-digit hex color `#a1b2c3` yields 6 uppercase
hex characters. -/
theorem convertColor_spec_witness :
    ∃ out, convertColor ("#" ++ "a1b2c3") = some out ∧
      out.length = 6 ∧ isUpperHexStr out = true :=
  convertColor_spec.2.2.2.2.1 "a1b2c3" (by decide) (Or.inr (by decide))

/-- **C3** counterexample to the claim as stated: an 8-digit hex color
(with alpha) is passed through uppercased — 8 characters, not 6 — and an
invalid `#`-input is not rejected: `#zzz` returns the non-null, non-hex
`ZZZZZZ` instead of the claimed `null`. -/
theorem convertColor_counterexample :
    (convertColor "#ff000080" = some "FF000080" ∧
     ("FF000080" : String).length ≠ 6) ∧
    (convertColor "#zzz" = some "ZZZZZZ" ∧
     isUpperHexStr "ZZZZZZ" = false) := by decide

/-- **C10** (confirmed).  A heading element whose effective text is
nonempty is emitted as a single text call whose font size is
`headingFontSize` of its tag name alone — the CSS-parsed size is
discarded — and whose bold flag is forced `true`; and the level table is
h1→44, h2→36, h3→28, h4→24, h5→20, h6→18, other→24. -/
theorem heading_fontSize_spec :
    (∀ (opts : PgOptions) (containerSize : SizeQ) (e : ElementData),
      e.type = "heading" → jsOrS e.text (collectAllText e) ≠ "" →
      ∃ t o, addTextElement opts containerSize e = [DrawCall.addText t o] ∧
        o.fontSize = headingFontSize e.tagName ∧ o.bold = true) ∧
    headingFontSize "h1" = 44 ∧ headingFontSize "h2" = 36 ∧
    headingFontSize "h3" = 28 ∧ headingFontSize "h4" = 24 ∧
    headingFontSize "h5" = 20 ∧ headingFontSize "h6" = 18 ∧
    headingFontSize "h7" = 24 := by
  refine ⟨?_, by decide, by decide, by decide, by decide, by decide,
    by decide, by decide⟩
  intro opts containerSize e he htext
  simp only [addTextElement, if_neg htext, he, reduceIte]
  exact ⟨_, _, rfl, rfl, rfl⟩

/-- **C10** witness: a concrete `h2` heading is emitted at 36 pt bold. -/
theorem heading_fontSize_spec_witness :
    ∃ t o, addTextElement {} ⟨1920, 1080⟩
        (ElementData.mk { type := "heading"
                          tagName := "h2"
                          text := "Title"
                          position := {}
                          styles := {}
                          attributes := []
                          depth := 0 } []) = [DrawCall.addText t o] ∧
      o.fontSize = headingFontSize "h2" ∧ o.bold = true :=
  heading_fontSize_spec.1 {} ⟨1920, 1080⟩ _ rfl (by decide)

/-- A 100×100 box with `border-radius: 50px` (a circle in CSS terms). -/
def roundSquareBox : ElementData :=
  ElementData.mk
    { type := "shape", tagName := "div", text := "",
      position := { x := 0, y := 0, width := 100, height := 100 },
      styles := { borderRadius := "50px" },
      attributes := [], depth := 0 } []

/-- A 100×101 box with `border-radius: 50px`: within the claimed 2-unit
squareness tolerance, radius ratio ≈ 0.5 ≥ 0.48. -/
def almostSquareBox : ElementData :=
  ElementData.mk
    { type := "shape", tagName := "div", text := "",
      position := { x := 0, y := 0, width := 100, height := 101 },
      styles := { borderRadius := "50px" },
      attributes := [], depth := 0 } []

/-- **C5** (amended).  The shape-type decision of `addShapeElement`:
`ellipse` exactly when the pixel radius is positive, the source width and
height are *exactly* equal, and the radius is at least half the width;
any positive radius failing that gives `rect` whose options carry the
radius converted to inches and clamped to `[0.02, 0.5]` (not the
width-ratio); radius `0` gives `rect` with no rounding.  The claimed
2-unit squareness tolerance and the 0.48 ratio threshold are not in the
code (see the counterexample). -/
theorem addShapeElement_spec :
    (∀ (opts : PgOptions) (cs : SizeQ) (e : ElementData) (r : ℚ),
      parseBorderRadius e.styles.borderRadius = some r →
      0 < r → e.position.width = e.position.height →
      e.position.width / 2 ≤ r →
      ∃ o, addShapeElement opts cs e = [DrawCall.addShape "ellipse" o]) ∧
    (∀ (opts : PgOptions) (cs : SizeQ) (e : ElementData) (r : ℚ),
      parseBorderRadius e.styles.borderRadius = some r →
      0 < r →
      (e.position.width ≠ e.position.height ∨ r < e.position.width / 2) →
      ∃ o, addShapeElement opts cs e = [DrawCall.addShape "rect" o] ∧
        o.rectRadius = some (max (2 / 100) (min (pxToInches r) (1 / 2)))) ∧
    (∀ (opts : PgOptions) (cs : SizeQ) (e : ElementData),
      parseBorderRadius e.styles.borderRadius = some 0 →
      ∃ o, addShapeElement opts cs e = [DrawCall.addShape "rect" o] ∧
        o.rectRadius = none) := by
  refine ⟨?_, ?_, ?_⟩
  · intro opts cs e r hr h0 hsq hge
    simp only [addShapeElement, hr, nanGt, nanGe]
    rw [if_pos ⟨by simp [h0], hsq, by simp [hge]⟩]
    exact ⟨_, rfl⟩
  · intro opts cs e r hr h0 hfail
    simp only [addShapeElement, hr, nanGt, nanGe]
    rw [if_neg (by
      rintro ⟨-, hsq, hge⟩
      rcases hfail with h | h
      · exact h hsq
      · simp only [decide_eq_true_eq] at hge
        exact absurd hge (not_le.mpr h))]
    refine ⟨_, rfl, ?_⟩
    show (StyleConverter.convertShapeStyles e.styles).rectRadius = _
    simp only [StyleConverter.convertShapeStyles, hr]
    rw [if_pos h0]
  · intro opts cs e hr
    simp only [addShapeElement, hr, nanGt, nanGe]
    rw [if_neg (by
      rintro ⟨h, -⟩
      simp only [decide_eq_true_eq] at h
      exact absurd h (by norm_num))]
    refine ⟨_, rfl, ?_⟩
    show (StyleConverter.convertShapeStyles e.styles).rectRadius = _
    simp only [StyleConverter.convertShapeStyles, hr]
    rw [if_neg (by norm_num)]

/-- **C5** witness: an exactly square 100×100 box with 50px radius is
emitted as an ellipse. -/
theorem addShapeElement_spec_witness :
    ∃ o, addShapeElement {} ⟨1920, 1080⟩ roundSquareBox =
      [DrawCall.addShape "ellipse" o] :=
  addShapeElement_spec.1 {} ⟨1920, 1080⟩ roundSquareBox 50
    (by simp [roundSquareBox, ElementData.styles, ElementData.core,
      parseBorderRadius, jsParseFloat, jsParseFloatL, digitsVal])
    (by norm_num)
    (by norm_num [roundSquareBox, ElementData.position, ElementData.core])
    (by norm_num [roundSquareBox, ElementData.position, ElementData.core])

/-- **C5** counterexample to the claim as stated: a 100×101 box (within
the claimed 2-unit tolerance) with ratio 0.5 ≥ 0.48 is still emitted as
`rect`, because the code requires width and height to be exactly equal. -/
theorem addShapeElement_tolerance_counterexample :
    (|(100 : ℚ) - 101| < 2 ∧ ((50 : ℚ) / 100) ≥ 48 / 100) ∧
    ∃ o, addShapeElement {} ⟨1920, 1080⟩ almostSquareBox =
      [DrawCall.addShape "rect" o] := by
  refine ⟨⟨by norm_num, by norm_num⟩, ?_⟩
  have hr : parseBorderRadius almostSquareBox.styles.borderRadius =
      some 50 := by
    simp [almostSquareBox, ElementData.styles, ElementData.core,
      parseBorderRadius, jsParseFloat, jsParseFloatL, digitsVal]
  simp only [addShapeElement, hr, nanGt, nanGe]
  rw [if_neg (by
    rintro ⟨-, hsq, -⟩
    norm_num [almostSquareBox, ElementData.position, ElementData.core]
      at hsq)]
  exact ⟨_, rfl⟩

/-- A rasterization surface whose canvas stays blank (e.g. the icon font
never loaded): every pixel is transparent. -/
def blankCanvasOracle : HtmlToPptConverter.CanvasOracle :=
  fun _ _ _ _ _ _ => { pixels := [], pngData := "data:image/png;base64," }

/-- A bare `<i>home</i>` Material-Icons element as the DOM model sees
it. -/
def homeIconNode : DomNode :=
  DomNode.mk "i" [("class", "material-icons")] "home"
    { x := 0, y := 0, width := 24, height := 24 } {} {} []

/-- **C9** (confirmed).  The font-glyph icon pipeline: rasterization is
attempted first at 2× size, and its bitmap is accepted exactly when at
least 10 pixels have alpha above 5; a rejected bitmap falls back to the
curated `MATERIAL_ICON_PATHS` table, emitted as an SVG data URI; when
the table also misses, the result is `null`; and the generator emits no
draw call at all for a font icon without SVG content — never a
placeholder shape. -/
theorem icon_fallback_spec :
    (∀ (oracle : HtmlToPptConverter.CanvasOracle) (iconText : String)
      (w h : ℤ) (color ff : String) (fs : ℚ),
      10 ≤ HtmlToPptConverter.pixelCoverage
          (oracle iconText (w * 2) (h * 2) color
            (HtmlToPptConverter.cleanFont ff) fs).pixels →
      HtmlToPptConverter.renderIconWithCanvas oracle iconText w h color
          ff fs =
        some (oracle iconText (w * 2) (h * 2) color
          (HtmlToPptConverter.cleanFont ff) fs).pngData) ∧
    (∀ (oracle : HtmlToPptConverter.CanvasOracle) (iconText : String)
      (w h : ℤ) (color ff : String) (fs : ℚ),
      HtmlToPptConverter.pixelCoverage
          (oracle iconText (w * 2) (h * 2) color
            (HtmlToPptConverter.cleanFont ff) fs).pixels < 10 →
      HtmlToPptConverter.renderIconWithCanvas oracle iconText w h color
          ff fs = none) ∧
    (∀ (oracle : HtmlToPptConverter.CanvasOracle) (e : DomNode)
      (s : String),
      HtmlToPptConverter.renderIconWithCanvas oracle (jsTrim (allText e))
          (max ⌈e.rect.width⌉ 48) (max ⌈e.rect.height⌉ 48)
          (jsOrS e.computed.color "#ffffff")
          (jsOrS e.computed.fontFamily "Material Symbols Outlined")
          (jsOrQ (jsParseFloat e.computed.fontSize) 24) = some s →
      HtmlToPptConverter.captureElementToImage oracle e = some s) ∧
    (∀ (oracle : HtmlToPptConverter.CanvasOracle) (e : DomNode)
      (p : String),
      HtmlToPptConverter.renderIconWithCanvas oracle (jsTrim (allText e))
          (max ⌈e.rect.width⌉ 48) (max ⌈e.rect.height⌉ 48)
          (jsOrS e.computed.color "#ffffff")
          (jsOrS e.computed.fontFamily "Material Symbols Outlined")
          (jsOrQ (jsParseFloat e.computed.fontSize) 24) = none →
      HtmlToPptConverter.MATERIAL_ICON_PATHS.lookup (jsTrim (allText e)) =
        some p →
      HtmlToPptConverter.captureElementToImage oracle e =
        some ("data:image/svg+xml;base64," ++
          base64Encode (HtmlToPptConverter.iconSvgMarkup
            (max ⌈e.rect.width⌉ 48) (max ⌈e.rect.height⌉ 48) p
            (jsOrS e.computed.color "#ffffff")))) ∧
    (∀ (oracle : HtmlToPptConverter.CanvasOracle) (e : DomNode),
      HtmlToPptConverter.renderIconWithCanvas oracle (jsTrim (allText e))
          (max ⌈e.rect.width⌉ 48) (max ⌈e.rect.height⌉ 48)
          (jsOrS e.computed.color "#ffffff")
          (jsOrS e.computed.fontFamily "Material Symbols Outlined")
          (jsOrQ (jsParseFloat e.computed.fontSize) 24) = none →
      HtmlToPptConverter.MATERIAL_ICON_PATHS.lookup (jsTrim (allText e)) =
        none →
      HtmlToPptConverter.captureElementToImage oracle e = none) ∧
    (∀ (opts : PgOptions) (cs : SizeQ) (e : ElementData),
      e.core.svgContent = none → addIconElement opts cs e = []) := by
  refine ⟨?_, ?_, ?_, ?_, ?_, ?_⟩
  · intro oracle iconText w h color ff fs hcov
    simp only [HtmlToPptConverter.renderIconWithCanvas]
    rw [if_neg (by
      rintro (hz | hlt)
      · exact hz (by omega)
      · omega)]
  · intro oracle iconText w h color ff fs hcov
    simp only [HtmlToPptConverter.renderIconWithCanvas]
    rw [if_pos (Or.inr hcov)]
  · intro oracle e s hr
    simp only [HtmlToPptConverter.captureElementToImage]
    rw [hr]
  · intro oracle e p hr hl
    simp only [HtmlToPptConverter.captureElementToImage]
    rw [hr, hl]
  · intro oracle e hr hl
    simp only [HtmlToPptConverter.captureElementToImage]
    rw [hr, hl]
  · intro opts cs e he
    simp only [addIconElement, he]

/-- **C9** witness: with a blank canvas (coverage `0 < 10`) the bitmap is
rejected, and the `home` glyph falls back to the curated vector path as
an SVG data URI. -/
theorem icon_fallback_spec_witness :
    HtmlToPptConverter.captureElementToImage blankCanvasOracle
        homeIconNode =
      some ("data:image/svg+xml;base64," ++
        base64Encode (HtmlToPptConverter.iconSvgMarkup 48 48
          "M10 20v-6h4v6h5v-8h3L12 3 2 12h3v8z" "#ffffff")) := by
  have hr := icon_fallback_spec.2.1 blankCanvasOracle
    (jsTrim (allText homeIconNode)) (max ⌈homeIconNode.rect.width⌉ 48)
    (max ⌈homeIconNode.rect.height⌉ 48)
    (jsOrS homeIconNode.computed.color "#ffffff")
    (jsOrS homeIconNode.computed.fontFamily "Material Symbols Outlined")
    (jsOrQ (jsParseFloat homeIconNode.computed.fontSize) 24)
    (by decide)
  have htext : allText homeIconNode = "home" := by
    simp [homeIconNode, allText, allTextList]
  have := icon_fallback_spec.2.2.2.1 blankCanvasOracle homeIconNode
    "M10 20v-6h4v6h5v-8h3L12 3 2 12h3v8z" hr (by rw [htext]; decide)
  simpa using this

/-- **C6** (code bug).  The hex example behaves as claimed:
`linear-gradient(to bottom, #10b981, #059669)` parses to exactly two
stops `10B981`/`059669` at positions 0/100 (direction `to bottom`, 180°).
But the claimed robustness against `rgb(...)` stops is false for
`StyleConverter.parseGradientFromStyle`: its body regex
`/linear-gradient\(([^)]+)\)/` stops at the *first* closing parenthesis,
so a gradient of two `rgb(...)` stops loses every stop and parsing fails
(`null`), while the sibling parser in `renderGradientToImage` — which
does use the greedy-to-end-of-string match the spec describes — extracts
both stops from the same input. -/
theorem gradient_parser_spec :
    parseGradientFromStyle
        "linear-gradient(to bottom, #10b981, #059669)" =
      some { type := "linear", rotate := 180,
             stops := [{ color := "10B981", position := 0 },
                       { color := "059669", position := 100 }] } ∧
    parseGradientFromStyle
        "linear-gradient(rgb(16, 185, 129), rgb(5, 150, 105))" = none ∧
    HtmlToPptConverter.renderGradientParse
        "linear-gradient(rgb(16, 185, 129), rgb(5, 150, 105))" =
      some [("rgb(16, 185, 129)", 0), ("rgb(5, 150, 105)", 1)] := by
  refine ⟨?_, by decide, ?_⟩
  · have h1 : linearMatchFirstParen
        ("linear-gradient(to bottom, #10b981, #059669)").toList =
        some ("to bottom, #10b981, #059669").toList := by decide
    have htoks : scanPGFS
        ((("to bottom, #10b981, #059669").toList).length + 1)
        ("to bottom, #10b981, #059669").toList =
        ["to", "bottom", "#10b981", "#059669"] := by decide
    have hcolors : pgfsColors ["to", "bottom", "#10b981", "#059669"] =
        ["10B981", "059669"] := by decide
    have hangle : pgfsAngle
        (String.mk (("to bottom, #10b981, #059669").toList))
        ("to bottom, #10b981, #059669").toList = 180 := by
      rw [pgfsAngle, if_neg (by decide), if_neg (by decide),
        if_pos (by decide)]
    have hstops : pgfsStops ["10B981", "059669"] =
        [{ color := "10B981", position := 0 },
         { color := "059669", position := 100 }] := by
      have henum : (["10B981", "059669"]).enum =
          [(0, "10B981"), (1, "059669")] := by decide
      simp only [pgfsStops, henum, List.map, List.length_cons,
        List.length_nil]
      norm_num [jsRound]
    simp only [parseGradientFromStyle]
    rw [if_neg (by decide), h1]
    simp only [htoks, hcolors, hangle, hstops]
    rw [if_pos (by decide)]
  · have hb : linearMatchToEnd
        ("linear-gradient(rgb(16, 185, 129), rgb(5, 150, 105))").toList =
        some ("rgb(16, 185, 129), rgb(5, 150, 105)").toList := by decide
    have hraw : scanRGTI
        (((String.mk (("rgb(16, 185, 129), rgb(5, 150, 105)").toList)).toList).length + 1)
        ((String.mk (("rgb(16, 185, 129), rgb(5, 150, 105)").toList)).toList) =
        [("rgb(16, 185, 129)", none), ("rgb(5, 150, 105)", none)] := by
      decide
    have hcs : HtmlToPptConverter.rgtiStops
        [("rgb(16, 185, 129)", none), ("rgb(5, 150, 105)", none)] =
        [("rgb(16, 185, 129)", (none : Option ℚ)),
         ("rgb(5, 150, 105)", none)] := by decide
    have henum : ([("rgb(16, 185, 129)", (none : Option ℚ)),
        ("rgb(5, 150, 105)", none)]).enum =
        [(0, ("rgb(16, 185, 129)", (none : Option ℚ))),
         (1, ("rgb(5, 150, 105)", none))] := by decide
    simp only [HtmlToPptConverter.renderGradientParse]
    rw [hb]
    simp only [HtmlToPptConverter.renderGradientStops, hraw, hcs]
    rw [if_pos (by decide)]
    simp only [HtmlToPptConverter.rgtiFill, henum, List.map,
      List.length_cons, List.length_nil]
    norm_num

/-- One sibling slide container `<div class="slide" data-slide-index=…>`. -/
def slideDiv (ix : String) : DomNode :=
  DomNode.mk "div" [("class", "slide"), ("data-slide-index", ix)] ""
    {} {} {} []

/-- A document whose body holds exactly three sibling slide containers. -/
def threeSlideDoc : DomDocument :=
  ⟨DomNode.mk "body" [] "" {} {} {} [slideDiv "1", slideDiv "2",
    slideDiv "3"]⟩

/-- **C4** (confirmed).  Slide segmentation: the first selector of the
fixed priority list with at least one match wins (all earlier selectors
matching nothing); when every selector misses, the whole body becomes the
single slide; a document with exactly three sibling slide containers
yields exactly three slides, in source order; and the generator adds
exactly one presentation slide per parsed slide, in order. -/
theorem extractSlides_spec :
    (∀ doc : DomDocument, (∀ s ∈ slideSelectors, doc.qsa s = []) →
      extractSlides doc = [parseSlideElement doc.body 0]) ∧
    (∀ (doc : DomDocument) (pre : List (List Sel)) (sel : List Sel)
      (post : List (List Sel)),
      slideSelectors = pre ++ sel :: post →
      (∀ s ∈ pre, doc.qsa s = []) → doc.qsa sel ≠ [] →
      extractSlides doc =
        (doc.qsa sel).enum.map (fun p => parseSlideElement p.2 p.1)) ∧
    (extractSlides threeSlideDoc).map SlideData.title =
      ["Slide 1", "Slide 2", "Slide 3"] ∧
    (extractSlides threeSlideDoc).map SlideData.index = [0, 1, 2] ∧
    (∀ (opts : PgOptions) (cso : Option SizeQ) (slides : List SlideData),
      (HtmlToPptConverter.generatePpt opts cso slides).length =
        slides.length) ∧
    (∀ (opts : PgOptions) (cso : Option SizeQ) (slides : List SlideData)
      (i : ℕ),
      (HtmlToPptConverter.generatePpt opts cso slides).get? i =
        (slides.get? i).map
          (addSlide opts (cso.getD ⟨1920, 1080⟩))) := by
  refine ⟨?_, ?_, by decide, by decide, ?_, ?_⟩
  · intro doc hall
    have hnone : ((slideSelectors.map (doc.qsa ·)).find?
        (fun l => !l.isEmpty)) = none := by
      rw [List.find?_eq_none]
      intro x hx
      obtain ⟨s, hs, rfl⟩ := List.mem_map.mp hx
      simp [hall s hs]
    simp only [extractSlides, hnone]
    rfl
  · intro doc pre sel post hdecomp hpre hsel
    have key : ∀ (pr : List (List Sel)), (∀ s ∈ pr, doc.qsa s = []) →
        (((pr ++ sel :: post).map (doc.qsa ·)).find?
          (fun l => !l.isEmpty)) = some (doc.qsa sel) := by
      intro pr
      induction pr with
      | nil =>
        intro _
        simp only [List.nil_append, List.map_cons]
        rw [List.find?_cons_of_pos]
        simp [List.isEmpty_iff, hsel]
      | cons a t ih =>
        intro hpr
        simp only [List.cons_append, List.map_cons]
        rw [List.find?_cons_of_neg]
        · exact ih (fun s hs => hpr s (List.mem_cons_of_mem a hs))
        · simp [hpr a (List.mem_cons_self a t)]
    simp only [extractSlides, hdecomp, key pre hpre]
  · intro opts cso slides
    simp [HtmlToPptConverter.generatePpt]
  · intro opts cso slides i
    simp [HtmlToPptConverter.generatePpt]

/-- **C4** witness: on the three-container document the first selector
(`section`) misses, the second (`.slide`) wins with the three containers
in source order. -/
theorem extractSlides_spec_witness :
    slideSelectors = [[Sel.tag "section"]] ++ [Sel.cls "slide"] ::
      [[Sel.cls "page"], [Sel.attrHas "data-slide"],
       [Sel.cls "swiper-slide"], [Sel.cls "carousel-item"]] ∧
    threeSlideDoc.qsa [Sel.cls "slide"] ≠ [] ∧
    extractSlides threeSlideDoc =
      (threeSlideDoc.qsa [Sel.cls "slide"]).enum.map
        (fun p => parseSlideElement p.2 p.1) := by
  refine ⟨by decide,
    List.isEmpty_eq_false.mp (by decide), ?_⟩
  exact extractSlides_spec.2.1 threeSlideDoc [[Sel.tag "section"]]
    [Sel.cls "slide"]
    [[Sel.cls "page"], [Sel.attrHas "data-slide"],
     [Sel.cls "swiper-slide"], [Sel.cls "carousel-item"]]
    (by decide)
    (by
      intro s hs
      simp only [List.mem_singleton] at hs
      subst hs
      exact List.isEmpty_eq_true.mp (by decide))
    (List.isEmpty_eq_false.mp (by decide))

/-- The converter-stage transform result that the generator clamp
post-processes (`this.styleConverter.calculatePosition(...)`). -/
def rawPos (opts : PgOptions) (cs : SizeQ) (pos : RectQ) : PosQ :=
  StyleConverter.calculatePosition opts.slideWidth opts.slideHeight pos cs

/-- **C1** (amended).  The clamp of `PptGenerator.calculatePosition`:
origins are nonnegative and sizes are floored (w ≥ 0.5, h ≥ 0.3)
unconditionally; an origin at or past the far edge is relocated to the
0.5 margin with its size untouched (before flooring); an origin inside
the slide whose size overflows is shrunk in place (never relocated); and
`x+w ≤ slideW` (resp. `y+h ≤ slideH`) holds whenever the clamped raw
origin leaves room for the minimum size plus the 0.1 margin
(`≤ slideW − 0.6`, resp. `≤ slideH − 0.4`).  The claim's unconditional
`x+w ≤ slideW` is false: a relocated element keeps its (floored) size,
which can overflow again — see the counterexample. -/
theorem calculatePosition_spec :
    (∀ (opts : PgOptions) (cs : SizeQ) (pos : RectQ),
      0 ≤ (calculatePosition opts cs (some pos)).x ∧
      0 ≤ (calculatePosition opts cs (some pos)).y ∧
      1 / 2 ≤ (calculatePosition opts cs (some pos)).w ∧
      3 / 10 ≤ (calculatePosition opts cs (some pos)).h) ∧
    (∀ (opts : PgOptions) (cs : SizeQ) (pos : RectQ),
      max 0 (rawPos opts cs pos).x ≤ opts.slideWidth - 3 / 5 →
      (calculatePosition opts cs (some pos)).x +
        (calculatePosition opts cs (some pos)).w ≤ opts.slideWidth) ∧
    (∀ (opts : PgOptions) (cs : SizeQ) (pos : RectQ),
      max 0 (rawPos opts cs pos).y ≤ opts.slideHeight - 2 / 5 →
      (calculatePosition opts cs (some pos)).y +
        (calculatePosition opts cs (some pos)).h ≤ opts.slideHeight) ∧
    (∀ (opts : PgOptions) (cs : SizeQ) (pos : RectQ),
      opts.slideWidth ≤ max 0 (rawPos opts cs pos).x →
      0 < (rawPos opts cs pos).w →
      (calculatePosition opts cs (some pos)).x = 1 / 2 ∧
      (calculatePosition opts cs (some pos)).w =
        max (1 / 2) (rawPos opts cs pos).w) ∧
    (∀ (opts : PgOptions) (cs : SizeQ) (pos : RectQ),
      opts.slideWidth < max 0 (rawPos opts cs pos).x +
        (rawPos opts cs pos).w →
      max 0 (rawPos opts cs pos).x < opts.slideWidth →
      (calculatePosition opts cs (some pos)).x =
        max 0 (rawPos opts cs pos).x ∧
      (calculatePosition opts cs (some pos)).w =
        max (1 / 2) (opts.slideWidth - max 0 (rawPos opts cs pos).x -
          1 / 10)) ∧
    (∀ (opts : PgOptions) (cs : SizeQ) (pos : RectQ),
      opts.slideHeight ≤ max 0 (rawPos opts cs pos).y →
      0 < (rawPos opts cs pos).h →
      (calculatePosition opts cs (some pos)).y = 1 / 2 ∧
      (calculatePosition opts cs (some pos)).h =
        max (3 / 10) (rawPos opts cs pos).h) ∧
    (∀ (opts : PgOptions) (cs : SizeQ) (pos : RectQ),
      opts.slideHeight < max 0 (rawPos opts cs pos).y +
        (rawPos opts cs pos).h →
      max 0 (rawPos opts cs pos).y < opts.slideHeight →
      (calculatePosition opts cs (some pos)).y =
        max 0 (rawPos opts cs pos).y ∧
      (calculatePosition opts cs (some pos)).h =
        max (3 / 10) (opts.slideHeight - max 0 (rawPos opts cs pos).y -
          1 / 10)) ∧
    (∀ (opts : PgOptions) (cs : SizeQ),
      calculatePosition opts cs none = ⟨1 / 2, 1 / 2, 2, 1 / 2⟩) := by
  refine ⟨?_, ?_, ?_, ?_, ?_, ?_, ?_, fun opts cs => rfl⟩
  · intro opts cs pos
    simp only [PptGenerator.calculatePosition]
    refine ⟨?_, ?_, le_max_left _ _, le_max_left _ _⟩
    · split_ifs <;> norm_num
    · split_ifs <;> norm_num
  · intro opts cs pos h
    simp only [rawPos] at h
    simp only [PptGenerator.calculatePosition]
    split_ifs
    · linarith
    · have hm : max (1 / 2)
          (max (1 / 2) (opts.slideWidth -
            max 0 (StyleConverter.calculatePosition opts.slideWidth
              opts.slideHeight pos cs).x - 1 / 10)) ≤
          opts.slideWidth -
            max 0 (StyleConverter.calculatePosition opts.slideWidth
              opts.slideHeight pos cs).x := by
        refine max_le (by linarith) (max_le (by linarith) (by linarith))
      linarith
    · have hm : max (1 / 2)
          (StyleConverter.calculatePosition opts.slideWidth
            opts.slideHeight pos cs).w ≤
          opts.slideWidth -
            max 0 (StyleConverter.calculatePosition opts.slideWidth
              opts.slideHeight pos cs).x := by
        refine max_le (by linarith) (by linarith)
      linarith
  · intro opts cs pos h
    simp only [rawPos] at h
    simp only [PptGenerator.calculatePosition]
    split_ifs
    · linarith
    · have hm : max (3 / 10)
          (max (3 / 10) (opts.slideHeight -
            max 0 (StyleConverter.calculatePosition opts.slideWidth
              opts.slideHeight pos cs).y - 1 / 10)) ≤
          opts.slideHeight -
            max 0 (StyleConverter.calculatePosition opts.slideWidth
              opts.slideHeight pos cs).y := by
        refine max_le (by linarith) (max_le (by linarith) (by linarith))
      linarith
    · have hm : max (3 / 10)
          (StyleConverter.calculatePosition opts.slideWidth
            opts.slideHeight pos cs).h ≤
          opts.slideHeight -
            max 0 (StyleConverter.calculatePosition opts.slideWidth
              opts.slideHeight pos cs).y := by
        refine max_le (by linarith) (by linarith)
      linarith
  · intro opts cs pos h hw
    simp only [rawPos] at h hw ⊢
    simp only [PptGenerator.calculatePosition]
    split_ifs <;>
      first
        | exact ⟨rfl, rfl⟩
        | linarith
  · intro opts cs pos h h0
    simp only [rawPos] at h h0 ⊢
    simp only [PptGenerator.calculatePosition]
    split_ifs <;>
      first
        | exact ⟨rfl, by simp [← max_assoc]⟩
        | linarith
  · intro opts cs pos h hw
    simp only [rawPos] at h hw ⊢
    simp only [PptGenerator.calculatePosition]
    split_ifs <;>
      first
        | exact ⟨rfl, rfl⟩
        | linarith
  · intro opts cs pos h h0
    simp only [rawPos] at h h0 ⊢
    simp only [PptGenerator.calculatePosition]
    split_ifs <;>
      first
        | exact ⟨rfl, by simp [← max_assoc]⟩
        | linarith

/-- **C1** witness: a 960×540 element at source x = 1920 in a 960×540
container lands wholly past the right edge (raw x = 26.666 ≥ 13.333) and
is relocated to the 0.5 margin with its size kept. -/
theorem calculatePosition_spec_witness :
    (calculatePosition {} ⟨960, 540⟩ (some ⟨1920, 0, 960, 540⟩)).x =
      1 / 2 ∧
    (calculatePosition {} ⟨960, 540⟩ (some ⟨1920, 0, 960, 540⟩)).w =
      max (1 / 2) (rawPos {} ⟨960, 540⟩ ⟨1920, 0, 960, 540⟩).w :=
  calculatePosition_spec.2.2.2.1 {} ⟨960, 540⟩ ⟨1920, 0, 960, 540⟩
    (by norm_num [rawPos, StyleConverter.calculatePosition, pxToInches,
      min_def, max_def])
    (by norm_num [rawPos, StyleConverter.calculatePosition, pxToInches,
      min_def, max_def])

/-- **C1** counterexample to the claim as stated: the same relocated
element keeps its full 13.333-inch width at x = 0.5, so
`x + w = 13.833` overflows the 13.333-inch slide. -/
theorem calculatePosition_overflow_counterexample :
    ({} : PgOptions).slideWidth <
      (calculatePosition {} ⟨960, 540⟩ (some ⟨1920, 0, 960, 540⟩)).x +
        (calculatePosition {} ⟨960, 540⟩ (some ⟨1920, 0, 960, 540⟩)).w := by
  norm_num [PptGenerator.calculatePosition, StyleConverter.calculatePosition,
    pxToInches, min_def, max_def]

/-- The glyph-name lookup key of `renderFontIconToImage` (part_004):
`element.iconName || element.content?.trim() || element.textContent?.trim()
|| ''`.  A parsed element carries neither `content` nor `textContent`, so
the key is the saved `iconName` or the empty string. -/
def fontIconLookupText (e : ElementData) : String :=
  jsOrOS e.core.iconName ""

theorem parseElement_iconName_none (anc : List DomNode) (n : DomNode)
    (d : ℕ) : (parseElement anc n d).core.iconName = none := by
  obtain ⟨tg, attrs, own, drect, inl, comp, children⟩ := n
  rcases hq : qsWithPath (DomNode.mk tg attrs own drect inl comp children)
      [Sel.tag "svg"] with _ | ⟨sv, path⟩ <;>
    simp only [parseElement, ElementData.core, hq,
      apply_ite ElementCore.iconName, ite_self]

/-- **C2** (code bug).  The parser does blank every icon element's text
(both the vector and the font-glyph branch), and text collection returns
nothing for an icon element — but the glyph name is *not* kept in the
dedicated `iconName` field: no parsed element ever has `iconName` set,
so the downstream `renderFontIconToImage` lookup key
(`element.iconName || ''`) is always empty and its name-based glyph
match can never fire.  On `<i class="material-icons">home</i>` the DOM
holds the glyph name `home`, yet the parsed element keeps neither text
nor icon name. -/
theorem icon_text_blanked_spec :
    (∀ (anc : List DomNode) (n : DomNode) (d : ℕ),
      (parseElement anc n d).type = "icon" →
      (parseElement anc n d).text = "") ∧
    (∀ (anc : List DomNode) (n : DomNode) (d : ℕ),
      (parseElement anc n d).core.iconName = none) ∧
    (∀ e : ElementData, e.type = "icon" → collectAllText e = "") ∧
    (∀ (anc : List DomNode) (n : DomNode) (d : ℕ),
      fontIconLookupText (parseElement anc n d) = "") ∧
    ((parseElement [] homeIconNode 0).type = "icon" ∧
     (parseElement [] homeIconNode 0).text = "" ∧
     (parseElement [] homeIconNode 0).core.iconName = none ∧
     allText homeIconNode = "home") := by
  refine ⟨?_, parseElement_iconName_none, ?_, ?_, ?_, ?_, ?_, ?_⟩
  · intro anc n d
    obtain ⟨tg, attrs, own, drect, inl, comp, children⟩ := n
    rcases hq : qsWithPath (DomNode.mk tg attrs own drect inl comp children)
        [Sel.tag "svg"] with _ | ⟨sv, path⟩ <;>
      simp only [parseElement, ElementData.type, ElementData.text,
        ElementData.core, hq, apply_ite ElementCore.type,
        apply_ite ElementCore.text, ite_self] <;>
      intro h <;>
      rw [if_pos h]
  · intro e he
    obtain ⟨core, cs⟩ := e
    simp only [ElementData.type, ElementData.core] at he
    simp only [collectAllText, if_pos he]
  · intro anc n d
    simp only [fontIconLookupText, parseElement_iconName_none anc n d,
      jsOrOS]
  · show (parseElement [] homeIconNode 0).type = "icon"
    decide
  · show (parseElement [] homeIconNode 0).text = ""
    decide
  · show (parseElement [] homeIconNode 0).core.iconName = none
    decide
  · show allText homeIconNode = "home"
    simp [homeIconNode, allText, allTextList]

theorem animStep_time_first (a : AnimationData) (part : String) (v : ℚ)
    (hend : endsInS part = true) (hpf : jsParseFloat part = some v) :
    animStep (a, false) part =
      ({ a with duration := if sIncludes part "ms" then v else v * 1000 },
        true) := by
  simp [animStep, hend, hpf]

theorem animStep_time_second (a : AnimationData) (part : String) (v : ℚ)
    (hend : endsInS part = true) (hpf : jsParseFloat part = some v) :
    animStep (a, true) part =
      ({ a with delay := if sIncludes part "ms" then v else v * 1000 },
        true) := by
  simp [animStep, hend, hpf]

theorem animStep_easing (a : AnimationData) (f : Bool) (part e : String)
    (hnot : endsInS part = false ∨ jsParseFloat part = none)
    (he : easingMap.lookup part = some e) :
    animStep (a, f) part = ({ a with easing := e }, f) := by
  rcases hnot with h | h <;> simp [animStep, h, he]

theorem animStep_infinite (a : AnimationData) (f : Bool) :
    animStep (a, f) "infinite" = ({ a with iterations := -1 }, f) := by
  have h1 : endsInS "infinite" = false := by decide
  have h2 : easingMap.lookup "infinite" = none := by decide
  simp [animStep, h1, h2]

theorem animStep_int (a : AnimationData) (f : Bool) (part : String)
    (k : ℤ) (hnot : endsInS part = false ∨ jsParseFloat part = none)
    (he : easingMap.lookup part = none) (hinf : part ≠ "infinite")
    (hpi : jsParseInt part = some k) :
    animStep (a, f) part = ({ a with iterations := k }, f) := by
  rcases hnot with h | h <;> simp [animStep, h, he, hinf, hpi]

theorem animStep_direction (a : AnimationData) (f : Bool) (part : String)
    (hnot : endsInS part = false ∨ jsParseFloat part = none)
    (he : easingMap.lookup part = none) (hinf : part ≠ "infinite")
    (hpi : jsParseInt part = none)
    (hdir : (["normal", "reverse", "alternate",
      "alternate-reverse"] : List String).contains part = true) :
    animStep (a, f) part = ({ a with direction := part }, f) := by
  have hd : part = "normal" ∨ part = "reverse" ∨ part = "alternate" ∨
      part = "alternate-reverse" := by simpa using hdir
  rcases hnot with h | h <;>
    rcases hd with rfl | rfl | rfl | rfl <;>
      simp [animStep, h, he, hinf, hpi]

theorem animStep_name (a : AnimationData) (f : Bool) (part : String)
    (hnot : endsInS part = false ∨ jsParseFloat part = none)
    (he : easingMap.lookup part = none) (hinf : part ≠ "infinite")
    (hpi : jsParseInt part = none)
    (hdir : (["normal", "reverse", "alternate",
      "alternate-reverse"] : List String).contains part = false)
    (hname : nameFalsy a.name = true)
    (hfill : (["forwards", "backwards", "both", "running",
      "paused"] : List String).contains part = false) :
    animStep (a, f) part = ({ a with name := some part }, f) := by
  have d1 : part ≠ "normal" := by rintro rfl; simp at hdir
  have d2 : part ≠ "reverse" := by rintro rfl; simp at hdir
  have d3 : part ≠ "alternate" := by rintro rfl; simp at hdir
  have d4 : part ≠ "alternate-reverse" := by rintro rfl; simp at hdir
  have f1 : part ≠ "forwards" := by rintro rfl; simp at hfill
  have f2 : part ≠ "backwards" := by rintro rfl; simp at hfill
  have f3 : part ≠ "both" := by rintro rfl; simp at hfill
  have f4 : part ≠ "running" := by rintro rfl; simp at hfill
  have f5 : part ≠ "paused" := by rintro rfl; simp at hfill
  rcases hnot with h | h <;>
    simp [animStep, h, he, hinf, hpi, hname, d1, d2, d3, d4, f1, f2, f3,
      f4, f5]

/-- **C8** (confirmed).  The `animation` shorthand is whitespace-tokenized
and folded through the per-token classifier: the first time-unit token is
the duration and the second the delay; a timing-function keyword maps
through `easingMap`; `infinite` or an integer sets the iteration count; a
direction keyword sets direction; the first otherwise-unclassified token
(and not a fill/play-state keyword) becomes the name.  Conversion looks
the name up exactly in `animationMap`, then by substring over its entries
in order, and otherwise falls back to a generic `Fade` whose category is
`entrance`. -/
theorem animation_shorthand_spec :
    (∀ s : String, parseSingleAnimation s =
      if jsSplitWs s = [] then none
      else some ((jsSplitWs s).foldl animStep ({}, false)).1) ∧
    (∀ (a : AnimationData) (part : String) (v : ℚ),
      endsInS part = true → jsParseFloat part = some v →
      animStep (a, false) part =
        ({ a with duration := if sIncludes part "ms" then v
                              else v * 1000 }, true)) ∧
    (∀ (a : AnimationData) (part : String) (v : ℚ),
      endsInS part = true → jsParseFloat part = some v →
      animStep (a, true) part =
        ({ a with delay := if sIncludes part "ms" then v
                           else v * 1000 }, true)) ∧
    (∀ (a : AnimationData) (f : Bool) (part e : String),
      endsInS part = false ∨ jsParseFloat part = none →
      easingMap.lookup part = some e →
      animStep (a, f) part = ({ a with easing := e }, f)) ∧
    (∀ (a : AnimationData) (f : Bool),
      animStep (a, f) "infinite" = ({ a with iterations := -1 }, f)) ∧
    (∀ (a : AnimationData) (f : Bool) (part : String) (k : ℤ),
      endsInS part = false ∨ jsParseFloat part = none →
      easingMap.lookup part = none → part ≠ "infinite" →
      jsParseInt part = some k →
      animStep (a, f) part = ({ a with iterations := k }, f)) ∧
    (∀ (a : AnimationData) (f : Bool) (part : String),
      endsInS part = false ∨ jsParseFloat part = none →
      easingMap.lookup part = none → part ≠ "infinite" →
      jsParseInt part = none →
      (["normal", "reverse", "alternate",
        "alternate-reverse"] : List String).contains part = true →
      animStep (a, f) part = ({ a with direction := part }, f)) ∧
    (∀ (a : AnimationData) (f : Bool) (part : String),
      endsInS part = false ∨ jsParseFloat part = none →
      easingMap.lookup part = none → part ≠ "infinite" →
      jsParseInt part = none →
      (["normal", "reverse", "alternate",
        "alternate-reverse"] : List String).contains part = false →
      nameFalsy a.name = true →
      (["forwards", "backwards", "both", "running",
        "paused"] : List String).contains part = false →
      animStep (a, f) part = ({ a with name := some part }, f)) ∧
    (∀ (a : AnimationData) (nm : String) (p : PptAnimDef),
      a.name = some nm → nm ≠ "" → animationMap.lookup nm = some p →
      convertToPptAnimation (some a) = some (buildPptAnimConfig p a)) ∧
    (∀ (a : AnimationData) (nm : String) (e : String × PptAnimDef),
      a.name = some nm → nm ≠ "" → animationMap.lookup nm = none →
      animationMap.find?
          (fun en => sIncludes (jsToLower nm) (jsToLower en.1)) = some e →
      convertToPptAnimation (some a) = some (buildPptAnimConfig e.2 a)) ∧
    (∀ (a : AnimationData) (nm : String),
      a.name = some nm → nm ≠ "" → animationMap.lookup nm = none →
      animationMap.find?
          (fun en => sIncludes (jsToLower nm) (jsToLower en.1)) = none →
      convertToPptAnimation (some a) =
        some (buildPptAnimConfig { type := "Fade" } a)) ∧
    (∀ a : AnimationData,
      (buildPptAnimConfig { type := "Fade" } a).type = "Fade" ∧
      (buildPptAnimConfig { type := "Fade" } a).category = "entrance") ∧
    parseSingleAnimation "fadeInUp 2s ease-in 0.5s infinite alternate" =
      some { name := some "fadeInUp", duration := 2000, delay := 500,
             easing := "easeIn", iterations := -1,
             direction := "alternate" } ∧
    convertToPptAnimation (some
        { name := some "fadeInUp", duration := 2000, delay := 500,
          easing := "easeIn", iterations := -1,
          direction := "alternate" }) =
      some { type := "Float", delay := 1 / 2, duration := 2,
             direction := some "Up", subtype := none,
             category := "entrance" } := by
  refine ⟨?_, animStep_time_first, animStep_time_second, animStep_easing,
    animStep_infinite, animStep_int, animStep_direction, animStep_name,
    ?_, ?_, ?_, ?_, ?_, ?_⟩
  · intro s
    by_cases h : jsSplitWs s = [] <;> simp [parseSingleAnimation, h]
  · intro a nm p ha hnm hp
    have hf : nameFalsy (some nm) = false := by simp [nameFalsy, hnm]
    simp [convertToPptAnimation, ha, hf, hp]
  · intro a nm e ha hnm hl hf2
    have hf : nameFalsy (some nm) = false := by simp [nameFalsy, hnm]
    simp [convertToPptAnimation, ha, hf, hl, hf2]
  · intro a nm ha hnm hl hf2
    have hf : nameFalsy (some nm) = false := by simp [nameFalsy, hnm]
    simp [convertToPptAnimation, ha, hf, hl, hf2]
  · intro a
    exact ⟨rfl, rfl⟩
  · have hsplit : jsSplitWs "fadeInUp 2s ease-in 0.5s infinite alternate" =
        ["fadeInUp", "2s", "ease-in", "0.5s", "infinite", "alternate"] := by
      decide
    rw [parseSingleAnimation]
    rw [hsplit, if_neg (by simp)]
    simp only [List.foldl_cons, List.foldl_nil]
    rw [animStep_name {} false "fadeInUp" (Or.inl (by decide)) (by decide)
      (by decide) (by decide) (by decide) (by decide) (by decide)]
    rw [animStep_time_first _ "2s" 2 (by decide)
      (by simp [jsParseFloat, jsParseFloatL, digitsVal])]
    rw [animStep_easing _ _ "ease-in" "easeIn" (Or.inl (by decide))
      (by decide)]
    rw [animStep_time_second _ "0.5s" (1 / 2) (by decide)
      (by simp [jsParseFloat, jsParseFloatL, digitsVal]; norm_num)]
    rw [animStep_infinite]
    rw [animStep_direction _ _ "alternate" (Or.inl (by decide)) (by decide)
      (by decide) (by decide) (by decide)]
    norm_num [show sIncludes "2s" "ms" = false from by decide,
      show sIncludes "0.5s" "ms" = false from by decide]
  · have hlook : animationMap.lookup "fadeInUp" =
        some { type := "Float", direction := some "Up" } := by decide
    have hf : nameFalsy (some "fadeInUp") = false := by decide
    simp only [convertToPptAnimation, hf, Bool.false_eq_true, if_false,
      Option.getD_some, hlook]
    norm_num [buildPptAnimConfig]

/-- **C2** witness: on the concrete Material-Icons element the parsed
text is blanked. -/
theorem icon_text_blanked_spec_witness :
    (parseElement [] homeIconNode 0).text = "" :=
  icon_text_blanked_spec.1 [] homeIconNode 0 (by decide)

/-- **C8** witness: the concrete parsed declaration is converted through
the exact `animationMap` entry for `fadeInUp`. -/
theorem animation_shorthand_spec_witness :
    convertToPptAnimation (some
        { name := some "fadeInUp", duration := 2000, delay := 500,
          easing := "easeIn", iterations := -1,
          direction := "alternate" }) =
      some (buildPptAnimConfig { type := "Float", direction := some "Up" }
        { name := some "fadeInUp", duration := 2000, delay := 500,
          easing := "easeIn", iterations := -1,
          direction := "alternate" }) :=
  animation_shorthand_spec.2.2.2.2.2.2.2.2.1
    { name := some "fadeInUp", duration := 2000, delay := 500,
      easing := "easeIn", iterations := -1, direction := "alternate" }
    "fadeInUp" { type := "Float", direction := some "Up" } rfl
    (by decide) (by decide)

end Claims

end MakePpt
